import Mathlib

set_option maxHeartbeats 2000000
set_option maxRecDepth 8000
set_option synthInstance.maxSize 4096
set_option synthInstance.maxHeartbeats 1000000

/-!
Shallow embedding of the kz80_chip8 CHIP-8 → Z80 static compiler
(src/chip8.rs and src/codegen.rs) and proofs about it.

Modelling conventions:
* Byte slices (`&[u8]`, `Vec<u8>`) are modelled as `List Nat`; the values
  stored are bytes, and theorems that depend on the byte range carry an
  explicit hypothesis where needed.
* Defined integer casts (`as u8`, `as u16`) are modelled by explicit
  masking (`&&& 0xFF`, `% 65536`) exactly where the source casts.
* `pc : u16` counts emitted bytes.  In Rust, letting `pc += 1` overflow is
  an arithmetic error (it panics in checked builds), and the specification
  states that the current offset equals the buffer length, so `pc` is
  modelled as an unbounded `Nat`.
* `HashMap` values are modelled as association lists; `insert` is cons (the
  most recent binding shadows older ones, which is exactly the observable
  `get` behaviour of `HashMap::insert`), and `get` is `List.lookup`.
* Fallible functions return `Except String`, mirroring `Result<_, String>`.
-/

namespace Kz80

/-! ### Rust `format!` hexadecimal / decimal rendering -/

/-- One uppercase hexadecimal digit, as produced by the Rust `{:X}` formatter. -/
def hexDigit (n : Nat) : Char :=
  if n < 10 then Char.ofNat (48 + n) else Char.ofNat (55 + n)

/-- Digits of `n` in base 16, most significant first (at least one digit).
Structural recursion on a fuel bound (`fuel ≥ n` always suffices, since
`n / 16 < n` for `n ≥ 16`). -/
def hexCharsAux : Nat → Nat → List Char
  | 0, n => [hexDigit n]
  | fuel + 1, n =>
    if n < 16 then [hexDigit n]
    else hexCharsAux fuel (n / 16) ++ [hexDigit (n % 16)]

def hexChars (n : Nat) : List Char := hexCharsAux n n

/-- Rust `{:0wX}`: uppercase hex, left-padded with zeros to width `w`. -/
def padHex (w : Nat) (n : Nat) : String :=
  ⟨List.replicate (w - (hexChars n).length) (Char.ofNat 48) ++ hexChars n⟩

/-- Digits of `n` in base 10, most significant first (Rust `{}` on an
integer), with the same fuel scheme as `hexCharsAux`. -/
def decCharsAux : Nat → Nat → List Char
  | 0, n => [Char.ofNat (48 + n)]
  | fuel + 1, n =>
    if n < 10 then [Char.ofNat (48 + n)]
    else decCharsAux fuel (n / 10) ++ [Char.ofNat (48 + n % 10)]

def decChars (n : Nat) : List Char := decCharsAux n n

/-- Rust `{}` rendering of a natural number. -/
def decStr (n : Nat) : String := ⟨decChars n⟩

/-! ### src/chip8.rs — decoder, ROM scanner, disassembler -/

/-- CHIP-8 instruction: a 16-bit opcode paired with the CHIP-8 address
(`0x200` + byte offset) where it was fetched. -/
structure Instruction where
  opcode : Nat
  addr : Nat
deriving DecidableEq, Repr

namespace Instruction

/-- `Instruction::nibbles`: the four 4-bit fields, most significant first. -/
def nibbles (inst : Instruction) : Nat × Nat × Nat × Nat :=
  ((inst.opcode >>> 12) &&& 0xF,
   (inst.opcode >>> 8) &&& 0xF,
   (inst.opcode >>> 4) &&& 0xF,
   inst.opcode &&& 0xF)

/-- `Instruction::x`: second nibble. -/
def x (inst : Instruction) : Nat := (inst.opcode >>> 8) &&& 0xF

/-- `Instruction::y`: third nibble. -/
def y (inst : Instruction) : Nat := (inst.opcode >>> 4) &&& 0xF

/-- `Instruction::n`: last nibble. -/
def n (inst : Instruction) : Nat := inst.opcode &&& 0xF

/-- `Instruction::nn`: last byte. -/
def nn (inst : Instruction) : Nat := inst.opcode &&& 0xFF

/-- `Instruction::nnn`: last 12 bits (an address). -/
def nnn (inst : Instruction) : Nat := inst.opcode &&& 0xFFF

end Instruction

/-- The scanning loop of `chip8::parse`, starting at byte offset `i`.
Each iteration reads a big-endian word, appends the instruction, and stops
after appending a self-jump (`1NNN` whose target equals its own address).
The `i as u16` cast in `0x200 + i as u16` is modelled by `i % 65536`.
The loop advances `i` by 2 while `i + 1 < rom.length`, so a structural fuel
of `rom.length` iterations always suffices. -/
def parseLoop : Nat → List Nat → Nat → List Instruction
  | 0, _, _ => []
  | fuel + 1, rom, i =>
    if i + 1 < rom.length then
      let opcode := (rom.getD i 0) <<< 8 ||| rom.getD (i + 1) 0
      let addr := 0x200 + i % 65536
      let inst : Instruction := ⟨opcode, addr⟩
      if (opcode >>> 12) &&& 0xF = 0x1 ∧ opcode &&& 0xFFF = addr then [inst]
      else inst :: parseLoop fuel rom (i + 2)
    else []

/-- `chip8::parse`: scan a ROM into an instruction stream. -/
def parse (rom : List Nat) : List Instruction := parseLoop rom.length rom 0

/-- `chip8::disasm_instruction`: render one instruction.  The Rust `match` is
an ordered first-match construct, translated here to a ladder of conditionals
on the nibble tuple, in the same arm order. -/
def disasm_instruction (inst : Instruction) : String :=
  let n0 := inst.nibbles.1
  let n1 := inst.nibbles.2.1
  let n2 := inst.nibbles.2.2.1
  let n3 := inst.nibbles.2.2.2
  if n0 = 0x0 ∧ n1 = 0x0 ∧ n2 = 0xE ∧ n3 = 0x0 then "CLS"
  else if n0 = 0x0 ∧ n1 = 0x0 ∧ n2 = 0xE ∧ n3 = 0xE then "RET"
  else if n0 = 0x0 then "SYS  " ++ padHex 3 inst.nnn
  else if n0 = 0x1 then "JP   " ++ padHex 3 inst.nnn
  else if n0 = 0x2 then "CALL " ++ padHex 3 inst.nnn
  else if n0 = 0x3 then "SE   V" ++ padHex 1 inst.x ++ ", " ++ padHex 2 inst.nn
  else if n0 = 0x4 then "SNE  V" ++ padHex 1 inst.x ++ ", " ++ padHex 2 inst.nn
  else if n0 = 0x5 ∧ n3 = 0x0 then "SE   V" ++ padHex 1 inst.x ++ ", V" ++ padHex 1 inst.y
  else if n0 = 0x6 then "LD   V" ++ padHex 1 inst.x ++ ", " ++ padHex 2 inst.nn
  else if n0 = 0x7 then "ADD  V" ++ padHex 1 inst.x ++ ", " ++ padHex 2 inst.nn
  else if n0 = 0x8 ∧ n3 = 0x0 then "LD   V" ++ padHex 1 inst.x ++ ", V" ++ padHex 1 inst.y
  else if n0 = 0x8 ∧ n3 = 0x1 then "OR   V" ++ padHex 1 inst.x ++ ", V" ++ padHex 1 inst.y
  else if n0 = 0x8 ∧ n3 = 0x2 then "AND  V" ++ padHex 1 inst.x ++ ", V" ++ padHex 1 inst.y
  else if n0 = 0x8 ∧ n3 = 0x3 then "XOR  V" ++ padHex 1 inst.x ++ ", V" ++ padHex 1 inst.y
  else if n0 = 0x8 ∧ n3 = 0x4 then "ADD  V" ++ padHex 1 inst.x ++ ", V" ++ padHex 1 inst.y
  else if n0 = 0x8 ∧ n3 = 0x5 then "SUB  V" ++ padHex 1 inst.x ++ ", V" ++ padHex 1 inst.y
  else if n0 = 0x8 ∧ n3 = 0x6 then "SHR  V" ++ padHex 1 inst.x
  else if n0 = 0x8 ∧ n3 = 0x7 then "SUBN V" ++ padHex 1 inst.x ++ ", V" ++ padHex 1 inst.y
  else if n0 = 0x8 ∧ n3 = 0xE then "SHL  V" ++ padHex 1 inst.x
  else if n0 = 0x9 ∧ n3 = 0x0 then "SNE  V" ++ padHex 1 inst.x ++ ", V" ++ padHex 1 inst.y
  else if n0 = 0xA then "LD   I, " ++ padHex 3 inst.nnn
  else if n0 = 0xB then "JP   V0, " ++ padHex 3 inst.nnn
  else if n0 = 0xC then "RND  V" ++ padHex 1 inst.x ++ ", " ++ padHex 2 inst.nn
  else if n0 = 0xD then "DRW  V" ++ padHex 1 inst.x ++ ", V" ++ padHex 1 inst.y ++ ", " ++ decStr inst.n
  else if n0 = 0xE ∧ n2 = 0x9 ∧ n3 = 0xE then "SKP  V" ++ padHex 1 inst.x
  else if n0 = 0xE ∧ n2 = 0xA ∧ n3 = 0x1 then "SKNP V" ++ padHex 1 inst.x
  else if n0 = 0xF ∧ n2 = 0x0 ∧ n3 = 0x7 then "LD   V" ++ padHex 1 inst.x ++ ", DT"
  else if n0 = 0xF ∧ n2 = 0x0 ∧ n3 = 0xA then "LD   V" ++ padHex 1 inst.x ++ ", K"
  else if n0 = 0xF ∧ n2 = 0x1 ∧ n3 = 0x5 then "LD   DT, V" ++ padHex 1 inst.x
  else if n0 = 0xF ∧ n2 = 0x1 ∧ n3 = 0x8 then "LD   ST, V" ++ padHex 1 inst.x
  else if n0 = 0xF ∧ n2 = 0x1 ∧ n3 = 0xE then "ADD  I, V" ++ padHex 1 inst.x
  else if n0 = 0xF ∧ n2 = 0x2 ∧ n3 = 0x9 then "LD   F, V" ++ padHex 1 inst.x
  else if n0 = 0xF ∧ n2 = 0x3 ∧ n3 = 0x3 then "LD   B, V" ++ padHex 1 inst.x
  else if n0 = 0xF ∧ n2 = 0x5 ∧ n3 = 0x5 then "LD   [I], V" ++ padHex 1 inst.x
  else if n0 = 0xF ∧ n2 = 0x6 ∧ n3 = 0x5 then "LD   V" ++ padHex 1 inst.x ++ ", [I]"
  else "??? " ++ padHex 4 inst.opcode

/-- An opcode is recognized when its nibble tuple matches one of the
patterns shared by the disassembler and the code generator (every arm before
the final fallback).  Unrecognized opcodes hit the `???` / no-op fallback. -/
def knownNibbles (n0 n1 n2 n3 : Nat) : Prop :=
  (n0 = 0x0 ∧ n1 = 0x0 ∧ n2 = 0xE ∧ n3 = 0x0) ∨
  (n0 = 0x0 ∧ n1 = 0x0 ∧ n2 = 0xE ∧ n3 = 0xE) ∨
  n0 = 0x0 ∨ n0 = 0x1 ∨ n0 = 0x2 ∨ n0 = 0x3 ∨ n0 = 0x4 ∨
  (n0 = 0x5 ∧ n3 = 0x0) ∨ n0 = 0x6 ∨ n0 = 0x7 ∨
  (n0 = 0x8 ∧ n3 = 0x0) ∨ (n0 = 0x8 ∧ n3 = 0x1) ∨ (n0 = 0x8 ∧ n3 = 0x2) ∨
  (n0 = 0x8 ∧ n3 = 0x3) ∨ (n0 = 0x8 ∧ n3 = 0x4) ∨ (n0 = 0x8 ∧ n3 = 0x5) ∨
  (n0 = 0x8 ∧ n3 = 0x6) ∨ (n0 = 0x8 ∧ n3 = 0x7) ∨ (n0 = 0x8 ∧ n3 = 0xE) ∨
  (n0 = 0x9 ∧ n3 = 0x0) ∨ n0 = 0xA ∨ n0 = 0xB ∨ n0 = 0xC ∨ n0 = 0xD ∨
  (n0 = 0xE ∧ n2 = 0x9 ∧ n3 = 0xE) ∨ (n0 = 0xE ∧ n2 = 0xA ∧ n3 = 0x1) ∨
  (n0 = 0xF ∧ n2 = 0x0 ∧ n3 = 0x7) ∨ (n0 = 0xF ∧ n2 = 0x0 ∧ n3 = 0xA) ∨
  (n0 = 0xF ∧ n2 = 0x1 ∧ n3 = 0x5) ∨ (n0 = 0xF ∧ n2 = 0x1 ∧ n3 = 0x8) ∨
  (n0 = 0xF ∧ n2 = 0x1 ∧ n3 = 0xE) ∨ (n0 = 0xF ∧ n2 = 0x2 ∧ n3 = 0x9) ∨
  (n0 = 0xF ∧ n2 = 0x3 ∧ n3 = 0x3) ∨ (n0 = 0xF ∧ n2 = 0x5 ∧ n3 = 0x5) ∨
  (n0 = 0xF ∧ n2 = 0x6 ∧ n3 = 0x5)

instance knownNibblesDec (n0 n1 n2 n3 : Nat) : Decidable (knownNibbles n0 n1 n2 n3) := by
  unfold knownNibbles; infer_instance

def knownOpcode (inst : Instruction) : Prop :=
  knownNibbles inst.nibbles.1 inst.nibbles.2.1 inst.nibbles.2.2.1 inst.nibbles.2.2.2

instance knownOpcodeDec (inst : Instruction) : Decidable (knownOpcode inst) := by
  unfold knownOpcode; infer_instance

/-! ### src/codegen.rs — memory layout constants -/

def CODE_START : Nat := 0x0100
def CHIP8_V0 : Nat := 0x8000
def CHIP8_I : Nat := 0x8010
def CHIP8_SP : Nat := 0x8012
def CHIP8_DT : Nat := 0x8013
def CHIP8_ST : Nat := 0x8014
def CHIP8_KEY : Nat := 0x8015
def CHIP8_RNG : Nat := 0x8016
def CHIP8_STACK : Nat := 0x8100
def DISPLAY_BUF : Nat := 0x8200
def FONT_DATA : Nat := 0x8300
def CHIP8_RAM : Nat := 0x8400
def ACIA_CTRL : Nat := 0x80
def ACIA_DATA : Nat := 0x81

/-! ### src/codegen.rs — the compiler state and emission primitives -/

/-- The `Compiler` struct. -/
structure Compiler where
  code : List Nat
  pc : Nat
  labels : List (String × Nat)
  forward_refs : List (Nat × String)
  chip8_labels : List (Nat × String)
  chip8_rom : List Nat
deriving DecidableEq, Repr

/-- `Compiler::new()`. -/
def compilerNew : Compiler :=
  { code := [], pc := 0, labels := [], forward_refs := [],
    chip8_labels := [], chip8_rom := [] }

/-- `Compiler::emit`: push one byte and advance `pc`. -/
def emit (c : Compiler) (byte : Nat) : Compiler :=
  { c with code := c.code ++ [byte], pc := c.pc + 1 }

/-- `Compiler::emit16`: low byte then high byte (little-endian), with the
`as u8` casts modelled by masking. -/
def emit16 (c : Compiler) (word : Nat) : Compiler :=
  emit (emit c (word &&& 0xFF)) ((word >>> 8) &&& 0xFF)

/-- `Compiler::label`: record the current offset under `name`. -/
def label (c : Compiler) (name : String) : Compiler :=
  { c with labels := (name, c.pc) :: c.labels }

/-- `Compiler::emit_label_ref`: log a pending patch at the current offset and
emit a two-byte placeholder. -/
def emit_label_ref (c : Compiler) (name : String) : Compiler :=
  emit16 { c with forward_refs := c.forward_refs ++ [(c.pc, name)] } 0

/-- `Compiler::resolve_refs`: patch every recorded reference with the
little-endian address of its label, failing on an undefined label. -/
def resolve_refs (c : Compiler) : Except String Compiler := do
  let code ← c.forward_refs.foldlM
    (fun (code : List Nat) (r : Nat × String) =>
      match List.lookup r.2 c.labels with
      | none => .error ("Undefined label: " ++ r.2)
      | some target =>
        .ok ((code.set r.1 (target &&& 0xFF)).set (r.1 + 1) ((target >>> 8) &&& 0xFF)))
    c.code
  .ok { c with code := code }

/-! Z80 instruction helpers (one per Rust helper, same names and bytes). -/

def jp_label (c : Compiler) (l : String) : Compiler := emit_label_ref (emit c 0xC3) l
def jp_z_label (c : Compiler) (l : String) : Compiler := emit_label_ref (emit c 0xCA) l
def jp_nz_label (c : Compiler) (l : String) : Compiler := emit_label_ref (emit c 0xC2) l
def jr_label (c : Compiler) (l : String) : Compiler := jp_label c l
def jr_z (c : Compiler) (l : String) : Compiler := jp_z_label c l
def jr_nz (c : Compiler) (l : String) : Compiler := jp_nz_label c l
def jr_c (c : Compiler) (l : String) : Compiler := emit_label_ref (emit c 0xDA) l
def jr_nc (c : Compiler) (l : String) : Compiler := emit_label_ref (emit c 0xD2) l
def call_label (c : Compiler) (l : String) : Compiler := emit_label_ref (emit c 0xCD) l

def ret (c : Compiler) : Compiler := emit c 0xC9
def ret_z (c : Compiler) : Compiler := emit c 0xC8

def ld_hl_nn (c : Compiler) (nn : Nat) : Compiler := emit16 (emit c 0x21) nn
def ld_de_nn (c : Compiler) (nn : Nat) : Compiler := emit16 (emit c 0x11) nn
def ld_bc_nn (c : Compiler) (nn : Nat) : Compiler := emit16 (emit c 0x01) nn
def ld_hl_label (c : Compiler) (l : String) : Compiler := emit_label_ref (emit c 0x21) l

def ld_a_n (c : Compiler) (n : Nat) : Compiler := emit (emit c 0x3E) n
def ld_b_n (c : Compiler) (n : Nat) : Compiler := emit (emit c 0x06) n
def ld_c_n (c : Compiler) (n : Nat) : Compiler := emit (emit c 0x0E) n
def ld_d_n (c : Compiler) (n : Nat) : Compiler := emit (emit c 0x16) n
def ld_e_n (c : Compiler) (n : Nat) : Compiler := emit (emit c 0x1E) n
def ld_h_n (c : Compiler) (n : Nat) : Compiler := emit (emit c 0x26) n
def ld_l_n (c : Compiler) (n : Nat) : Compiler := emit (emit c 0x2E) n

def ld_a_hl (c : Compiler) : Compiler := emit c 0x7E
def ld_hl_a (c : Compiler) : Compiler := emit c 0x77
def ld_a_de (c : Compiler) : Compiler := emit c 0x1A
def ld_de_a (c : Compiler) : Compiler := emit c 0x12
def ld_a_b (c : Compiler) : Compiler := emit c 0x78
def ld_a_c (c : Compiler) : Compiler := emit c 0x79
def ld_a_d (c : Compiler) : Compiler := emit c 0x7A
def ld_a_e (c : Compiler) : Compiler := emit c 0x7B
def ld_a_l (c : Compiler) : Compiler := emit c 0x7D
def ld_a_h (c : Compiler) : Compiler := emit c 0x7C
def ld_l_a (c : Compiler) : Compiler := emit c 0x6F
def ld_h_a (c : Compiler) : Compiler := emit c 0x67
def ld_e_a (c : Compiler) : Compiler := emit c 0x5F
def ld_d_a (c : Compiler) : Compiler := emit c 0x57
def ld_b_a (c : Compiler) : Compiler := emit c 0x47
def ld_c_a (c : Compiler) : Compiler := emit c 0x4F
def ld_e_hl (c : Compiler) : Compiler := emit c 0x5E
def ld_d_hl (c : Compiler) : Compiler := emit c 0x56
def ld_l_e (c : Compiler) : Compiler := emit c 0x6B
def ld_h_d (c : Compiler) : Compiler := emit c 0x62
def ld_h_hl (c : Compiler) : Compiler := emit c 0x66

def ld_a_mem (c : Compiler) (addr : Nat) : Compiler := emit16 (emit c 0x3A) addr
def ld_mem_a (c : Compiler) (addr : Nat) : Compiler := emit16 (emit c 0x32) addr

def inc_hl (c : Compiler) : Compiler := emit c 0x23
def inc_de (c : Compiler) : Compiler := emit c 0x13
def inc_bc (c : Compiler) : Compiler := emit c 0x03
def inc_a (c : Compiler) : Compiler := emit c 0x3C
def inc_b (c : Compiler) : Compiler := emit c 0x04
def inc_hl_ind (c : Compiler) : Compiler := emit c 0x34

def dec_a (c : Compiler) : Compiler := emit c 0x3D
def dec_b (c : Compiler) : Compiler := emit c 0x05
def dec_c (c : Compiler) : Compiler := emit c 0x0D
def dec_d (c : Compiler) : Compiler := emit c 0x15
def dec_e (c : Compiler) : Compiler := emit c 0x1D
def dec_hl (c : Compiler) : Compiler := emit c 0x2B
def dec_bc (c : Compiler) : Compiler := emit c 0x0B

def add_hl_de (c : Compiler) : Compiler := emit c 0x19
def add_hl_hl (c : Compiler) : Compiler := emit c 0x29
def add_a_n (c : Compiler) (n : Nat) : Compiler := emit (emit c 0xC6) n
def add_a_hl (c : Compiler) : Compiler := emit c 0x86

def sbc_hl_de (c : Compiler) : Compiler := emit (emit c 0xED) 0x52

def sub_n (c : Compiler) (n : Nat) : Compiler := emit (emit c 0xD6) n
def sub_hl (c : Compiler) : Compiler := emit c 0x96

def and_n (c : Compiler) (n : Nat) : Compiler := emit (emit c 0xE6) n
def and_a_b (c : Compiler) : Compiler := emit c 0xA0
def and_a_c (c : Compiler) : Compiler := emit c 0xA1
def and_a_d (c : Compiler) : Compiler := emit c 0xA2
def and_a_e (c : Compiler) : Compiler := emit c 0xA3
def and_hl (c : Compiler) : Compiler := emit c 0xA6

def or_a (c : Compiler) : Compiler := emit c 0xB7
def or_c (c : Compiler) : Compiler := emit c 0xB1
def or_hl (c : Compiler) : Compiler := emit c 0xB6

def xor_a (c : Compiler) : Compiler := emit c 0xAF
def xor_h (c : Compiler) : Compiler := emit c 0xAC
def xor_hl (c : Compiler) : Compiler := emit c 0xAE

def cp_n (c : Compiler) (n : Nat) : Compiler := emit (emit c 0xFE) n
def cp_hl (c : Compiler) : Compiler := emit c 0xBE

def push_af (c : Compiler) : Compiler := emit c 0xF5
def push_hl (c : Compiler) : Compiler := emit c 0xE5
def push_de (c : Compiler) : Compiler := emit c 0xD5
def pop_af (c : Compiler) : Compiler := emit c 0xF1
def pop_hl (c : Compiler) : Compiler := emit c 0xE1
def pop_de (c : Compiler) : Compiler := emit c 0xD1

def ex_de_hl (c : Compiler) : Compiler := emit c 0xEB

def out_n_a (c : Compiler) (port : Nat) : Compiler := emit (emit c 0xD3) port
def in_a_n (c : Compiler) (port : Nat) : Compiler := emit (emit c 0xDB) port

/-! ### src/codegen.rs — runtime generation -/

/-- The `while self.pc < CODE_START` zero-padding loop of `generate_header`.
Each iteration advances `pc` by one, so a structural fuel of `CODE_START`
iterations always suffices. -/
def padZeros : Nat → Compiler → Compiler
  | 0, c => c
  | fuel + 1, c => if c.pc < CODE_START then padZeros fuel (emit c 0x00) else c

/-- `Compiler::generate_header`: `JP CODE_START` at offset 0, zero-padded to
`CODE_START`. -/
def generate_header (c : Compiler) : Compiler :=
  padZeros CODE_START (emit16 (emit c 0xC3) CODE_START)

/-- `Compiler::generate_init`. -/
def generate_init (c : Compiler) : Compiler :=
  let c := label c "init"
  let c := emit c 0x31
  let c := emit16 c 0x0000
  let c := call_label c "acia_init"
  let c := ld_hl_nn c CHIP8_V0
  let c := ld_bc_nn c 32
  let c := label c "init_clear"
  let c := xor_a c
  let c := ld_hl_a c
  let c := inc_hl c
  let c := dec_bc c
  let c := ld_a_b c
  let c := or_c c
  let c := jr_nz c "init_clear"
  let c := ld_hl_nn c CHIP8_RNG
  let c := ld_a_n c 0xAC
  let c := ld_hl_a c
  let c := inc_hl c
  let c := ld_a_n c 0xE1
  let c := ld_hl_a c
  let c := call_label c "cls"
  let c := call_label c "copy_font"
  let c := call_label c "print_banner"
  jp_label c "main"

/-- The banner bytes `b"CHIP-8 on Z80\r\n"`. -/
def bannerBytes : List Nat :=
  [0x43, 0x48, 0x49, 0x50, 0x2D, 0x38, 0x20, 0x6F, 0x6E, 0x20, 0x5A, 0x38, 0x30, 0x0D, 0x0A]

/-- The 80 font bytes emitted at `font_rom` (16 glyphs of 5 bytes). -/
def fontBytes : List Nat :=
  [0xF0, 0x90, 0x90, 0x90, 0xF0,
   0x20, 0x60, 0x20, 0x20, 0x70,
   0xF0, 0x10, 0xF0, 0x80, 0xF0,
   0xF0, 0x10, 0xF0, 0x10, 0xF0,
   0x90, 0x90, 0xF0, 0x10, 0x10,
   0xF0, 0x80, 0xF0, 0x10, 0xF0,
   0xF0, 0x80, 0xF0, 0x90, 0xF0,
   0xF0, 0x10, 0x20, 0x40, 0x40,
   0xF0, 0x90, 0xF0, 0x90, 0xF0,
   0xF0, 0x90, 0xF0, 0x10, 0xF0,
   0xF0, 0x90, 0xF0, 0x90, 0x90,
   0xE0, 0x90, 0xE0, 0x90, 0xE0,
   0xF0, 0x80, 0x80, 0x80, 0xF0,
   0xE0, 0x90, 0x90, 0x90, 0xE0,
   0xF0, 0x80, 0xF0, 0x80, 0xF0,
   0xF0, 0x80, 0xF0, 0x80, 0x80]

/-- `Compiler::generate_runtime`. -/
def generate_runtime (c : Compiler) : Compiler :=
  let c := label c "acia_init"
  let c := ld_a_n c 0x03
  let c := out_n_a c ACIA_CTRL
  let c := ld_a_n c 0x15
  let c := out_n_a c ACIA_CTRL
  let c := ret c
  let c := label c "print_char"
  let c := push_af c
  let c := label c "print_wait"
  let c := in_a_n c ACIA_CTRL
  let c := emit c 0xE6
  let c := emit c 0x02
  let c := jr_z c "print_wait"
  let c := pop_af c
  let c := out_n_a c ACIA_DATA
  let c := ret c
  let c := label c "print_banner"
  let c := ld_hl_label c "banner_str"
  let c := label c "print_str_loop"
  let c := ld_a_hl c
  let c := or_a c
  let c := ret_z c
  let c := call_label c "print_char"
  let c := inc_hl c
  let c := jr_label c "print_str_loop"
  let c := label c "banner_str"
  let c := bannerBytes.foldl emit c
  let c := emit c 0
  let c := label c "cls"
  let c := ld_hl_nn c DISPLAY_BUF
  let c := ld_bc_nn c 256
  let c := label c "cls_loop"
  let c := xor_a c
  let c := ld_hl_a c
  let c := inc_hl c
  let c := dec_bc c
  let c := ld_a_b c
  let c := or_c c
  let c := jr_nz c "cls_loop"
  let c := jp_label c "refresh_display"
  let c := label c "copy_font"
  let c := ld_hl_label c "font_rom"
  let c := ld_de_nn c FONT_DATA
  let c := ld_bc_nn c 80
  let c := label c "copy_font_loop"
  let c := ld_a_hl c
  let c := ld_de_a c
  let c := inc_hl c
  let c := inc_de c
  let c := dec_bc c
  let c := ld_a_b c
  let c := or_c c
  let c := jr_nz c "copy_font_loop"
  let c := ret c
  let c := label c "font_rom"
  let c := fontBytes.foldl emit c
  let c := label c "rng"
  let c := ld_hl_nn c CHIP8_RNG
  let c := ld_a_hl c
  let c := inc_hl c
  let c := ld_h_hl c
  let c := ld_l_a c
  let c := add_hl_hl c
  let c := emit c 0xCB
  let c := emit c 0x15
  let c := emit c 0xCB
  let c := emit c 0x14
  let c := ld_a_l c
  let c := xor_h c
  let c := ld_l_a c
  let c := push_hl c
  let c := ld_hl_nn c CHIP8_RNG
  let c := pop_de c
  let c := ld_a_e c
  let c := ld_hl_a c
  let c := inc_hl c
  let c := ld_a_d c
  let c := ld_hl_a c
  let c := ld_a_e c
  let c := ret c
  let c := label c "get_key"
  let c := in_a_n c ACIA_CTRL
  let c := emit c 0xE6
  let c := emit c 0x01
  let c := ret_z c
  let c := in_a_n c ACIA_DATA
  let c := cp_n c 0x30
  let c := jr_c c "get_key_alpha"
  let c := cp_n c 0x3A
  let c := jr_nc c "get_key_alpha"
  let c := sub_n c 0x30
  let c := ret c
  let c := label c "get_key_alpha"
  let c := cp_n c 0x61
  let c := jr_c c "get_key_upper"
  let c := cp_n c 0x67
  let c := jr_nc c "get_key_none"
  let c := sub_n c 0x57
  let c := ret c
  let c := label c "get_key_upper"
  let c := cp_n c 0x41
  let c := jr_c c "get_key_none"
  let c := cp_n c 0x47
  let c := jr_nc c "get_key_none"
  let c := sub_n c 0x37
  let c := ret c
  let c := label c "get_key_none"
  let c := ld_a_n c 0xFF
  let c := ret c
  let c := label c "wait_key"
  let c := call_label c "get_key"
  let c := cp_n c 0xFF
  let c := jr_z c "wait_key"
  let c := ret c
  let c := label c "draw_sprite"
  let c := xor_a c
  let c := ld_c_a c
  let c := label c "draw_row"
  let c := ld_a_hl c
  let c := push_hl c
  let c := push_de c
  let c := ex_de_hl c
  let c := ld_e_a c
  let c := ld_a_hl c
  let c := push_af c
  let c := ld_a_e c
  let c := xor_hl c
  let c := ld_hl_a c
  let c := pop_af c
  let c := and_a_e c
  let c := or_c c
  let c := ld_c_a c
  let c := pop_de c
  let c := pop_hl c
  let c := inc_hl c
  let c := push_hl c
  let c := ld_hl_nn c 8
  let c := add_hl_de c
  let c := ex_de_hl c
  let c := pop_hl c
  let c := dec_b c
  let c := jr_nz c "draw_row"
  let c := ld_a_c c
  let c := or_a c
  let c := ret_z c
  let c := ld_a_n c 1
  let c := ret c
  let c := label c "refresh_display"
  let c := ld_a_n c 0x1B
  let c := call_label c "print_char"
  let c := ld_a_n c 0x5B
  let c := call_label c "print_char"
  let c := ld_a_n c 0x32
  let c := call_label c "print_char"
  let c := ld_a_n c 0x3B
  let c := call_label c "print_char"
  let c := ld_a_n c 0x31
  let c := call_label c "print_char"
  let c := ld_a_n c 0x48
  let c := call_label c "print_char"
  let c := ld_hl_nn c DISPLAY_BUF
  let c := ld_d_n c 32
  let c := label c "refresh_row"
  let c := ld_e_n c 8
  let c := label c "refresh_byte"
  let c := ld_a_hl c
  let c := ld_b_n c 8
  let c := label c "refresh_bit"
  let c := emit c 0xCB
  let c := emit c 0x07
  let c := push_af c
  let c := jr_nc c "refresh_space"
  let c := ld_a_n c 0x23
  let c := jr_label c "refresh_out"
  let c := label c "refresh_space"
  let c := ld_a_n c 0x20
  let c := label c "refresh_out"
  let c := call_label c "print_char"
  let c := pop_af c
  let c := dec_b c
  let c := jr_nz c "refresh_bit"
  let c := inc_hl c
  let c := dec_e c
  let c := jr_nz c "refresh_byte"
  let c := ld_a_n c 0x0D
  let c := call_label c "print_char"
  let c := ld_a_n c 0x0A
  let c := call_label c "print_char"
  let c := dec_d c
  let c := jr_nz c "refresh_row"
  ret c

/-! ### src/codegen.rs — per-instruction templates -/

/-- The body of `Compiler::compile_instruction`, abstracted over the four
nibble fields bound by `let (n0, n1, n2, n3) = inst.nibbles()`.  The Rust
`match` on the nibble tuple is an ordered first-match construct, translated
to an equivalent ladder of conditionals in the same arm order.  The
`eprintln!` warning in the `3XNN` arm is host I/O and has no effect on the
compiler state. -/
def compile_instruction_nibbles (c : Compiler) (inst : Instruction)
    (n0 n1 n2 n3 : Nat) : Except String Compiler :=
  if n0 = 0x0 ∧ n1 = 0x0 ∧ n2 = 0xE ∧ n3 = 0x0 then
    .ok (call_label c "cls")
  else if n0 = 0x0 ∧ n1 = 0x0 ∧ n2 = 0xE ∧ n3 = 0xE then
    let c := ld_hl_nn c CHIP8_SP
    let c := dec_hl c
    let c := ld_a_hl c
    let c := dec_a c
    let c := ld_hl_a c
    let c := ld_l_a c
    let c := ld_h_n c 0
    let c := add_hl_hl c
    let c := ld_de_nn c CHIP8_STACK
    let c := add_hl_de c
    let c := ld_e_hl c
    let c := inc_hl c
    let c := ld_d_hl c
    let c := push_de c
    .ok (ret c)
  else if n0 = 0x0 then
    .ok c
  else if n0 = 0x1 then
    match List.lookup inst.nnn c.chip8_labels with
    | some lbl => .ok (jp_label c lbl)
    | none => .error ("Jump to unknown address " ++ padHex 3 inst.nnn)
  else if n0 = 0x2 then
    let c := ld_hl_nn c CHIP8_SP
    let c := ld_a_hl c
    let c := ld_l_a c
    let c := ld_h_n c 0
    let c := add_hl_hl c
    let c := ld_de_nn c CHIP8_STACK
    let c := add_hl_de c
    let c := ld_a_n c ((inst.addr + 2) &&& 0xFF)
    let c := ld_hl_a c
    let c := inc_hl c
    let c := ld_a_n c (((inst.addr + 2) >>> 8) &&& 0xFF)
    let c := ld_hl_a c
    let c := ld_hl_nn c CHIP8_SP
    let c := inc_hl_ind c
    match List.lookup inst.nnn c.chip8_labels with
    | some lbl => .ok (jp_label c lbl)
    | none => .error ("Call to unknown address " ++ padHex 3 inst.nnn)
  else if n0 = 0x3 then
    let c := ld_a_mem c (CHIP8_V0 + inst.x)
    let c := cp_n c inst.nn
    match List.lookup (inst.addr + 4) c.chip8_labels with
    | some lbl => .ok (jp_z_label c lbl)
    | none => .ok c
  else if n0 = 0x4 then
    let c := ld_a_mem c (CHIP8_V0 + inst.x)
    let c := cp_n c inst.nn
    match List.lookup (inst.addr + 4) c.chip8_labels with
    | some lbl => .ok (jp_nz_label c lbl)
    | none => .ok c
  else if n0 = 0x5 ∧ n3 = 0x0 then
    let c := ld_a_mem c (CHIP8_V0 + inst.x)
    let c := ld_hl_nn c (CHIP8_V0 + inst.y)
    let c := cp_hl c
    match List.lookup (inst.addr + 4) c.chip8_labels with
    | some lbl => .ok (jp_z_label c lbl)
    | none => .ok c
  else if n0 = 0x6 then
    let c := ld_a_n c inst.nn
    .ok (ld_mem_a c (CHIP8_V0 + inst.x))
  else if n0 = 0x7 then
    let c := ld_a_mem c (CHIP8_V0 + inst.x)
    let c := add_a_n c inst.nn
    .ok (ld_mem_a c (CHIP8_V0 + inst.x))
  else if n0 = 0x8 ∧ n3 = 0x0 then
    let c := ld_a_mem c (CHIP8_V0 + inst.y)
    .ok (ld_mem_a c (CHIP8_V0 + inst.x))
  else if n0 = 0x8 ∧ n3 = 0x1 then
    let c := ld_a_mem c (CHIP8_V0 + inst.x)
    let c := ld_hl_nn c (CHIP8_V0 + inst.y)
    let c := or_hl c
    .ok (ld_mem_a c (CHIP8_V0 + inst.x))
  else if n0 = 0x8 ∧ n3 = 0x2 then
    let c := ld_a_mem c (CHIP8_V0 + inst.x)
    let c := ld_hl_nn c (CHIP8_V0 + inst.y)
    let c := and_hl c
    .ok (ld_mem_a c (CHIP8_V0 + inst.x))
  else if n0 = 0x8 ∧ n3 = 0x3 then
    let c := ld_a_mem c (CHIP8_V0 + inst.x)
    let c := ld_hl_nn c (CHIP8_V0 + inst.y)
    let c := xor_hl c
    .ok (ld_mem_a c (CHIP8_V0 + inst.x))
  else if n0 = 0x8 ∧ n3 = 0x4 then
    let c := ld_a_mem c (CHIP8_V0 + inst.x)
    let c := ld_hl_nn c (CHIP8_V0 + inst.y)
    let c := add_a_hl c
    let c := ld_mem_a c (CHIP8_V0 + inst.x)
    let c := ld_a_n c 0
    let c := emit c 0xCE
    let c := emit c 0x00
    .ok (ld_mem_a c (CHIP8_V0 + 0xF))
  else if n0 = 0x8 ∧ n3 = 0x5 then
    let c := ld_a_mem c (CHIP8_V0 + inst.x)
    let c := ld_hl_nn c (CHIP8_V0 + inst.y)
    let c := sub_hl c
    let c := ld_mem_a c (CHIP8_V0 + inst.x)
    let c := ld_a_n c 1
    let c := jr_nc c "no_borrow_8xy5"
    let c := xor_a c
    let c := label c "no_borrow_8xy5"
    .ok (ld_mem_a c (CHIP8_V0 + 0xF))
  else if n0 = 0x8 ∧ n3 = 0x6 then
    let c := ld_a_mem c (CHIP8_V0 + inst.x)
    let c := emit c 0xCB
    let c := emit c 0x3F
    let c := ld_mem_a c (CHIP8_V0 + inst.x)
    let c := ld_a_n c 0
    let c := emit c 0xCE
    let c := emit c 0x00
    .ok (ld_mem_a c (CHIP8_V0 + 0xF))
  else if n0 = 0x8 ∧ n3 = 0x7 then
    let c := ld_a_mem c (CHIP8_V0 + inst.y)
    let c := ld_hl_nn c (CHIP8_V0 + inst.x)
    let c := sub_hl c
    let c := ld_mem_a c (CHIP8_V0 + inst.x)
    let c := ld_a_n c 1
    let c := jr_nc c "no_borrow_8xy7"
    let c := xor_a c
    let c := label c "no_borrow_8xy7"
    .ok (ld_mem_a c (CHIP8_V0 + 0xF))
  else if n0 = 0x8 ∧ n3 = 0xE then
    let c := ld_a_mem c (CHIP8_V0 + inst.x)
    let c := emit c 0xCB
    let c := emit c 0x27
    let c := ld_mem_a c (CHIP8_V0 + inst.x)
    let c := ld_a_n c 0
    let c := emit c 0xCE
    let c := emit c 0x00
    .ok (ld_mem_a c (CHIP8_V0 + 0xF))
  else if n0 = 0x9 ∧ n3 = 0x0 then
    let c := ld_a_mem c (CHIP8_V0 + inst.x)
    let c := ld_hl_nn c (CHIP8_V0 + inst.y)
    let c := cp_hl c
    match List.lookup (inst.addr + 4) c.chip8_labels with
    | some lbl => .ok (jp_nz_label c lbl)
    | none => .ok c
  else if n0 = 0xA then
    let c := ld_hl_nn c inst.nnn
    let c := ld_de_nn c CHIP8_I
    let c := ld_a_l c
    let c := ld_de_a c
    let c := inc_de c
    let c := ld_a_h c
    .ok (ld_de_a c)
  else if n0 = 0xB then
    let c := ld_a_mem c CHIP8_V0
    let c := ld_l_a c
    let c := ld_h_n c 0
    let c := ld_de_nn c inst.nnn
    let c := add_hl_de c
    let c := push_hl c
    .ok (ret c)
  else if n0 = 0xC then
    let c := call_label c "rng"
    let c := and_n c inst.nn
    .ok (ld_mem_a c (CHIP8_V0 + inst.x))
  else if n0 = 0xD then
    let c := ld_a_mem c (CHIP8_V0 + inst.y)
    let c := emit c 0xE6
    let c := emit c 0x1F
    let c := ld_l_a c
    let c := ld_h_n c 0
    let c := add_hl_hl c
    let c := add_hl_hl c
    let c := add_hl_hl c
    let c := ld_a_mem c (CHIP8_V0 + inst.x)
    let c := emit c 0xE6
    let c := emit c 0x3F
    let c := emit c 0xCB
    let c := emit c 0x3F
    let c := emit c 0xCB
    let c := emit c 0x3F
    let c := emit c 0xCB
    let c := emit c 0x3F
    let c := ld_e_a c
    let c := ld_d_n c 0
    let c := add_hl_de c
    let c := ld_de_nn c DISPLAY_BUF
    let c := add_hl_de c
    let c := push_hl c
    let c := ld_hl_nn c CHIP8_I
    let c := ld_e_hl c
    let c := inc_hl c
    let c := ld_d_hl c
    let c := ld_a_d c
    let c := or_a c
    let c := jr_nz c ("draw_not_font_" ++ padHex 3 inst.addr)
    let c := ld_a_e c
    let c := cp_n c 0x50
    let c := jr_nc c ("draw_not_font_" ++ padHex 3 inst.addr)
    let c := ld_hl_nn c FONT_DATA
    let c := add_hl_de c
    let c := jr_label c ("draw_have_sprite_" ++ padHex 3 inst.addr)
    let c := label c ("draw_not_font_" ++ padHex 3 inst.addr)
    let c := ld_hl_nn c 0x200
    let c := ex_de_hl c
    let c := or_a c
    let c := sbc_hl_de c
    let c := ex_de_hl c
    let c := ld_hl_label c "chip8_rom_data"
    let c := add_hl_de c
    let c := label c ("draw_have_sprite_" ++ padHex 3 inst.addr)
    let c := pop_de c
    let c := ld_b_n c inst.n
    let c := call_label c "draw_sprite"
    let c := ld_mem_a c (CHIP8_V0 + 0xF)
    .ok (call_label c "refresh_display")
  else if n0 = 0xE ∧ n2 = 0x9 ∧ n3 = 0xE then
    let c := call_label c "get_key"
    let c := ld_hl_nn c (CHIP8_V0 + inst.x)
    let c := cp_hl c
    match List.lookup (inst.addr + 4) c.chip8_labels with
    | some lbl => .ok (jp_z_label c lbl)
    | none => .ok c
  else if n0 = 0xE ∧ n2 = 0xA ∧ n3 = 0x1 then
    let c := call_label c "get_key"
    let c := ld_hl_nn c (CHIP8_V0 + inst.x)
    let c := cp_hl c
    match List.lookup (inst.addr + 4) c.chip8_labels with
    | some lbl => .ok (jp_nz_label c lbl)
    | none => .ok c
  else if n0 = 0xF ∧ n2 = 0x0 ∧ n3 = 0x7 then
    let c := ld_a_mem c CHIP8_DT
    .ok (ld_mem_a c (CHIP8_V0 + inst.x))
  else if n0 = 0xF ∧ n2 = 0x0 ∧ n3 = 0xA then
    let c := call_label c "wait_key"
    .ok (ld_mem_a c (CHIP8_V0 + inst.x))
  else if n0 = 0xF ∧ n2 = 0x1 ∧ n3 = 0x5 then
    let c := ld_a_mem c (CHIP8_V0 + inst.x)
    .ok (ld_mem_a c CHIP8_DT)
  else if n0 = 0xF ∧ n2 = 0x1 ∧ n3 = 0x8 then
    let c := ld_a_mem c (CHIP8_V0 + inst.x)
    .ok (ld_mem_a c CHIP8_ST)
  else if n0 = 0xF ∧ n2 = 0x1 ∧ n3 = 0xE then
    let c := ld_a_mem c (CHIP8_V0 + inst.x)
    let c := ld_l_a c
    let c := ld_h_n c 0
    let c := ld_de_nn c CHIP8_I
    let c := push_de c
    let c := ld_a_de c
    let c := ld_e_a c
    let c := inc_de c
    let c := ld_a_de c
    let c := ld_d_a c
    let c := add_hl_de c
    let c := pop_de c
    let c := ld_a_l c
    let c := ld_de_a c
    let c := inc_de c
    let c := ld_a_h c
    .ok (ld_de_a c)
  else if n0 = 0xF ∧ n2 = 0x2 ∧ n3 = 0x9 then
    let c := ld_a_mem c (CHIP8_V0 + inst.x)
    let c := emit c 0xE6
    let c := emit c 0x0F
    let c := ld_l_a c
    let c := ld_h_n c 0
    let c := add_hl_hl c
    let c := add_hl_hl c
    let c := ld_e_a c
    let c := ld_d_n c 0
    let c := add_hl_de c
    let c := ld_de_nn c CHIP8_I
    let c := ld_a_l c
    let c := ld_de_a c
    let c := inc_de c
    let c := ld_a_h c
    .ok (ld_de_a c)
  else if n0 = 0xF ∧ n2 = 0x3 ∧ n3 = 0x3 then
    let c := ld_a_mem c (CHIP8_V0 + inst.x)
    let c := ld_hl_nn c CHIP8_I
    let c := ld_e_hl c
    let c := inc_hl c
    let c := ld_d_hl c
    let c := ld_hl_nn c (CHIP8_RAM - 0x200)
    let c := add_hl_de c
    let c := ld_b_n c 0
    let c := label c "bcd_hundreds"
    let c := cp_n c 100
    let c := jr_c c "bcd_tens"
    let c := sub_n c 100
    let c := inc_b c
    let c := jr_label c "bcd_hundreds"
    let c := label c "bcd_tens"
    let c := push_af c
    let c := ld_a_b c
    let c := ld_hl_a c
    let c := inc_hl c
    let c := pop_af c
    let c := ld_b_n c 0
    let c := label c "bcd_tens_loop"
    let c := cp_n c 10
    let c := jr_c c "bcd_ones"
    let c := sub_n c 10
    let c := inc_b c
    let c := jr_label c "bcd_tens_loop"
    let c := label c "bcd_ones"
    let c := push_af c
    let c := ld_a_b c
    let c := ld_hl_a c
    let c := inc_hl c
    let c := pop_af c
    .ok (ld_hl_a c)
  else if n0 = 0xF ∧ n2 = 0x5 ∧ n3 = 0x5 then
    let c := ld_hl_nn c CHIP8_I
    let c := ld_e_hl c
    let c := inc_hl c
    let c := ld_d_hl c
    let c := ld_hl_nn c (CHIP8_RAM - 0x200)
    let c := add_hl_de c
    let c := ex_de_hl c
    let c := ld_hl_nn c CHIP8_V0
    let c := ld_b_n c (inst.x + 1)
    let c := label c "store_regs"
    let c := ld_a_hl c
    let c := ld_de_a c
    let c := inc_hl c
    let c := inc_de c
    let c := dec_b c
    .ok (jr_nz c "store_regs")
  else if n0 = 0xF ∧ n2 = 0x6 ∧ n3 = 0x5 then
    let c := ld_hl_nn c CHIP8_I
    let c := ld_e_hl c
    let c := inc_hl c
    let c := ld_d_hl c
    let c := ld_hl_nn c (CHIP8_RAM - 0x200)
    let c := add_hl_de c
    let c := ld_de_nn c CHIP8_V0
    let c := ld_b_n c (inst.x + 1)
    let c := label c "load_regs"
    let c := ld_a_hl c
    let c := ld_de_a c
    let c := inc_hl c
    let c := inc_de c
    let c := dec_b c
    .ok (jr_nz c "load_regs")
  else
    .ok c

/-- `Compiler::compile_instruction`: destructure `inst.nibbles()` and
dispatch on the nibble tuple. -/
def compile_instruction (c : Compiler) (inst : Instruction) : Except String Compiler :=
  compile_instruction_nibbles c inst
    inst.nibbles.1 inst.nibbles.2.1 inst.nibbles.2.2.1 inst.nibbles.2.2.2

/-- The fatal condition of the `1NNN`/`2NNN` templates: a jump or call whose
12-bit target has no `c8_XXX` label in the address map. -/
def Faulty (c : Compiler) (inst : Instruction) : Prop :=
  (inst.nibbles.1 = 0x1 ∨ inst.nibbles.1 = 0x2) ∧
  List.lookup inst.nnn c.chip8_labels = none

/-! ### src/codegen.rs — top-level compile pipeline -/

/-- `format!("c8_{:03X}", a)`: the per-address label name. -/
def c8Name (a : Nat) : String := "c8_" ++ padHex 3 a

/-- The first pass of `compile`: insert a `c8_XXX` label name for every
scanned instruction address. -/
def buildC8Labels (instrs : List Instruction) (m : List (Nat × String)) :
    List (Nat × String) :=
  instrs.foldl (fun m inst => (inst.addr, c8Name inst.addr) :: m) m

/-- The per-instruction loop of `compile`: define the `c8_XXX` label, then
expand the template (`?` propagates the first error). -/
def compileAll (c : Compiler) (instrs : List Instruction) : Except String Compiler :=
  instrs.foldlM (fun c inst => compile_instruction (label c (c8Name inst.addr)) inst) c

/-- The `for byte in &self.chip8_rom.clone()` embedding loop of `compile`. -/
def embedRom (c : Compiler) : Compiler :=
  c.chip8_rom.foldl emit c

/-- The copy loop of `compile`: write `bytes` into `img` starting at index
`i`, skipping writes that fall outside the image. -/
def writeBytes (img : List Nat) (bytes : List Nat) (i : Nat) : List Nat :=
  match bytes with
  | [] => img
  | b :: rest => writeBytes (if i < img.length then img.set i b else img) rest (i + 1)

/-- The 32 KiB zero-initialized image with the code bytes copied in at
position 0 (`let mut rom_image = vec![0u8; 32768]; ...`). -/
def mkImage (code : List Nat) : List Nat :=
  writeBytes (List.replicate 32768 0) code 0

/-- `Compiler::embed_font` — a no-op (the font lives in the code at
`font_rom`). -/
def embed_font (_c : Compiler) (img : List Nat) : List Nat := img

/-- `Compiler::compile` up to (but not including) `resolve_refs`: store the
ROM, scan it, create the address labels, emit header, init, runtime, main
dispatch, all templates, the halt loop, and the embedded ROM copy. -/
def compileCode (c : Compiler) (rom : List Nat) : Except String Compiler := do
  let c := { c with chip8_rom := rom }
  let instructions := parse rom
  let c := { c with chip8_labels := buildC8Labels instructions c.chip8_labels }
  let c := generate_header c
  let c := generate_init c
  let c := generate_runtime c
  let c := label c "main"
  let c := if !instructions.isEmpty then jp_label c (c8Name 0x200) else jp_label c "halt"
  let c ← compileAll c instructions
  let c := label c "halt"
  let c := emit c 0x76
  let c := jp_label c "halt"
  let c := label c "chip8_rom_data"
  .ok (embedRom c)

/-- `Compiler::compile` through `resolve_refs` (the full compiler state just
before the image buffer is built). -/
def compileCore (c : Compiler) (rom : List Nat) : Except String Compiler := do
  let c ← compileCode c rom
  resolve_refs c

/-- `Compiler::compile`: the complete pipeline, producing the 32 KiB image. -/
def compile (c : Compiler) (rom : List Nat) : Except String (List Nat) := do
  let c ← compileCore c rom
  .ok (embed_font c (mkImage c.code))

/-! ### The ROM scanner: characterization of `parse` -/

/-- The halt marker recognized by the scanner: a `1NNN` jump whose 12-bit
target equals its own address. -/
def selfJump (inst : Instruction) : Prop :=
  (inst.opcode >>> 12) &&& 0xF = 0x1 ∧ inst.opcode &&& 0xFFF = inst.addr

instance selfJumpDec (inst : Instruction) : Decidable (selfJump inst) := by
  unfold selfJump; infer_instance

theorem parseLoop_spec (rom : List Nat) :
    ∀ fuel i, rom.length ≤ i + 2 * fuel + 1 →
    (∀ j (hj : j < (parseLoop fuel rom i).length),
        (parseLoop fuel rom i).get ⟨j, hj⟩ =
          ⟨(rom.getD (i + 2 * j) 0) <<< 8 ||| rom.getD (i + 2 * j + 1) 0,
           0x200 + (i + 2 * j) % 65536⟩ ∧
        i + 2 * j + 1 < rom.length) ∧
    (∀ j (hj : j < (parseLoop fuel rom i).length),
        j + 1 < (parseLoop fuel rom i).length →
        ¬ selfJump ((parseLoop fuel rom i).get ⟨j, hj⟩)) ∧
    (rom.length ≤ i + 2 * (parseLoop fuel rom i).length + 1 ∨
        ∃ hne : parseLoop fuel rom i ≠ [],
          selfJump ((parseLoop fuel rom i).getLast hne)) := by
  intro fuel
  induction fuel with
  | zero =>
    intro i hle
    refine ⟨fun j hj => absurd hj (by simp [parseLoop]),
            fun j hj => absurd hj (by simp [parseLoop]),
            Or.inl (by simp [parseLoop]; omega)⟩
  | succ fuel ih =>
    intro i hle
    by_cases hlt : i + 1 < rom.length
    · rw [parseLoop, if_pos hlt]
      simp only []
      set inst : Instruction :=
        ⟨(rom.getD i 0) <<< 8 ||| rom.getD (i + 1) 0, 0x200 + i % 65536⟩ with hinst
      by_cases hsj : ((rom.getD i 0) <<< 8 ||| rom.getD (i + 1) 0) >>> 12 &&& 0xF = 0x1 ∧
          ((rom.getD i 0) <<< 8 ||| rom.getD (i + 1) 0) &&& 0xFFF = 0x200 + i % 65536
      · rw [if_pos hsj]
        refine ⟨?_, ?_, ?_⟩
        · intro j hj
          simp only [List.length_singleton] at hj
          have hj0 : j = 0 := by omega
          subst hj0
          exact ⟨rfl, by simpa using hlt⟩
        · intro j hj h1
          simp only [List.length_singleton] at hj h1
          omega
        · refine Or.inr ⟨by simp, ?_⟩
          simp only [List.getLast_singleton]
          exact hsj
      · rw [if_neg hsj]
        obtain ⟨ih1, ih2, ih3⟩ := ih (i + 2) (by omega)
        refine ⟨?_, ?_, ?_⟩
        · intro j hj
          match j with
          | 0 => exact ⟨rfl, by simpa using hlt⟩
          | j + 1 =>
            simp only [List.length_cons] at hj
            have hj' : j < (parseLoop fuel rom (i + 2)).length := by omega
            have he := (ih1 j hj').1
            have h2 := (ih1 j hj').2
            constructor
            · show (parseLoop fuel rom (i + 2)).get ⟨j, hj'⟩ = _
              rw [he]
              have harg : i + 2 + 2 * j = i + 2 * (j + 1) := by omega
              rw [harg]
            · omega
        · intro j hj h1
          simp only [List.length_cons] at hj h1
          match j with
          | 0 =>
            show ¬ selfJump inst
            simpa [selfJump, hinst] using hsj
          | j + 1 =>
            have hj' : j < (parseLoop fuel rom (i + 2)).length := by omega
            exact ih2 j hj' (by omega)
        · rcases ih3 with h | ⟨hne, hlast⟩
          · exact Or.inl (by simp only [List.length_cons]; omega)
          · refine Or.inr ⟨by simp, ?_⟩
            rwa [List.getLast_cons hne]
    · rw [parseLoop, if_neg hlt]
      refine ⟨fun j hj => absurd hj (by simp), fun j hj => absurd hj (by simp), Or.inl (by simp; omega)⟩

/-- The scanning loop does not depend on the exact fuel value, provided the
fuel bounds the number of remaining iterations. -/
theorem parseLoop_fuel (rom : List Nat) :
    ∀ fuel fuel' i, rom.length ≤ i + 2 * fuel + 1 → rom.length ≤ i + 2 * fuel' + 1 →
    parseLoop fuel rom i = parseLoop fuel' rom i := by
  intro fuel
  induction fuel with
  | zero =>
    intro fuel' i h1 h2
    cases fuel' with
    | zero => rfl
    | succ fuel' =>
      have hstop : ¬ (i + 1 < rom.length) := by omega
      rw [parseLoop, parseLoop, if_neg hstop]
  | succ fuel ih =>
    intro fuel' i h1 h2
    cases fuel' with
    | zero =>
      have hstop : ¬ (i + 1 < rom.length) := by omega
      rw [parseLoop, parseLoop, if_neg hstop]
    | succ fuel' =>
      rw [parseLoop, parseLoop]
      by_cases hlt : i + 1 < rom.length
      · rw [if_pos hlt, if_pos hlt]
        simp only []
        split
        · rfl
        · rw [ih fuel' (i + 2) (by omega) (by omega)]
      · rw [if_neg hlt, if_neg hlt]

theorem parseLoop_dropLast (rom : List Nat) (hodd : rom.length % 2 = 1) :
    ∀ fuel i, rom.length ≤ i + 2 * fuel + 1 → i % 2 = 0 →
    parseLoop fuel rom i = parseLoop fuel rom.dropLast i := by
  intro fuel
  induction fuel with
  | zero =>
    intro i hle hpar
    rfl
  | succ fuel ih =>
    intro i hle hpar
    by_cases hlt : i + 1 < rom.length
    · have hlt' : i + 1 < rom.dropLast.length := by
        simp only [List.length_dropLast]; omega
      have hi : i < rom.dropLast.length := by omega
      have hi1 : i + 1 < rom.dropLast.length := hlt'
      have gd0 : rom.dropLast.getD i 0 = rom.getD i 0 := by
        rw [List.getD_eq_getElem _ _ hi, List.getD_eq_getElem _ _ (by omega : i < rom.length)]
        exact List.getElem_dropLast rom i hi
      have gd1 : rom.dropLast.getD (i + 1) 0 = rom.getD (i + 1) 0 := by
        rw [List.getD_eq_getElem _ _ hi1, List.getD_eq_getElem _ _ (by omega : i + 1 < rom.length)]
        exact List.getElem_dropLast rom (i + 1) hi1
      rw [parseLoop, if_pos hlt]
      conv_rhs => rw [parseLoop]
      rw [if_pos hlt']
      simp only [gd0, gd1]
      rw [ih (i + 2) (by omega) (by omega)]
    · have hlt' : ¬ (i + 1 < rom.dropLast.length) := by
        simp only [List.length_dropLast]; omega
      rw [parseLoop, if_neg hlt]
      conv_rhs => rw [parseLoop]
      rw [if_neg hlt']

/-! ### Bitfield arithmetic helpers for the decoder -/

/-- Shifting left by `k` and or-ing in a value below `2 ^ k` is addition:
the two operands occupy disjoint bit ranges. -/
theorem or_shl (k : Nat) : ∀ a b : Nat, b < 2 ^ k → (a <<< k) ||| b = a * 2 ^ k + b := by
  induction k with
  | zero =>
    intro a b hb
    have hb0 : b = 0 := by omega
    subst hb0
    simp [Nat.shiftLeft_eq]
  | succ k ih =>
    intro a b hb
    have hdecomp : Nat.bit b.bodd b.div2 = b := Nat.bit_decomp b
    have hshift : a <<< (k + 1) = Nat.bit false (a <<< k) := by
      simp [Nat.shiftLeft_succ, Nat.bit, Nat.mul_comm]
    have hdiv : b.div2 < 2 ^ k := by
      have h1 : b.div2 = b / 2 := Nat.div2_val b
      omega
    calc (a <<< (k + 1)) ||| b
        = (Nat.bit false (a <<< k)) ||| (Nat.bit b.bodd b.div2) := by rw [hshift, hdecomp]
      _ = Nat.bit (false || b.bodd) ((a <<< k) ||| b.div2) := Nat.lor_bit false (a <<< k) b.bodd b.div2
      _ = Nat.bit b.bodd (a * 2 ^ k + b.div2) := by rw [Bool.false_or, ih a b.div2 hdiv]
      _ = a * 2 ^ (k + 1) + b := by
          have h1 : b.div2 = b / 2 := Nat.div2_val b
          have h2 : Nat.bit b.bodd (a * 2 ^ k + b.div2) = 2 * (a * 2 ^ k + b.div2) + b.bodd.toNat := by
            simp [Nat.bit]; cases b.bodd <;> simp
          have h3 : b.bodd.toNat = b % 2 := by
            have h4 := Nat.bodd_add_div2 b
            cases hb2 : b.bodd <;> simp [hb2] at h4 ⊢ <;> omega
          rw [h2, h3, h1]; ring_nf; omega

theorem and_15_eq_mod (n : Nat) : n &&& 0xF = n % 16 := Nat.and_pow_two_sub_one_eq_mod n 4

theorem and_255_eq_mod (n : Nat) : n &&& 0xFF = n % 256 := Nat.and_pow_two_sub_one_eq_mod n 8

theorem and_4095_eq_mod (n : Nat) : n &&& 0xFFF = n % 4096 := Nat.and_pow_two_sub_one_eq_mod n 12

/-- Claim C7: for every 16-bit opcode word, the decoder's field extraction
round-trips — if `nibbles` returns `(a, b, c, d)` then
`op = (a <<< 12) ||| (b <<< 8) ||| (c <<< 4) ||| d` — and the accessors
`x`, `y`, `n`, `nn`, `nnn` equal the corresponding bit-fields of the opcode
(written here in quotient/remainder form). -/
theorem c7_decoder_roundtrip (inst : Instruction) (hop : inst.opcode < 65536) :
    inst.opcode =
      (inst.nibbles.1 <<< 12) ||| (inst.nibbles.2.1 <<< 8) |||
      (inst.nibbles.2.2.1 <<< 4) ||| inst.nibbles.2.2.2 ∧
    inst.nibbles.1 = inst.opcode / 4096 ∧
    inst.nibbles.2.1 = inst.opcode / 256 % 16 ∧
    inst.nibbles.2.2.1 = inst.opcode / 16 % 16 ∧
    inst.nibbles.2.2.2 = inst.opcode % 16 ∧
    inst.x = inst.opcode / 256 % 16 ∧
    inst.y = inst.opcode / 16 % 16 ∧
    inst.n = inst.opcode % 16 ∧
    inst.nn = inst.opcode % 256 ∧
    inst.nnn = inst.opcode % 4096 := by
  obtain ⟨op, ad⟩ := inst
  simp only [Instruction.nibbles, Instruction.x, Instruction.y, Instruction.n,
    Instruction.nn, Instruction.nnn] at *
  have s4 : op >>> 4 = op / 16 := Nat.shiftRight_eq_div_pow op 4
  have s8 : op >>> 8 = op / 256 := Nat.shiftRight_eq_div_pow op 8
  have s12 : op >>> 12 = op / 4096 := Nat.shiftRight_eq_div_pow op 12
  have h12 : op / 4096 % 16 = op / 4096 := Nat.mod_eq_of_lt (by omega)
  refine ⟨?_, ?_, ?_, ?_, ?_, ?_, ?_, ?_, ?_, ?_⟩
  all_goals simp only [and_15_eq_mod, and_255_eq_mod, and_4095_eq_mod, s4, s8, s12, h12]
  set a := op / 4096 with ha
  set b := op / 256 % 16 with hb
  set c := op / 16 % 16 with hc
  set d := op % 16 with hd
  have hb16 : b < 16 := Nat.mod_lt _ (by norm_num)
  have hc16 : c < 16 := Nat.mod_lt _ (by norm_num)
  have hd16 : d < 16 := Nat.mod_lt _ (by norm_num)
  have e1 : (a <<< 12) ||| (b <<< 8) = (a * 16 + b) <<< 8 := by
    have hlt : (b <<< 8) < 2 ^ 12 := by rw [Nat.shiftLeft_eq]; simp; omega
    rw [or_shl 12 a _ hlt, Nat.shiftLeft_eq, Nat.shiftLeft_eq]; ring
  have e2 : ((a * 16 + b) <<< 8) ||| (c <<< 4) = ((a * 16 + b) * 16 + c) <<< 4 := by
    have hlt : (c <<< 4) < 2 ^ 8 := by rw [Nat.shiftLeft_eq]; simp; omega
    rw [or_shl 8 _ _ hlt, Nat.shiftLeft_eq, Nat.shiftLeft_eq]; ring
  have e3 : (((a * 16 + b) * 16 + c) <<< 4) ||| d = ((a * 16 + b) * 16 + c) * 16 + d := by
    have hlt : d < 2 ^ 4 := by omega
    rw [or_shl 4 _ _ hlt]; norm_num
  rw [e1, e2, e3, ha, hb, hc, hd]
  omega

/-- Witness for C7 at the concrete opcode `0xABCD`. -/
theorem c7_decoder_roundtrip_witness :
    (0xABCD : Nat) =
      ((⟨0xABCD, 0x200⟩ : Instruction).nibbles.1 <<< 12) |||
      ((⟨0xABCD, 0x200⟩ : Instruction).nibbles.2.1 <<< 8) |||
      ((⟨0xABCD, 0x200⟩ : Instruction).nibbles.2.2.1 <<< 4) |||
      (⟨0xABCD, 0x200⟩ : Instruction).nibbles.2.2.2 :=
  (c7_decoder_roundtrip ⟨0xABCD, 0x200⟩ (by decide)).1

/-- Claim C5: `parse` visits offsets `0, 2, 4, …` while `i + 1 < L`, forms
each opcode big-endian with address `0x200 + i` (as a `u16`, hence the
`% 65536`; for every offset below `0x10000` this is literally `0x200 + i`),
terminates at the earlier of end-of-ROM or the first self-jump (that
instruction included), and ignores the last byte of an odd-length ROM. -/
theorem c5_rom_scanner (rom : List Nat) :
    (∀ j (hj : j < (parse rom).length),
        ((parse rom).get ⟨j, hj⟩).opcode =
          (rom.getD (2 * j) 0) <<< 8 ||| rom.getD (2 * j + 1) 0 ∧
        ((parse rom).get ⟨j, hj⟩).addr = 0x200 + (2 * j) % 65536 ∧
        (2 * j < 65536 → ((parse rom).get ⟨j, hj⟩).addr = 0x200 + 2 * j) ∧
        2 * j + 1 < rom.length) ∧
    (∀ j (hj : j < (parse rom).length),
        j + 1 < (parse rom).length → ¬ selfJump ((parse rom).get ⟨j, hj⟩)) ∧
    (rom.length ≤ 2 * (parse rom).length + 1 ∨
        ∃ hne : parse rom ≠ [], selfJump ((parse rom).getLast hne)) ∧
    (rom.length % 2 = 1 → parse rom = parse rom.dropLast) := by
  obtain ⟨h1, h2, h3⟩ := parseLoop_spec rom rom.length 0 (by omega)
  refine ⟨?_, ?_, ?_, ?_⟩
  · intro j hj
    obtain ⟨he, hb⟩ := h1 j hj
    simp only [Nat.zero_add] at he hb
    refine ⟨?_, ?_, ?_, ?_⟩
    · show ((parseLoop rom.length rom 0).get ⟨j, hj⟩).opcode = _
      rw [he]
    · show ((parseLoop rom.length rom 0).get ⟨j, hj⟩).addr = _
      rw [he]
    · intro hsmall
      show ((parseLoop rom.length rom 0).get ⟨j, hj⟩).addr = _
      rw [he]
      have hm : (2 * j) % 65536 = 2 * j := Nat.mod_eq_of_lt hsmall
      simp [hm]
    · exact hb
  · exact h2
  · simpa using h3
  · intro hodd
    show parseLoop rom.length rom 0 = parseLoop rom.dropLast.length rom.dropLast 0
    rw [parseLoop_dropLast rom hodd rom.length 0 (by omega) (by omega)]
    exact parseLoop_fuel rom.dropLast rom.length rom.dropLast.length 0
      (by simp only [List.length_dropLast]; omega)
      (by simp only [List.length_dropLast]; omega)

/-- Witness for C5 on the ROM `[0x12, 0x00]` (a single self-jump). -/
theorem c5_rom_scanner_witness :
    ((parse [0x12, 0x00]).get ⟨0, by decide⟩).opcode = 0x1200 ∧
    ((parse [0x12, 0x00]).get ⟨0, by decide⟩).addr = 0x200 := by
  have h := (c5_rom_scanner [0x12, 0x00]).1 0 (by decide)
  exact ⟨by rw [h.1]; decide, by rw [h.2.1]⟩

/-- Claim C8: an instruction whose opcode matches none of the recognized
patterns compiles to an empty template — `compile_instruction` succeeds and
leaves the compiler state unchanged, so execution falls through to the next
`c8_` label — and the disassembler renders it with the `???` fallback
followed by the opcode. -/
theorem c8_unknown_opcode (c : Compiler) (inst : Instruction)
    (h : ¬ knownOpcode inst) :
    compile_instruction c inst = .ok c ∧
    disasm_instruction inst = "??? " ++ padHex 4 inst.opcode := by
  have hn1 : ¬ (inst.nibbles.1 = 0x0 ∧ inst.nibbles.2.1 = 0x0 ∧ inst.nibbles.2.2.1 = 0xE ∧ inst.nibbles.2.2.2 = 0x0) := fun hc => h (Or.inl hc)
  have hn2 : ¬ (inst.nibbles.1 = 0x0 ∧ inst.nibbles.2.1 = 0x0 ∧ inst.nibbles.2.2.1 = 0xE ∧ inst.nibbles.2.2.2 = 0xE) := fun hc => h (Or.inr (Or.inl hc))
  have hn3 : ¬ (inst.nibbles.1 = 0x0) := fun hc => h (Or.inr (Or.inr (Or.inl hc)))
  have hn4 : ¬ (inst.nibbles.1 = 0x1) := fun hc => h (Or.inr (Or.inr (Or.inr (Or.inl hc))))
  have hn5 : ¬ (inst.nibbles.1 = 0x2) := fun hc => h (Or.inr (Or.inr (Or.inr (Or.inr (Or.inl hc)))))
  have hn6 : ¬ (inst.nibbles.1 = 0x3) := fun hc => h (Or.inr (Or.inr (Or.inr (Or.inr (Or.inr (Or.inl hc))))))
  have hn7 : ¬ (inst.nibbles.1 = 0x4) := fun hc => h (Or.inr (Or.inr (Or.inr (Or.inr (Or.inr (Or.inr (Or.inl hc)))))))
  have hn8 : ¬ (inst.nibbles.1 = 0x5 ∧ inst.nibbles.2.2.2 = 0x0) := fun hc => h (Or.inr (Or.inr (Or.inr (Or.inr (Or.inr (Or.inr (Or.inr (Or.inl hc))))))))
  have hn9 : ¬ (inst.nibbles.1 = 0x6) := fun hc => h (Or.inr (Or.inr (Or.inr (Or.inr (Or.inr (Or.inr (Or.inr (Or.inr (Or.inl hc)))))))))
  have hn10 : ¬ (inst.nibbles.1 = 0x7) := fun hc => h (Or.inr (Or.inr (Or.inr (Or.inr (Or.inr (Or.inr (Or.inr (Or.inr (Or.inr (Or.inl hc))))))))))
  have hn11 : ¬ (inst.nibbles.1 = 0x8 ∧ inst.nibbles.2.2.2 = 0x0) := fun hc => h (Or.inr (Or.inr (Or.inr (Or.inr (Or.inr (Or.inr (Or.inr (Or.inr (Or.inr (Or.inr (Or.inl hc)))))))))))
  have hn12 : ¬ (inst.nibbles.1 = 0x8 ∧ inst.nibbles.2.2.2 = 0x1) := fun hc => h (Or.inr (Or.inr (Or.inr (Or.inr (Or.inr (Or.inr (Or.inr (Or.inr (Or.inr (Or.inr (Or.inr (Or.inl hc))))))))))))
  have hn13 : ¬ (inst.nibbles.1 = 0x8 ∧ inst.nibbles.2.2.2 = 0x2) := fun hc => h (Or.inr (Or.inr (Or.inr (Or.inr (Or.inr (Or.inr (Or.inr (Or.inr (Or.inr (Or.inr (Or.inr (Or.inr (Or.inl hc)))))))))))))
  have hn14 : ¬ (inst.nibbles.1 = 0x8 ∧ inst.nibbles.2.2.2 = 0x3) := fun hc => h (Or.inr (Or.inr (Or.inr (Or.inr (Or.inr (Or.inr (Or.inr (Or.inr (Or.inr (Or.inr (Or.inr (Or.inr (Or.inr (Or.inl hc))))))))))))))
  have hn15 : ¬ (inst.nibbles.1 = 0x8 ∧ inst.nibbles.2.2.2 = 0x4) := fun hc => h (Or.inr (Or.inr (Or.inr (Or.inr (Or.inr (Or.inr (Or.inr (Or.inr (Or.inr (Or.inr (Or.inr (Or.inr (Or.inr (Or.inr (Or.inl hc)))))))))))))))
  have hn16 : ¬ (inst.nibbles.1 = 0x8 ∧ inst.nibbles.2.2.2 = 0x5) := fun hc => h (Or.inr (Or.inr (Or.inr (Or.inr (Or.inr (Or.inr (Or.inr (Or.inr (Or.inr (Or.inr (Or.inr (Or.inr (Or.inr (Or.inr (Or.inr (Or.inl hc))))))))))))))))
  have hn17 : ¬ (inst.nibbles.1 = 0x8 ∧ inst.nibbles.2.2.2 = 0x6) := fun hc => h (Or.inr (Or.inr (Or.inr (Or.inr (Or.inr (Or.inr (Or.inr (Or.inr (Or.inr (Or.inr (Or.inr (Or.inr (Or.inr (Or.inr (Or.inr (Or.inr (Or.inl hc)))))))))))))))))
  have hn18 : ¬ (inst.nibbles.1 = 0x8 ∧ inst.nibbles.2.2.2 = 0x7) := fun hc => h (Or.inr (Or.inr (Or.inr (Or.inr (Or.inr (Or.inr (Or.inr (Or.inr (Or.inr (Or.inr (Or.inr (Or.inr (Or.inr (Or.inr (Or.inr (Or.inr (Or.inr (Or.inl hc))))))))))))))))))
  have hn19 : ¬ (inst.nibbles.1 = 0x8 ∧ inst.nibbles.2.2.2 = 0xE) := fun hc => h (Or.inr (Or.inr (Or.inr (Or.inr (Or.inr (Or.inr (Or.inr (Or.inr (Or.inr (Or.inr (Or.inr (Or.inr (Or.inr (Or.inr (Or.inr (Or.inr (Or.inr (Or.inr (Or.inl hc)))))))))))))))))))
  have hn20 : ¬ (inst.nibbles.1 = 0x9 ∧ inst.nibbles.2.2.2 = 0x0) := fun hc => h (Or.inr (Or.inr (Or.inr (Or.inr (Or.inr (Or.inr (Or.inr (Or.inr (Or.inr (Or.inr (Or.inr (Or.inr (Or.inr (Or.inr (Or.inr (Or.inr (Or.inr (Or.inr (Or.inr (Or.inl hc))))))))))))))))))))
  have hn21 : ¬ (inst.nibbles.1 = 0xA) := fun hc => h (Or.inr (Or.inr (Or.inr (Or.inr (Or.inr (Or.inr (Or.inr (Or.inr (Or.inr (Or.inr (Or.inr (Or.inr (Or.inr (Or.inr (Or.inr (Or.inr (Or.inr (Or.inr (Or.inr (Or.inr (Or.inl hc)))))))))))))))))))))
  have hn22 : ¬ (inst.nibbles.1 = 0xB) := fun hc => h (Or.inr (Or.inr (Or.inr (Or.inr (Or.inr (Or.inr (Or.inr (Or.inr (Or.inr (Or.inr (Or.inr (Or.inr (Or.inr (Or.inr (Or.inr (Or.inr (Or.inr (Or.inr (Or.inr (Or.inr (Or.inr (Or.inl hc))))))))))))))))))))))
  have hn23 : ¬ (inst.nibbles.1 = 0xC) := fun hc => h (Or.inr (Or.inr (Or.inr (Or.inr (Or.inr (Or.inr (Or.inr (Or.inr (Or.inr (Or.inr (Or.inr (Or.inr (Or.inr (Or.inr (Or.inr (Or.inr (Or.inr (Or.inr (Or.inr (Or.inr (Or.inr (Or.inr (Or.inl hc)))))))))))))))))))))))
  have hn24 : ¬ (inst.nibbles.1 = 0xD) := fun hc => h (Or.inr (Or.inr (Or.inr (Or.inr (Or.inr (Or.inr (Or.inr (Or.inr (Or.inr (Or.inr (Or.inr (Or.inr (Or.inr (Or.inr (Or.inr (Or.inr (Or.inr (Or.inr (Or.inr (Or.inr (Or.inr (Or.inr (Or.inr (Or.inl hc))))))))))))))))))))))))
  have hn25 : ¬ (inst.nibbles.1 = 0xE ∧ inst.nibbles.2.2.1 = 0x9 ∧ inst.nibbles.2.2.2 = 0xE) := fun hc => h (Or.inr (Or.inr (Or.inr (Or.inr (Or.inr (Or.inr (Or.inr (Or.inr (Or.inr (Or.inr (Or.inr (Or.inr (Or.inr (Or.inr (Or.inr (Or.inr (Or.inr (Or.inr (Or.inr (Or.inr (Or.inr (Or.inr (Or.inr (Or.inr (Or.inl hc)))))))))))))))))))))))))
  have hn26 : ¬ (inst.nibbles.1 = 0xE ∧ inst.nibbles.2.2.1 = 0xA ∧ inst.nibbles.2.2.2 = 0x1) := fun hc => h (Or.inr (Or.inr (Or.inr (Or.inr (Or.inr (Or.inr (Or.inr (Or.inr (Or.inr (Or.inr (Or.inr (Or.inr (Or.inr (Or.inr (Or.inr (Or.inr (Or.inr (Or.inr (Or.inr (Or.inr (Or.inr (Or.inr (Or.inr (Or.inr (Or.inr (Or.inl hc))))))))))))))))))))))))))
  have hn27 : ¬ (inst.nibbles.1 = 0xF ∧ inst.nibbles.2.2.1 = 0x0 ∧ inst.nibbles.2.2.2 = 0x7) := fun hc => h (Or.inr (Or.inr (Or.inr (Or.inr (Or.inr (Or.inr (Or.inr (Or.inr (Or.inr (Or.inr (Or.inr (Or.inr (Or.inr (Or.inr (Or.inr (Or.inr (Or.inr (Or.inr (Or.inr (Or.inr (Or.inr (Or.inr (Or.inr (Or.inr (Or.inr (Or.inr (Or.inl hc)))))))))))))))))))))))))))
  have hn28 : ¬ (inst.nibbles.1 = 0xF ∧ inst.nibbles.2.2.1 = 0x0 ∧ inst.nibbles.2.2.2 = 0xA) := fun hc => h (Or.inr (Or.inr (Or.inr (Or.inr (Or.inr (Or.inr (Or.inr (Or.inr (Or.inr (Or.inr (Or.inr (Or.inr (Or.inr (Or.inr (Or.inr (Or.inr (Or.inr (Or.inr (Or.inr (Or.inr (Or.inr (Or.inr (Or.inr (Or.inr (Or.inr (Or.inr (Or.inr (Or.inl hc))))))))))))))))))))))))))))
  have hn29 : ¬ (inst.nibbles.1 = 0xF ∧ inst.nibbles.2.2.1 = 0x1 ∧ inst.nibbles.2.2.2 = 0x5) := fun hc => h (Or.inr (Or.inr (Or.inr (Or.inr (Or.inr (Or.inr (Or.inr (Or.inr (Or.inr (Or.inr (Or.inr (Or.inr (Or.inr (Or.inr (Or.inr (Or.inr (Or.inr (Or.inr (Or.inr (Or.inr (Or.inr (Or.inr (Or.inr (Or.inr (Or.inr (Or.inr (Or.inr (Or.inr (Or.inl hc)))))))))))))))))))))))))))))
  have hn30 : ¬ (inst.nibbles.1 = 0xF ∧ inst.nibbles.2.2.1 = 0x1 ∧ inst.nibbles.2.2.2 = 0x8) := fun hc => h (Or.inr (Or.inr (Or.inr (Or.inr (Or.inr (Or.inr (Or.inr (Or.inr (Or.inr (Or.inr (Or.inr (Or.inr (Or.inr (Or.inr (Or.inr (Or.inr (Or.inr (Or.inr (Or.inr (Or.inr (Or.inr (Or.inr (Or.inr (Or.inr (Or.inr (Or.inr (Or.inr (Or.inr (Or.inr (Or.inl hc))))))))))))))))))))))))))))))
  have hn31 : ¬ (inst.nibbles.1 = 0xF ∧ inst.nibbles.2.2.1 = 0x1 ∧ inst.nibbles.2.2.2 = 0xE) := fun hc => h (Or.inr (Or.inr (Or.inr (Or.inr (Or.inr (Or.inr (Or.inr (Or.inr (Or.inr (Or.inr (Or.inr (Or.inr (Or.inr (Or.inr (Or.inr (Or.inr (Or.inr (Or.inr (Or.inr (Or.inr (Or.inr (Or.inr (Or.inr (Or.inr (Or.inr (Or.inr (Or.inr (Or.inr (Or.inr (Or.inr (Or.inl hc)))))))))))))))))))))))))))))))
  have hn32 : ¬ (inst.nibbles.1 = 0xF ∧ inst.nibbles.2.2.1 = 0x2 ∧ inst.nibbles.2.2.2 = 0x9) := fun hc => h (Or.inr (Or.inr (Or.inr (Or.inr (Or.inr (Or.inr (Or.inr (Or.inr (Or.inr (Or.inr (Or.inr (Or.inr (Or.inr (Or.inr (Or.inr (Or.inr (Or.inr (Or.inr (Or.inr (Or.inr (Or.inr (Or.inr (Or.inr (Or.inr (Or.inr (Or.inr (Or.inr (Or.inr (Or.inr (Or.inr (Or.inr (Or.inl hc))))))))))))))))))))))))))))))))
  have hn33 : ¬ (inst.nibbles.1 = 0xF ∧ inst.nibbles.2.2.1 = 0x3 ∧ inst.nibbles.2.2.2 = 0x3) := fun hc => h (Or.inr (Or.inr (Or.inr (Or.inr (Or.inr (Or.inr (Or.inr (Or.inr (Or.inr (Or.inr (Or.inr (Or.inr (Or.inr (Or.inr (Or.inr (Or.inr (Or.inr (Or.inr (Or.inr (Or.inr (Or.inr (Or.inr (Or.inr (Or.inr (Or.inr (Or.inr (Or.inr (Or.inr (Or.inr (Or.inr (Or.inr (Or.inr (Or.inl hc)))))))))))))))))))))))))))))))))
  have hn34 : ¬ (inst.nibbles.1 = 0xF ∧ inst.nibbles.2.2.1 = 0x5 ∧ inst.nibbles.2.2.2 = 0x5) := fun hc => h (Or.inr (Or.inr (Or.inr (Or.inr (Or.inr (Or.inr (Or.inr (Or.inr (Or.inr (Or.inr (Or.inr (Or.inr (Or.inr (Or.inr (Or.inr (Or.inr (Or.inr (Or.inr (Or.inr (Or.inr (Or.inr (Or.inr (Or.inr (Or.inr (Or.inr (Or.inr (Or.inr (Or.inr (Or.inr (Or.inr (Or.inr (Or.inr (Or.inr (Or.inl hc))))))))))))))))))))))))))))))))))
  have hn35 : ¬ (inst.nibbles.1 = 0xF ∧ inst.nibbles.2.2.1 = 0x6 ∧ inst.nibbles.2.2.2 = 0x5) := fun hc => h (Or.inr (Or.inr (Or.inr (Or.inr (Or.inr (Or.inr (Or.inr (Or.inr (Or.inr (Or.inr (Or.inr (Or.inr (Or.inr (Or.inr (Or.inr (Or.inr (Or.inr (Or.inr (Or.inr (Or.inr (Or.inr (Or.inr (Or.inr (Or.inr (Or.inr (Or.inr (Or.inr (Or.inr (Or.inr (Or.inr (Or.inr (Or.inr (Or.inr (Or.inr hc))))))))))))))))))))))))))))))))))
  constructor
  · unfold compile_instruction compile_instruction_nibbles
    rw [if_neg hn1, if_neg hn2, if_neg hn3, if_neg hn4, if_neg hn5, if_neg hn6, if_neg hn7, if_neg hn8, if_neg hn9, if_neg hn10, if_neg hn11, if_neg hn12, if_neg hn13, if_neg hn14, if_neg hn15, if_neg hn16, if_neg hn17, if_neg hn18, if_neg hn19, if_neg hn20, if_neg hn21, if_neg hn22, if_neg hn23, if_neg hn24, if_neg hn25, if_neg hn26, if_neg hn27, if_neg hn28, if_neg hn29, if_neg hn30, if_neg hn31, if_neg hn32, if_neg hn33, if_neg hn34, if_neg hn35]
  · unfold disasm_instruction
    dsimp only
    rw [if_neg hn1, if_neg hn2, if_neg hn3, if_neg hn4, if_neg hn5, if_neg hn6, if_neg hn7, if_neg hn8, if_neg hn9, if_neg hn10, if_neg hn11, if_neg hn12, if_neg hn13, if_neg hn14, if_neg hn15, if_neg hn16, if_neg hn17, if_neg hn18, if_neg hn19, if_neg hn20, if_neg hn21, if_neg hn22, if_neg hn23, if_neg hn24, if_neg hn25, if_neg hn26, if_neg hn27, if_neg hn28, if_neg hn29, if_neg hn30, if_neg hn31, if_neg hn32, if_neg hn33, if_neg hn34, if_neg hn35]

/-- Witness for C8 at the unknown opcode `0x5001`. -/
theorem c8_unknown_opcode_witness :
    compile_instruction compilerNew ⟨0x5001, 0x200⟩ = .ok compilerNew ∧
    disasm_instruction ⟨0x5001, 0x200⟩ = "??? " ++ padHex 4 0x5001 :=
  c8_unknown_opcode compilerNew ⟨0x5001, 0x200⟩ (by decide)

/-! ### Emission invariants

`Post c c'` relates a compiler state to any state reachable from it by
emission steps: the ROM copy and the `c8_XXX` address map are unchanged,
the code buffer and the label map only grow, and — provided `pc` equals the
buffer length — it stays equal, while every newly recorded forward
reference lies inside the new code region and refers to a name that is
either already defined, one of the fixed runtime entry points, or a
`c8_XXX` name taken from the address map. -/

def baseRefNames : List String :=
  ["cls", "rng", "draw_sprite", "refresh_display", "get_key", "wait_key",
   "halt", "chip8_rom_data"]

def NameOK (c c' : Compiler) (n : String) : Prop :=
  (List.lookup n c'.labels).isSome = true ∨ n ∈ baseRefNames ∨
  ∃ a, List.lookup a c.chip8_labels = some n

def Post (c c' : Compiler) : Prop :=
  c'.chip8_labels = c.chip8_labels ∧
  c'.chip8_rom = c.chip8_rom ∧
  (∃ t, c'.code = c.code ++ t) ∧
  (∀ n, (List.lookup n c.labels).isSome = true → (List.lookup n c'.labels).isSome = true) ∧
  (c.pc = c.code.length → c'.pc = c'.code.length ∧
    ∃ t, c'.forward_refs = c.forward_refs ++ t ∧
      ∀ r ∈ t, c.code.length ≤ r.1 ∧ r.1 + 2 ≤ c'.code.length ∧ NameOK c c' r.2)

theorem lookup_cons_isSome {k : String} {v : Nat} {L : List (String × Nat)} {n : String}
    (h : (List.lookup n L).isSome = true) :
    (List.lookup n ((k, v) :: L)).isSome = true := by
  simp only [List.lookup]
  split <;> simp_all

theorem lookup_cons_self {n : String} {v : Nat} {L : List (String × Nat)} :
    (List.lookup n ((n, v) :: L)).isSome = true := by
  simp [List.lookup]

theorem Post_refl (c : Compiler) : Post c c :=
  ⟨rfl, rfl, ⟨[], by simp⟩, fun _ h => h,
   fun hpc => ⟨hpc, ⟨[], by simp⟩⟩⟩

theorem Post_code_le {c c' : Compiler} (h : Post c c') :
    c.code.length ≤ c'.code.length := by
  obtain ⟨-, -, ⟨t, ht⟩, -, -⟩ := h
  simp [ht]

theorem NameOK_mono {c c₁ c₂ : Compiler} (h12 : Post c₁ c₂) (hc : c₁.chip8_labels = c.chip8_labels)
    {n : String} (hn : NameOK c c₁ n) : NameOK c c₂ n := by
  obtain ⟨-, -, -, hmono, -⟩ := h12
  rcases hn with h | h | h
  · exact Or.inl (hmono n h)
  · exact Or.inr (Or.inl h)
  · exact Or.inr (Or.inr h)

theorem Post_trans {c c₁ c₂ : Compiler} (h1 : Post c c₁) (h2 : Post c₁ c₂) : Post c c₂ := by
  obtain ⟨e1, e2, ⟨t1, ht1⟩, m1, p1⟩ := h1
  obtain ⟨f1, f2, ⟨t2, ht2⟩, m2, p2⟩ := h2
  refine ⟨f1.trans e1, f2.trans e2, ⟨t1 ++ t2, by simp [ht2, ht1]⟩,
    fun n h => m2 n (m1 n h), ?_⟩
  intro hpc
  obtain ⟨hpc1, ⟨s1, hs1, hr1⟩⟩ := p1 hpc
  obtain ⟨hpc2, ⟨s2, hs2, hr2⟩⟩ := p2 hpc1
  have hlen12 : c₁.code.length ≤ c₂.code.length := by simp [ht2]
  refine ⟨hpc2, ⟨s1 ++ s2, by simp [hs2, hs1], ?_⟩⟩
  intro r hr
  rcases List.mem_append.mp hr with hr | hr
  · obtain ⟨b1, b2, b3⟩ := hr1 r hr
    exact ⟨b1, le_trans b2 hlen12, NameOK_mono ⟨f1, f2, ⟨t2, ht2⟩, m2, p2⟩ e1 b3⟩
  · obtain ⟨b1, b2, b3⟩ := hr2 r hr
    have hlen01 : c.code.length ≤ c₁.code.length := by simp [ht1]
    refine ⟨le_trans hlen01 b1, b2, ?_⟩
    rcases b3 with h | h | h
    · exact Or.inl h
    · exact Or.inr (Or.inl h)
    · exact Or.inr (Or.inr (by rwa [e1] at h))

/-- `label` only conses onto the label map. -/
theorem Post_label (c : Compiler) (n : String) : Post c (label c n) := by
  refine ⟨rfl, rfl, ⟨[], by simp [label]⟩, ?_, ?_⟩
  · intro m hm
    exact lookup_cons_isSome hm
  · intro hpc
    exact ⟨hpc, ⟨[], by simp [label]⟩⟩

/-- `emit` appends one byte. -/
theorem Post_emit (c : Compiler) (b : Nat) : Post c (emit c b) := by
  refine ⟨rfl, rfl, ⟨[b], rfl⟩, fun m hm => hm, ?_⟩
  intro hpc
  refine ⟨by simp [emit, hpc], ⟨[], by simp [emit]⟩⟩

/-- `jp_label` to a runtime/base name or a recorded `c8_XXX` name. -/
theorem Post_jp_label (c : Compiler) (n : String)
    (hn : n ∈ baseRefNames ∨ ∃ a, List.lookup a c.chip8_labels = some n) :
    Post c (jp_label c n) := by
  simp only [jp_label, emit_label_ref, emit16, emit, List.append_assoc,
    List.cons_append, List.singleton_append, List.nil_append]
  refine ⟨rfl, rfl, ⟨_, rfl⟩, fun m hm => hm, ?_⟩
  intro hpc
  constructor
  · simp [List.length_append, hpc]
  · refine ⟨_, rfl, ?_⟩
    intro r hr
    simp only [List.mem_singleton] at hr
    subst hr
    refine ⟨by simp; omega, by simp [List.length_append]; omega, ?_⟩
    rcases hn with h | h
    · exact Or.inr (Or.inl h)
    · exact Or.inr (Or.inr h)

/-- Every successful template expansion is an emission step: it preserves
the ROM and the address map, only appends code and labels, keeps
`pc = code.length`, and every forward reference it records lies in the new
code region and names a defined label, a runtime entry point, or a mapped
`c8_XXX` label. -/
theorem compile_instruction_nibbles_post (c : Compiler) (inst : Instruction)
    (n0 n1 n2 n3 : Nat) (c' : Compiler)
    (h : compile_instruction_nibbles c inst n0 n1 n2 n3 = .ok c') : Post c c' := by
  unfold compile_instruction_nibbles at h
  by_cases h1 : n0 = 0x0 ∧ n1 = 0x0 ∧ n2 = 0xE ∧ n3 = 0x0
  · rw [if_pos h1] at h
    simp only [jp_label, jp_z_label, jp_nz_label, jr_label, jr_z, jr_nz, jr_c, jr_nc, call_label, ret, ret_z, ld_hl_nn, ld_de_nn, ld_bc_nn, ld_hl_label, ld_a_n, ld_b_n, ld_c_n, ld_d_n, ld_e_n, ld_h_n, ld_l_n, ld_a_hl, ld_hl_a, ld_a_de, ld_de_a, ld_a_b, ld_a_c, ld_a_d, ld_a_e, ld_a_l, ld_a_h, ld_l_a, ld_h_a, ld_e_a, ld_d_a, ld_b_a, ld_c_a, ld_e_hl, ld_d_hl, ld_l_e, ld_h_d, ld_h_hl, ld_a_mem, ld_mem_a, inc_hl, inc_de, inc_bc, inc_a, inc_b, inc_hl_ind, dec_a, dec_b, dec_c, dec_d, dec_e, dec_hl, dec_bc, add_hl_de, add_hl_hl, add_a_n, add_a_hl, sbc_hl_de, sub_n, sub_hl, and_n, and_a_b, and_a_c, and_a_d, and_a_e, and_hl, or_a, or_c, or_hl, xor_a, xor_h, xor_hl, cp_n, cp_hl, push_af, push_hl, push_de, pop_af, pop_hl, pop_de, ex_de_hl, out_n_a, in_a_n, label, emit_label_ref, emit16, emit, List.append_assoc, List.cons_append, List.singleton_append, List.nil_append] at h
    injection h with h
    subst h
    refine ⟨rfl, rfl, ⟨_, rfl⟩, ?_, ?_⟩
    · intro nm hnm
      repeat (first | exact hnm | apply lookup_cons_isSome)
    · intro hpc
      refine ⟨by simp only [List.length_append, List.length_cons, List.length_nil]; omega, ?_⟩
      refine ⟨_, rfl, ?_⟩
      intro r hr
      simp only [List.mem_cons, List.mem_singleton, List.not_mem_nil, or_false] at hr
      subst hr
      refine ⟨by simp; omega, by simp only [List.length_append, List.length_cons, List.length_nil]; omega, ?_⟩
      exact Or.inr (Or.inl (by simp [baseRefNames]))
  · rw [if_neg h1] at h
    by_cases h2 : n0 = 0x0 ∧ n1 = 0x0 ∧ n2 = 0xE ∧ n3 = 0xE
    · rw [if_pos h2] at h
      simp only [jp_label, jp_z_label, jp_nz_label, jr_label, jr_z, jr_nz, jr_c, jr_nc, call_label, ret, ret_z, ld_hl_nn, ld_de_nn, ld_bc_nn, ld_hl_label, ld_a_n, ld_b_n, ld_c_n, ld_d_n, ld_e_n, ld_h_n, ld_l_n, ld_a_hl, ld_hl_a, ld_a_de, ld_de_a, ld_a_b, ld_a_c, ld_a_d, ld_a_e, ld_a_l, ld_a_h, ld_l_a, ld_h_a, ld_e_a, ld_d_a, ld_b_a, ld_c_a, ld_e_hl, ld_d_hl, ld_l_e, ld_h_d, ld_h_hl, ld_a_mem, ld_mem_a, inc_hl, inc_de, inc_bc, inc_a, inc_b, inc_hl_ind, dec_a, dec_b, dec_c, dec_d, dec_e, dec_hl, dec_bc, add_hl_de, add_hl_hl, add_a_n, add_a_hl, sbc_hl_de, sub_n, sub_hl, and_n, and_a_b, and_a_c, and_a_d, and_a_e, and_hl, or_a, or_c, or_hl, xor_a, xor_h, xor_hl, cp_n, cp_hl, push_af, push_hl, push_de, pop_af, pop_hl, pop_de, ex_de_hl, out_n_a, in_a_n, label, emit_label_ref, emit16, emit, List.append_assoc, List.cons_append, List.singleton_append, List.nil_append] at h
      injection h with h
      subst h
      refine ⟨rfl, rfl, ⟨_, rfl⟩, ?_, ?_⟩
      · intro nm hnm
        repeat (first | exact hnm | apply lookup_cons_isSome)
      · intro hpc
        refine ⟨by simp only [List.length_append, List.length_cons, List.length_nil]; omega, ?_⟩
        exact ⟨[], by simp, by simp⟩
    · rw [if_neg h2] at h
      by_cases h3 : n0 = 0x0
      · rw [if_pos h3] at h
        injection h with h
        subst h
        exact Post_refl c
      · rw [if_neg h3] at h
        by_cases h4 : n0 = 0x1
        · rw [if_pos h4] at h
          simp only [jp_label, jp_z_label, jp_nz_label, jr_label, jr_z, jr_nz, jr_c, jr_nc, call_label, ret, ret_z, ld_hl_nn, ld_de_nn, ld_bc_nn, ld_hl_label, ld_a_n, ld_b_n, ld_c_n, ld_d_n, ld_e_n, ld_h_n, ld_l_n, ld_a_hl, ld_hl_a, ld_a_de, ld_de_a, ld_a_b, ld_a_c, ld_a_d, ld_a_e, ld_a_l, ld_a_h, ld_l_a, ld_h_a, ld_e_a, ld_d_a, ld_b_a, ld_c_a, ld_e_hl, ld_d_hl, ld_l_e, ld_h_d, ld_h_hl, ld_a_mem, ld_mem_a, inc_hl, inc_de, inc_bc, inc_a, inc_b, inc_hl_ind, dec_a, dec_b, dec_c, dec_d, dec_e, dec_hl, dec_bc, add_hl_de, add_hl_hl, add_a_n, add_a_hl, sbc_hl_de, sub_n, sub_hl, and_n, and_a_b, and_a_c, and_a_d, and_a_e, and_hl, or_a, or_c, or_hl, xor_a, xor_h, xor_hl, cp_n, cp_hl, push_af, push_hl, push_de, pop_af, pop_hl, pop_de, ex_de_hl, out_n_a, in_a_n, label, emit_label_ref, emit16, emit, List.append_assoc, List.cons_append, List.singleton_append, List.nil_append] at h
          split at h
          next lbl heq =>
            injection h with h
            subst h
            refine ⟨rfl, rfl, ⟨_, rfl⟩, ?_, ?_⟩
            · intro nm hnm
              repeat (first | exact hnm | apply lookup_cons_isSome)
            · intro hpc
              refine ⟨by simp only [List.length_append, List.length_cons, List.length_nil]; omega, ?_⟩
              refine ⟨_, rfl, ?_⟩
              intro r hr
              simp only [List.mem_cons, List.mem_singleton, List.not_mem_nil, or_false] at hr
              subst hr
              refine ⟨by simp; omega, by simp only [List.length_append, List.length_cons, List.length_nil]; omega, ?_⟩
              exact Or.inr (Or.inr ⟨inst.nnn, heq⟩)
          next heq => exact Except.noConfusion h
        · rw [if_neg h4] at h
          by_cases h5 : n0 = 0x2
          · rw [if_pos h5] at h
            simp only [jp_label, jp_z_label, jp_nz_label, jr_label, jr_z, jr_nz, jr_c, jr_nc, call_label, ret, ret_z, ld_hl_nn, ld_de_nn, ld_bc_nn, ld_hl_label, ld_a_n, ld_b_n, ld_c_n, ld_d_n, ld_e_n, ld_h_n, ld_l_n, ld_a_hl, ld_hl_a, ld_a_de, ld_de_a, ld_a_b, ld_a_c, ld_a_d, ld_a_e, ld_a_l, ld_a_h, ld_l_a, ld_h_a, ld_e_a, ld_d_a, ld_b_a, ld_c_a, ld_e_hl, ld_d_hl, ld_l_e, ld_h_d, ld_h_hl, ld_a_mem, ld_mem_a, inc_hl, inc_de, inc_bc, inc_a, inc_b, inc_hl_ind, dec_a, dec_b, dec_c, dec_d, dec_e, dec_hl, dec_bc, add_hl_de, add_hl_hl, add_a_n, add_a_hl, sbc_hl_de, sub_n, sub_hl, and_n, and_a_b, and_a_c, and_a_d, and_a_e, and_hl, or_a, or_c, or_hl, xor_a, xor_h, xor_hl, cp_n, cp_hl, push_af, push_hl, push_de, pop_af, pop_hl, pop_de, ex_de_hl, out_n_a, in_a_n, label, emit_label_ref, emit16, emit, List.append_assoc, List.cons_append, List.singleton_append, List.nil_append] at h
            split at h
            next lbl heq =>
              injection h with h
              subst h
              refine ⟨rfl, rfl, ⟨_, rfl⟩, ?_, ?_⟩
              · intro nm hnm
                repeat (first | exact hnm | apply lookup_cons_isSome)
              · intro hpc
                refine ⟨by simp only [List.length_append, List.length_cons, List.length_nil]; omega, ?_⟩
                refine ⟨_, rfl, ?_⟩
                intro r hr
                simp only [List.mem_cons, List.mem_singleton, List.not_mem_nil, or_false] at hr
                subst hr
                refine ⟨by simp; omega, by simp only [List.length_append, List.length_cons, List.length_nil]; omega, ?_⟩
                exact Or.inr (Or.inr ⟨inst.nnn, heq⟩)
            next heq => exact Except.noConfusion h
          · rw [if_neg h5] at h
            by_cases h6 : n0 = 0x3
            · rw [if_pos h6] at h
              simp only [jp_label, jp_z_label, jp_nz_label, jr_label, jr_z, jr_nz, jr_c, jr_nc, call_label, ret, ret_z, ld_hl_nn, ld_de_nn, ld_bc_nn, ld_hl_label, ld_a_n, ld_b_n, ld_c_n, ld_d_n, ld_e_n, ld_h_n, ld_l_n, ld_a_hl, ld_hl_a, ld_a_de, ld_de_a, ld_a_b, ld_a_c, ld_a_d, ld_a_e, ld_a_l, ld_a_h, ld_l_a, ld_h_a, ld_e_a, ld_d_a, ld_b_a, ld_c_a, ld_e_hl, ld_d_hl, ld_l_e, ld_h_d, ld_h_hl, ld_a_mem, ld_mem_a, inc_hl, inc_de, inc_bc, inc_a, inc_b, inc_hl_ind, dec_a, dec_b, dec_c, dec_d, dec_e, dec_hl, dec_bc, add_hl_de, add_hl_hl, add_a_n, add_a_hl, sbc_hl_de, sub_n, sub_hl, and_n, and_a_b, and_a_c, and_a_d, and_a_e, and_hl, or_a, or_c, or_hl, xor_a, xor_h, xor_hl, cp_n, cp_hl, push_af, push_hl, push_de, pop_af, pop_hl, pop_de, ex_de_hl, out_n_a, in_a_n, label, emit_label_ref, emit16, emit, List.append_assoc, List.cons_append, List.singleton_append, List.nil_append] at h
              split at h
              next lbl heq =>
                injection h with h
                subst h
                refine ⟨rfl, rfl, ⟨_, rfl⟩, ?_, ?_⟩
                · intro nm hnm
                  repeat (first | exact hnm | apply lookup_cons_isSome)
                · intro hpc
                  refine ⟨by simp only [List.length_append, List.length_cons, List.length_nil]; omega, ?_⟩
                  refine ⟨_, rfl, ?_⟩
                  intro r hr
                  simp only [List.mem_cons, List.mem_singleton, List.not_mem_nil, or_false] at hr
                  subst hr
                  refine ⟨by simp; omega, by simp only [List.length_append, List.length_cons, List.length_nil]; omega, ?_⟩
                  exact Or.inr (Or.inr ⟨(inst.addr + 4), heq⟩)
              next heq =>
                injection h with h
                subst h
                refine ⟨rfl, rfl, ⟨_, rfl⟩, ?_, ?_⟩
                · intro nm hnm
                  repeat (first | exact hnm | apply lookup_cons_isSome)
                · intro hpc
                  refine ⟨by simp only [List.length_append, List.length_cons, List.length_nil]; omega, ?_⟩
                  exact ⟨[], by simp, by simp⟩
            · rw [if_neg h6] at h
              by_cases h7 : n0 = 0x4
              · rw [if_pos h7] at h
                simp only [jp_label, jp_z_label, jp_nz_label, jr_label, jr_z, jr_nz, jr_c, jr_nc, call_label, ret, ret_z, ld_hl_nn, ld_de_nn, ld_bc_nn, ld_hl_label, ld_a_n, ld_b_n, ld_c_n, ld_d_n, ld_e_n, ld_h_n, ld_l_n, ld_a_hl, ld_hl_a, ld_a_de, ld_de_a, ld_a_b, ld_a_c, ld_a_d, ld_a_e, ld_a_l, ld_a_h, ld_l_a, ld_h_a, ld_e_a, ld_d_a, ld_b_a, ld_c_a, ld_e_hl, ld_d_hl, ld_l_e, ld_h_d, ld_h_hl, ld_a_mem, ld_mem_a, inc_hl, inc_de, inc_bc, inc_a, inc_b, inc_hl_ind, dec_a, dec_b, dec_c, dec_d, dec_e, dec_hl, dec_bc, add_hl_de, add_hl_hl, add_a_n, add_a_hl, sbc_hl_de, sub_n, sub_hl, and_n, and_a_b, and_a_c, and_a_d, and_a_e, and_hl, or_a, or_c, or_hl, xor_a, xor_h, xor_hl, cp_n, cp_hl, push_af, push_hl, push_de, pop_af, pop_hl, pop_de, ex_de_hl, out_n_a, in_a_n, label, emit_label_ref, emit16, emit, List.append_assoc, List.cons_append, List.singleton_append, List.nil_append] at h
                split at h
                next lbl heq =>
                  injection h with h
                  subst h
                  refine ⟨rfl, rfl, ⟨_, rfl⟩, ?_, ?_⟩
                  · intro nm hnm
                    repeat (first | exact hnm | apply lookup_cons_isSome)
                  · intro hpc
                    refine ⟨by simp only [List.length_append, List.length_cons, List.length_nil]; omega, ?_⟩
                    refine ⟨_, rfl, ?_⟩
                    intro r hr
                    simp only [List.mem_cons, List.mem_singleton, List.not_mem_nil, or_false] at hr
                    subst hr
                    refine ⟨by simp; omega, by simp only [List.length_append, List.length_cons, List.length_nil]; omega, ?_⟩
                    exact Or.inr (Or.inr ⟨(inst.addr + 4), heq⟩)
                next heq =>
                  injection h with h
                  subst h
                  refine ⟨rfl, rfl, ⟨_, rfl⟩, ?_, ?_⟩
                  · intro nm hnm
                    repeat (first | exact hnm | apply lookup_cons_isSome)
                  · intro hpc
                    refine ⟨by simp only [List.length_append, List.length_cons, List.length_nil]; omega, ?_⟩
                    exact ⟨[], by simp, by simp⟩
              · rw [if_neg h7] at h
                by_cases h8 : n0 = 0x5 ∧ n3 = 0x0
                · rw [if_pos h8] at h
                  simp only [jp_label, jp_z_label, jp_nz_label, jr_label, jr_z, jr_nz, jr_c, jr_nc, call_label, ret, ret_z, ld_hl_nn, ld_de_nn, ld_bc_nn, ld_hl_label, ld_a_n, ld_b_n, ld_c_n, ld_d_n, ld_e_n, ld_h_n, ld_l_n, ld_a_hl, ld_hl_a, ld_a_de, ld_de_a, ld_a_b, ld_a_c, ld_a_d, ld_a_e, ld_a_l, ld_a_h, ld_l_a, ld_h_a, ld_e_a, ld_d_a, ld_b_a, ld_c_a, ld_e_hl, ld_d_hl, ld_l_e, ld_h_d, ld_h_hl, ld_a_mem, ld_mem_a, inc_hl, inc_de, inc_bc, inc_a, inc_b, inc_hl_ind, dec_a, dec_b, dec_c, dec_d, dec_e, dec_hl, dec_bc, add_hl_de, add_hl_hl, add_a_n, add_a_hl, sbc_hl_de, sub_n, sub_hl, and_n, and_a_b, and_a_c, and_a_d, and_a_e, and_hl, or_a, or_c, or_hl, xor_a, xor_h, xor_hl, cp_n, cp_hl, push_af, push_hl, push_de, pop_af, pop_hl, pop_de, ex_de_hl, out_n_a, in_a_n, label, emit_label_ref, emit16, emit, List.append_assoc, List.cons_append, List.singleton_append, List.nil_append] at h
                  split at h
                  next lbl heq =>
                    injection h with h
                    subst h
                    refine ⟨rfl, rfl, ⟨_, rfl⟩, ?_, ?_⟩
                    · intro nm hnm
                      repeat (first | exact hnm | apply lookup_cons_isSome)
                    · intro hpc
                      refine ⟨by simp only [List.length_append, List.length_cons, List.length_nil]; omega, ?_⟩
                      refine ⟨_, rfl, ?_⟩
                      intro r hr
                      simp only [List.mem_cons, List.mem_singleton, List.not_mem_nil, or_false] at hr
                      subst hr
                      refine ⟨by simp; omega, by simp only [List.length_append, List.length_cons, List.length_nil]; omega, ?_⟩
                      exact Or.inr (Or.inr ⟨(inst.addr + 4), heq⟩)
                  next heq =>
                    injection h with h
                    subst h
                    refine ⟨rfl, rfl, ⟨_, rfl⟩, ?_, ?_⟩
                    · intro nm hnm
                      repeat (first | exact hnm | apply lookup_cons_isSome)
                    · intro hpc
                      refine ⟨by simp only [List.length_append, List.length_cons, List.length_nil]; omega, ?_⟩
                      exact ⟨[], by simp, by simp⟩
                · rw [if_neg h8] at h
                  by_cases h9 : n0 = 0x6
                  · rw [if_pos h9] at h
                    simp only [jp_label, jp_z_label, jp_nz_label, jr_label, jr_z, jr_nz, jr_c, jr_nc, call_label, ret, ret_z, ld_hl_nn, ld_de_nn, ld_bc_nn, ld_hl_label, ld_a_n, ld_b_n, ld_c_n, ld_d_n, ld_e_n, ld_h_n, ld_l_n, ld_a_hl, ld_hl_a, ld_a_de, ld_de_a, ld_a_b, ld_a_c, ld_a_d, ld_a_e, ld_a_l, ld_a_h, ld_l_a, ld_h_a, ld_e_a, ld_d_a, ld_b_a, ld_c_a, ld_e_hl, ld_d_hl, ld_l_e, ld_h_d, ld_h_hl, ld_a_mem, ld_mem_a, inc_hl, inc_de, inc_bc, inc_a, inc_b, inc_hl_ind, dec_a, dec_b, dec_c, dec_d, dec_e, dec_hl, dec_bc, add_hl_de, add_hl_hl, add_a_n, add_a_hl, sbc_hl_de, sub_n, sub_hl, and_n, and_a_b, and_a_c, and_a_d, and_a_e, and_hl, or_a, or_c, or_hl, xor_a, xor_h, xor_hl, cp_n, cp_hl, push_af, push_hl, push_de, pop_af, pop_hl, pop_de, ex_de_hl, out_n_a, in_a_n, label, emit_label_ref, emit16, emit, List.append_assoc, List.cons_append, List.singleton_append, List.nil_append] at h
                    injection h with h
                    subst h
                    refine ⟨rfl, rfl, ⟨_, rfl⟩, ?_, ?_⟩
                    · intro nm hnm
                      repeat (first | exact hnm | apply lookup_cons_isSome)
                    · intro hpc
                      refine ⟨by simp only [List.length_append, List.length_cons, List.length_nil]; omega, ?_⟩
                      exact ⟨[], by simp, by simp⟩
                  · rw [if_neg h9] at h
                    by_cases h10 : n0 = 0x7
                    · rw [if_pos h10] at h
                      simp only [jp_label, jp_z_label, jp_nz_label, jr_label, jr_z, jr_nz, jr_c, jr_nc, call_label, ret, ret_z, ld_hl_nn, ld_de_nn, ld_bc_nn, ld_hl_label, ld_a_n, ld_b_n, ld_c_n, ld_d_n, ld_e_n, ld_h_n, ld_l_n, ld_a_hl, ld_hl_a, ld_a_de, ld_de_a, ld_a_b, ld_a_c, ld_a_d, ld_a_e, ld_a_l, ld_a_h, ld_l_a, ld_h_a, ld_e_a, ld_d_a, ld_b_a, ld_c_a, ld_e_hl, ld_d_hl, ld_l_e, ld_h_d, ld_h_hl, ld_a_mem, ld_mem_a, inc_hl, inc_de, inc_bc, inc_a, inc_b, inc_hl_ind, dec_a, dec_b, dec_c, dec_d, dec_e, dec_hl, dec_bc, add_hl_de, add_hl_hl, add_a_n, add_a_hl, sbc_hl_de, sub_n, sub_hl, and_n, and_a_b, and_a_c, and_a_d, and_a_e, and_hl, or_a, or_c, or_hl, xor_a, xor_h, xor_hl, cp_n, cp_hl, push_af, push_hl, push_de, pop_af, pop_hl, pop_de, ex_de_hl, out_n_a, in_a_n, label, emit_label_ref, emit16, emit, List.append_assoc, List.cons_append, List.singleton_append, List.nil_append] at h
                      injection h with h
                      subst h
                      refine ⟨rfl, rfl, ⟨_, rfl⟩, ?_, ?_⟩
                      · intro nm hnm
                        repeat (first | exact hnm | apply lookup_cons_isSome)
                      · intro hpc
                        refine ⟨by simp only [List.length_append, List.length_cons, List.length_nil]; omega, ?_⟩
                        exact ⟨[], by simp, by simp⟩
                    · rw [if_neg h10] at h
                      by_cases h11 : n0 = 0x8 ∧ n3 = 0x0
                      · rw [if_pos h11] at h
                        simp only [jp_label, jp_z_label, jp_nz_label, jr_label, jr_z, jr_nz, jr_c, jr_nc, call_label, ret, ret_z, ld_hl_nn, ld_de_nn, ld_bc_nn, ld_hl_label, ld_a_n, ld_b_n, ld_c_n, ld_d_n, ld_e_n, ld_h_n, ld_l_n, ld_a_hl, ld_hl_a, ld_a_de, ld_de_a, ld_a_b, ld_a_c, ld_a_d, ld_a_e, ld_a_l, ld_a_h, ld_l_a, ld_h_a, ld_e_a, ld_d_a, ld_b_a, ld_c_a, ld_e_hl, ld_d_hl, ld_l_e, ld_h_d, ld_h_hl, ld_a_mem, ld_mem_a, inc_hl, inc_de, inc_bc, inc_a, inc_b, inc_hl_ind, dec_a, dec_b, dec_c, dec_d, dec_e, dec_hl, dec_bc, add_hl_de, add_hl_hl, add_a_n, add_a_hl, sbc_hl_de, sub_n, sub_hl, and_n, and_a_b, and_a_c, and_a_d, and_a_e, and_hl, or_a, or_c, or_hl, xor_a, xor_h, xor_hl, cp_n, cp_hl, push_af, push_hl, push_de, pop_af, pop_hl, pop_de, ex_de_hl, out_n_a, in_a_n, label, emit_label_ref, emit16, emit, List.append_assoc, List.cons_append, List.singleton_append, List.nil_append] at h
                        injection h with h
                        subst h
                        refine ⟨rfl, rfl, ⟨_, rfl⟩, ?_, ?_⟩
                        · intro nm hnm
                          repeat (first | exact hnm | apply lookup_cons_isSome)
                        · intro hpc
                          refine ⟨by simp only [List.length_append, List.length_cons, List.length_nil]; omega, ?_⟩
                          exact ⟨[], by simp, by simp⟩
                      · rw [if_neg h11] at h
                        by_cases h12 : n0 = 0x8 ∧ n3 = 0x1
                        · rw [if_pos h12] at h
                          simp only [jp_label, jp_z_label, jp_nz_label, jr_label, jr_z, jr_nz, jr_c, jr_nc, call_label, ret, ret_z, ld_hl_nn, ld_de_nn, ld_bc_nn, ld_hl_label, ld_a_n, ld_b_n, ld_c_n, ld_d_n, ld_e_n, ld_h_n, ld_l_n, ld_a_hl, ld_hl_a, ld_a_de, ld_de_a, ld_a_b, ld_a_c, ld_a_d, ld_a_e, ld_a_l, ld_a_h, ld_l_a, ld_h_a, ld_e_a, ld_d_a, ld_b_a, ld_c_a, ld_e_hl, ld_d_hl, ld_l_e, ld_h_d, ld_h_hl, ld_a_mem, ld_mem_a, inc_hl, inc_de, inc_bc, inc_a, inc_b, inc_hl_ind, dec_a, dec_b, dec_c, dec_d, dec_e, dec_hl, dec_bc, add_hl_de, add_hl_hl, add_a_n, add_a_hl, sbc_hl_de, sub_n, sub_hl, and_n, and_a_b, and_a_c, and_a_d, and_a_e, and_hl, or_a, or_c, or_hl, xor_a, xor_h, xor_hl, cp_n, cp_hl, push_af, push_hl, push_de, pop_af, pop_hl, pop_de, ex_de_hl, out_n_a, in_a_n, label, emit_label_ref, emit16, emit, List.append_assoc, List.cons_append, List.singleton_append, List.nil_append] at h
                          injection h with h
                          subst h
                          refine ⟨rfl, rfl, ⟨_, rfl⟩, ?_, ?_⟩
                          · intro nm hnm
                            repeat (first | exact hnm | apply lookup_cons_isSome)
                          · intro hpc
                            refine ⟨by simp only [List.length_append, List.length_cons, List.length_nil]; omega, ?_⟩
                            exact ⟨[], by simp, by simp⟩
                        · rw [if_neg h12] at h
                          by_cases h13 : n0 = 0x8 ∧ n3 = 0x2
                          · rw [if_pos h13] at h
                            simp only [jp_label, jp_z_label, jp_nz_label, jr_label, jr_z, jr_nz, jr_c, jr_nc, call_label, ret, ret_z, ld_hl_nn, ld_de_nn, ld_bc_nn, ld_hl_label, ld_a_n, ld_b_n, ld_c_n, ld_d_n, ld_e_n, ld_h_n, ld_l_n, ld_a_hl, ld_hl_a, ld_a_de, ld_de_a, ld_a_b, ld_a_c, ld_a_d, ld_a_e, ld_a_l, ld_a_h, ld_l_a, ld_h_a, ld_e_a, ld_d_a, ld_b_a, ld_c_a, ld_e_hl, ld_d_hl, ld_l_e, ld_h_d, ld_h_hl, ld_a_mem, ld_mem_a, inc_hl, inc_de, inc_bc, inc_a, inc_b, inc_hl_ind, dec_a, dec_b, dec_c, dec_d, dec_e, dec_hl, dec_bc, add_hl_de, add_hl_hl, add_a_n, add_a_hl, sbc_hl_de, sub_n, sub_hl, and_n, and_a_b, and_a_c, and_a_d, and_a_e, and_hl, or_a, or_c, or_hl, xor_a, xor_h, xor_hl, cp_n, cp_hl, push_af, push_hl, push_de, pop_af, pop_hl, pop_de, ex_de_hl, out_n_a, in_a_n, label, emit_label_ref, emit16, emit, List.append_assoc, List.cons_append, List.singleton_append, List.nil_append] at h
                            injection h with h
                            subst h
                            refine ⟨rfl, rfl, ⟨_, rfl⟩, ?_, ?_⟩
                            · intro nm hnm
                              repeat (first | exact hnm | apply lookup_cons_isSome)
                            · intro hpc
                              refine ⟨by simp only [List.length_append, List.length_cons, List.length_nil]; omega, ?_⟩
                              exact ⟨[], by simp, by simp⟩
                          · rw [if_neg h13] at h
                            by_cases h14 : n0 = 0x8 ∧ n3 = 0x3
                            · rw [if_pos h14] at h
                              simp only [jp_label, jp_z_label, jp_nz_label, jr_label, jr_z, jr_nz, jr_c, jr_nc, call_label, ret, ret_z, ld_hl_nn, ld_de_nn, ld_bc_nn, ld_hl_label, ld_a_n, ld_b_n, ld_c_n, ld_d_n, ld_e_n, ld_h_n, ld_l_n, ld_a_hl, ld_hl_a, ld_a_de, ld_de_a, ld_a_b, ld_a_c, ld_a_d, ld_a_e, ld_a_l, ld_a_h, ld_l_a, ld_h_a, ld_e_a, ld_d_a, ld_b_a, ld_c_a, ld_e_hl, ld_d_hl, ld_l_e, ld_h_d, ld_h_hl, ld_a_mem, ld_mem_a, inc_hl, inc_de, inc_bc, inc_a, inc_b, inc_hl_ind, dec_a, dec_b, dec_c, dec_d, dec_e, dec_hl, dec_bc, add_hl_de, add_hl_hl, add_a_n, add_a_hl, sbc_hl_de, sub_n, sub_hl, and_n, and_a_b, and_a_c, and_a_d, and_a_e, and_hl, or_a, or_c, or_hl, xor_a, xor_h, xor_hl, cp_n, cp_hl, push_af, push_hl, push_de, pop_af, pop_hl, pop_de, ex_de_hl, out_n_a, in_a_n, label, emit_label_ref, emit16, emit, List.append_assoc, List.cons_append, List.singleton_append, List.nil_append] at h
                              injection h with h
                              subst h
                              refine ⟨rfl, rfl, ⟨_, rfl⟩, ?_, ?_⟩
                              · intro nm hnm
                                repeat (first | exact hnm | apply lookup_cons_isSome)
                              · intro hpc
                                refine ⟨by simp only [List.length_append, List.length_cons, List.length_nil]; omega, ?_⟩
                                exact ⟨[], by simp, by simp⟩
                            · rw [if_neg h14] at h
                              by_cases h15 : n0 = 0x8 ∧ n3 = 0x4
                              · rw [if_pos h15] at h
                                simp only [jp_label, jp_z_label, jp_nz_label, jr_label, jr_z, jr_nz, jr_c, jr_nc, call_label, ret, ret_z, ld_hl_nn, ld_de_nn, ld_bc_nn, ld_hl_label, ld_a_n, ld_b_n, ld_c_n, ld_d_n, ld_e_n, ld_h_n, ld_l_n, ld_a_hl, ld_hl_a, ld_a_de, ld_de_a, ld_a_b, ld_a_c, ld_a_d, ld_a_e, ld_a_l, ld_a_h, ld_l_a, ld_h_a, ld_e_a, ld_d_a, ld_b_a, ld_c_a, ld_e_hl, ld_d_hl, ld_l_e, ld_h_d, ld_h_hl, ld_a_mem, ld_mem_a, inc_hl, inc_de, inc_bc, inc_a, inc_b, inc_hl_ind, dec_a, dec_b, dec_c, dec_d, dec_e, dec_hl, dec_bc, add_hl_de, add_hl_hl, add_a_n, add_a_hl, sbc_hl_de, sub_n, sub_hl, and_n, and_a_b, and_a_c, and_a_d, and_a_e, and_hl, or_a, or_c, or_hl, xor_a, xor_h, xor_hl, cp_n, cp_hl, push_af, push_hl, push_de, pop_af, pop_hl, pop_de, ex_de_hl, out_n_a, in_a_n, label, emit_label_ref, emit16, emit, List.append_assoc, List.cons_append, List.singleton_append, List.nil_append] at h
                                injection h with h
                                subst h
                                refine ⟨rfl, rfl, ⟨_, rfl⟩, ?_, ?_⟩
                                · intro nm hnm
                                  repeat (first | exact hnm | apply lookup_cons_isSome)
                                · intro hpc
                                  refine ⟨by simp only [List.length_append, List.length_cons, List.length_nil]; omega, ?_⟩
                                  exact ⟨[], by simp, by simp⟩
                              · rw [if_neg h15] at h
                                by_cases h16 : n0 = 0x8 ∧ n3 = 0x5
                                · rw [if_pos h16] at h
                                  simp only [jp_label, jp_z_label, jp_nz_label, jr_label, jr_z, jr_nz, jr_c, jr_nc, call_label, ret, ret_z, ld_hl_nn, ld_de_nn, ld_bc_nn, ld_hl_label, ld_a_n, ld_b_n, ld_c_n, ld_d_n, ld_e_n, ld_h_n, ld_l_n, ld_a_hl, ld_hl_a, ld_a_de, ld_de_a, ld_a_b, ld_a_c, ld_a_d, ld_a_e, ld_a_l, ld_a_h, ld_l_a, ld_h_a, ld_e_a, ld_d_a, ld_b_a, ld_c_a, ld_e_hl, ld_d_hl, ld_l_e, ld_h_d, ld_h_hl, ld_a_mem, ld_mem_a, inc_hl, inc_de, inc_bc, inc_a, inc_b, inc_hl_ind, dec_a, dec_b, dec_c, dec_d, dec_e, dec_hl, dec_bc, add_hl_de, add_hl_hl, add_a_n, add_a_hl, sbc_hl_de, sub_n, sub_hl, and_n, and_a_b, and_a_c, and_a_d, and_a_e, and_hl, or_a, or_c, or_hl, xor_a, xor_h, xor_hl, cp_n, cp_hl, push_af, push_hl, push_de, pop_af, pop_hl, pop_de, ex_de_hl, out_n_a, in_a_n, label, emit_label_ref, emit16, emit, List.append_assoc, List.cons_append, List.singleton_append, List.nil_append] at h
                                  injection h with h
                                  subst h
                                  refine ⟨rfl, rfl, ⟨_, rfl⟩, ?_, ?_⟩
                                  · intro nm hnm
                                    repeat (first | exact hnm | apply lookup_cons_isSome)
                                  · intro hpc
                                    refine ⟨by simp only [List.length_append, List.length_cons, List.length_nil]; omega, ?_⟩
                                    refine ⟨_, rfl, ?_⟩
                                    intro r hr
                                    simp only [List.mem_cons, List.mem_singleton, List.not_mem_nil, or_false] at hr
                                    subst hr
                                    refine ⟨by simp; omega, by simp only [List.length_append, List.length_cons, List.length_nil]; omega, ?_⟩
                                    exact Or.inl (by repeat (first | exact lookup_cons_self | apply lookup_cons_isSome))
                                · rw [if_neg h16] at h
                                  by_cases h17 : n0 = 0x8 ∧ n3 = 0x6
                                  · rw [if_pos h17] at h
                                    simp only [jp_label, jp_z_label, jp_nz_label, jr_label, jr_z, jr_nz, jr_c, jr_nc, call_label, ret, ret_z, ld_hl_nn, ld_de_nn, ld_bc_nn, ld_hl_label, ld_a_n, ld_b_n, ld_c_n, ld_d_n, ld_e_n, ld_h_n, ld_l_n, ld_a_hl, ld_hl_a, ld_a_de, ld_de_a, ld_a_b, ld_a_c, ld_a_d, ld_a_e, ld_a_l, ld_a_h, ld_l_a, ld_h_a, ld_e_a, ld_d_a, ld_b_a, ld_c_a, ld_e_hl, ld_d_hl, ld_l_e, ld_h_d, ld_h_hl, ld_a_mem, ld_mem_a, inc_hl, inc_de, inc_bc, inc_a, inc_b, inc_hl_ind, dec_a, dec_b, dec_c, dec_d, dec_e, dec_hl, dec_bc, add_hl_de, add_hl_hl, add_a_n, add_a_hl, sbc_hl_de, sub_n, sub_hl, and_n, and_a_b, and_a_c, and_a_d, and_a_e, and_hl, or_a, or_c, or_hl, xor_a, xor_h, xor_hl, cp_n, cp_hl, push_af, push_hl, push_de, pop_af, pop_hl, pop_de, ex_de_hl, out_n_a, in_a_n, label, emit_label_ref, emit16, emit, List.append_assoc, List.cons_append, List.singleton_append, List.nil_append] at h
                                    injection h with h
                                    subst h
                                    refine ⟨rfl, rfl, ⟨_, rfl⟩, ?_, ?_⟩
                                    · intro nm hnm
                                      repeat (first | exact hnm | apply lookup_cons_isSome)
                                    · intro hpc
                                      refine ⟨by simp only [List.length_append, List.length_cons, List.length_nil]; omega, ?_⟩
                                      exact ⟨[], by simp, by simp⟩
                                  · rw [if_neg h17] at h
                                    by_cases h18 : n0 = 0x8 ∧ n3 = 0x7
                                    · rw [if_pos h18] at h
                                      simp only [jp_label, jp_z_label, jp_nz_label, jr_label, jr_z, jr_nz, jr_c, jr_nc, call_label, ret, ret_z, ld_hl_nn, ld_de_nn, ld_bc_nn, ld_hl_label, ld_a_n, ld_b_n, ld_c_n, ld_d_n, ld_e_n, ld_h_n, ld_l_n, ld_a_hl, ld_hl_a, ld_a_de, ld_de_a, ld_a_b, ld_a_c, ld_a_d, ld_a_e, ld_a_l, ld_a_h, ld_l_a, ld_h_a, ld_e_a, ld_d_a, ld_b_a, ld_c_a, ld_e_hl, ld_d_hl, ld_l_e, ld_h_d, ld_h_hl, ld_a_mem, ld_mem_a, inc_hl, inc_de, inc_bc, inc_a, inc_b, inc_hl_ind, dec_a, dec_b, dec_c, dec_d, dec_e, dec_hl, dec_bc, add_hl_de, add_hl_hl, add_a_n, add_a_hl, sbc_hl_de, sub_n, sub_hl, and_n, and_a_b, and_a_c, and_a_d, and_a_e, and_hl, or_a, or_c, or_hl, xor_a, xor_h, xor_hl, cp_n, cp_hl, push_af, push_hl, push_de, pop_af, pop_hl, pop_de, ex_de_hl, out_n_a, in_a_n, label, emit_label_ref, emit16, emit, List.append_assoc, List.cons_append, List.singleton_append, List.nil_append] at h
                                      injection h with h
                                      subst h
                                      refine ⟨rfl, rfl, ⟨_, rfl⟩, ?_, ?_⟩
                                      · intro nm hnm
                                        repeat (first | exact hnm | apply lookup_cons_isSome)
                                      · intro hpc
                                        refine ⟨by simp only [List.length_append, List.length_cons, List.length_nil]; omega, ?_⟩
                                        refine ⟨_, rfl, ?_⟩
                                        intro r hr
                                        simp only [List.mem_cons, List.mem_singleton, List.not_mem_nil, or_false] at hr
                                        subst hr
                                        refine ⟨by simp; omega, by simp only [List.length_append, List.length_cons, List.length_nil]; omega, ?_⟩
                                        exact Or.inl (by repeat (first | exact lookup_cons_self | apply lookup_cons_isSome))
                                    · rw [if_neg h18] at h
                                      by_cases h19 : n0 = 0x8 ∧ n3 = 0xE
                                      · rw [if_pos h19] at h
                                        simp only [jp_label, jp_z_label, jp_nz_label, jr_label, jr_z, jr_nz, jr_c, jr_nc, call_label, ret, ret_z, ld_hl_nn, ld_de_nn, ld_bc_nn, ld_hl_label, ld_a_n, ld_b_n, ld_c_n, ld_d_n, ld_e_n, ld_h_n, ld_l_n, ld_a_hl, ld_hl_a, ld_a_de, ld_de_a, ld_a_b, ld_a_c, ld_a_d, ld_a_e, ld_a_l, ld_a_h, ld_l_a, ld_h_a, ld_e_a, ld_d_a, ld_b_a, ld_c_a, ld_e_hl, ld_d_hl, ld_l_e, ld_h_d, ld_h_hl, ld_a_mem, ld_mem_a, inc_hl, inc_de, inc_bc, inc_a, inc_b, inc_hl_ind, dec_a, dec_b, dec_c, dec_d, dec_e, dec_hl, dec_bc, add_hl_de, add_hl_hl, add_a_n, add_a_hl, sbc_hl_de, sub_n, sub_hl, and_n, and_a_b, and_a_c, and_a_d, and_a_e, and_hl, or_a, or_c, or_hl, xor_a, xor_h, xor_hl, cp_n, cp_hl, push_af, push_hl, push_de, pop_af, pop_hl, pop_de, ex_de_hl, out_n_a, in_a_n, label, emit_label_ref, emit16, emit, List.append_assoc, List.cons_append, List.singleton_append, List.nil_append] at h
                                        injection h with h
                                        subst h
                                        refine ⟨rfl, rfl, ⟨_, rfl⟩, ?_, ?_⟩
                                        · intro nm hnm
                                          repeat (first | exact hnm | apply lookup_cons_isSome)
                                        · intro hpc
                                          refine ⟨by simp only [List.length_append, List.length_cons, List.length_nil]; omega, ?_⟩
                                          exact ⟨[], by simp, by simp⟩
                                      · rw [if_neg h19] at h
                                        by_cases h20 : n0 = 0x9 ∧ n3 = 0x0
                                        · rw [if_pos h20] at h
                                          simp only [jp_label, jp_z_label, jp_nz_label, jr_label, jr_z, jr_nz, jr_c, jr_nc, call_label, ret, ret_z, ld_hl_nn, ld_de_nn, ld_bc_nn, ld_hl_label, ld_a_n, ld_b_n, ld_c_n, ld_d_n, ld_e_n, ld_h_n, ld_l_n, ld_a_hl, ld_hl_a, ld_a_de, ld_de_a, ld_a_b, ld_a_c, ld_a_d, ld_a_e, ld_a_l, ld_a_h, ld_l_a, ld_h_a, ld_e_a, ld_d_a, ld_b_a, ld_c_a, ld_e_hl, ld_d_hl, ld_l_e, ld_h_d, ld_h_hl, ld_a_mem, ld_mem_a, inc_hl, inc_de, inc_bc, inc_a, inc_b, inc_hl_ind, dec_a, dec_b, dec_c, dec_d, dec_e, dec_hl, dec_bc, add_hl_de, add_hl_hl, add_a_n, add_a_hl, sbc_hl_de, sub_n, sub_hl, and_n, and_a_b, and_a_c, and_a_d, and_a_e, and_hl, or_a, or_c, or_hl, xor_a, xor_h, xor_hl, cp_n, cp_hl, push_af, push_hl, push_de, pop_af, pop_hl, pop_de, ex_de_hl, out_n_a, in_a_n, label, emit_label_ref, emit16, emit, List.append_assoc, List.cons_append, List.singleton_append, List.nil_append] at h
                                          split at h
                                          next lbl heq =>
                                            injection h with h
                                            subst h
                                            refine ⟨rfl, rfl, ⟨_, rfl⟩, ?_, ?_⟩
                                            · intro nm hnm
                                              repeat (first | exact hnm | apply lookup_cons_isSome)
                                            · intro hpc
                                              refine ⟨by simp only [List.length_append, List.length_cons, List.length_nil]; omega, ?_⟩
                                              refine ⟨_, rfl, ?_⟩
                                              intro r hr
                                              simp only [List.mem_cons, List.mem_singleton, List.not_mem_nil, or_false] at hr
                                              subst hr
                                              refine ⟨by simp; omega, by simp only [List.length_append, List.length_cons, List.length_nil]; omega, ?_⟩
                                              exact Or.inr (Or.inr ⟨(inst.addr + 4), heq⟩)
                                          next heq =>
                                            injection h with h
                                            subst h
                                            refine ⟨rfl, rfl, ⟨_, rfl⟩, ?_, ?_⟩
                                            · intro nm hnm
                                              repeat (first | exact hnm | apply lookup_cons_isSome)
                                            · intro hpc
                                              refine ⟨by simp only [List.length_append, List.length_cons, List.length_nil]; omega, ?_⟩
                                              exact ⟨[], by simp, by simp⟩
                                        · rw [if_neg h20] at h
                                          by_cases h21 : n0 = 0xA
                                          · rw [if_pos h21] at h
                                            simp only [jp_label, jp_z_label, jp_nz_label, jr_label, jr_z, jr_nz, jr_c, jr_nc, call_label, ret, ret_z, ld_hl_nn, ld_de_nn, ld_bc_nn, ld_hl_label, ld_a_n, ld_b_n, ld_c_n, ld_d_n, ld_e_n, ld_h_n, ld_l_n, ld_a_hl, ld_hl_a, ld_a_de, ld_de_a, ld_a_b, ld_a_c, ld_a_d, ld_a_e, ld_a_l, ld_a_h, ld_l_a, ld_h_a, ld_e_a, ld_d_a, ld_b_a, ld_c_a, ld_e_hl, ld_d_hl, ld_l_e, ld_h_d, ld_h_hl, ld_a_mem, ld_mem_a, inc_hl, inc_de, inc_bc, inc_a, inc_b, inc_hl_ind, dec_a, dec_b, dec_c, dec_d, dec_e, dec_hl, dec_bc, add_hl_de, add_hl_hl, add_a_n, add_a_hl, sbc_hl_de, sub_n, sub_hl, and_n, and_a_b, and_a_c, and_a_d, and_a_e, and_hl, or_a, or_c, or_hl, xor_a, xor_h, xor_hl, cp_n, cp_hl, push_af, push_hl, push_de, pop_af, pop_hl, pop_de, ex_de_hl, out_n_a, in_a_n, label, emit_label_ref, emit16, emit, List.append_assoc, List.cons_append, List.singleton_append, List.nil_append] at h
                                            injection h with h
                                            subst h
                                            refine ⟨rfl, rfl, ⟨_, rfl⟩, ?_, ?_⟩
                                            · intro nm hnm
                                              repeat (first | exact hnm | apply lookup_cons_isSome)
                                            · intro hpc
                                              refine ⟨by simp only [List.length_append, List.length_cons, List.length_nil]; omega, ?_⟩
                                              exact ⟨[], by simp, by simp⟩
                                          · rw [if_neg h21] at h
                                            by_cases h22 : n0 = 0xB
                                            · rw [if_pos h22] at h
                                              simp only [jp_label, jp_z_label, jp_nz_label, jr_label, jr_z, jr_nz, jr_c, jr_nc, call_label, ret, ret_z, ld_hl_nn, ld_de_nn, ld_bc_nn, ld_hl_label, ld_a_n, ld_b_n, ld_c_n, ld_d_n, ld_e_n, ld_h_n, ld_l_n, ld_a_hl, ld_hl_a, ld_a_de, ld_de_a, ld_a_b, ld_a_c, ld_a_d, ld_a_e, ld_a_l, ld_a_h, ld_l_a, ld_h_a, ld_e_a, ld_d_a, ld_b_a, ld_c_a, ld_e_hl, ld_d_hl, ld_l_e, ld_h_d, ld_h_hl, ld_a_mem, ld_mem_a, inc_hl, inc_de, inc_bc, inc_a, inc_b, inc_hl_ind, dec_a, dec_b, dec_c, dec_d, dec_e, dec_hl, dec_bc, add_hl_de, add_hl_hl, add_a_n, add_a_hl, sbc_hl_de, sub_n, sub_hl, and_n, and_a_b, and_a_c, and_a_d, and_a_e, and_hl, or_a, or_c, or_hl, xor_a, xor_h, xor_hl, cp_n, cp_hl, push_af, push_hl, push_de, pop_af, pop_hl, pop_de, ex_de_hl, out_n_a, in_a_n, label, emit_label_ref, emit16, emit, List.append_assoc, List.cons_append, List.singleton_append, List.nil_append] at h
                                              injection h with h
                                              subst h
                                              refine ⟨rfl, rfl, ⟨_, rfl⟩, ?_, ?_⟩
                                              · intro nm hnm
                                                repeat (first | exact hnm | apply lookup_cons_isSome)
                                              · intro hpc
                                                refine ⟨by simp only [List.length_append, List.length_cons, List.length_nil]; omega, ?_⟩
                                                exact ⟨[], by simp, by simp⟩
                                            · rw [if_neg h22] at h
                                              by_cases h23 : n0 = 0xC
                                              · rw [if_pos h23] at h
                                                simp only [jp_label, jp_z_label, jp_nz_label, jr_label, jr_z, jr_nz, jr_c, jr_nc, call_label, ret, ret_z, ld_hl_nn, ld_de_nn, ld_bc_nn, ld_hl_label, ld_a_n, ld_b_n, ld_c_n, ld_d_n, ld_e_n, ld_h_n, ld_l_n, ld_a_hl, ld_hl_a, ld_a_de, ld_de_a, ld_a_b, ld_a_c, ld_a_d, ld_a_e, ld_a_l, ld_a_h, ld_l_a, ld_h_a, ld_e_a, ld_d_a, ld_b_a, ld_c_a, ld_e_hl, ld_d_hl, ld_l_e, ld_h_d, ld_h_hl, ld_a_mem, ld_mem_a, inc_hl, inc_de, inc_bc, inc_a, inc_b, inc_hl_ind, dec_a, dec_b, dec_c, dec_d, dec_e, dec_hl, dec_bc, add_hl_de, add_hl_hl, add_a_n, add_a_hl, sbc_hl_de, sub_n, sub_hl, and_n, and_a_b, and_a_c, and_a_d, and_a_e, and_hl, or_a, or_c, or_hl, xor_a, xor_h, xor_hl, cp_n, cp_hl, push_af, push_hl, push_de, pop_af, pop_hl, pop_de, ex_de_hl, out_n_a, in_a_n, label, emit_label_ref, emit16, emit, List.append_assoc, List.cons_append, List.singleton_append, List.nil_append] at h
                                                injection h with h
                                                subst h
                                                refine ⟨rfl, rfl, ⟨_, rfl⟩, ?_, ?_⟩
                                                · intro nm hnm
                                                  repeat (first | exact hnm | apply lookup_cons_isSome)
                                                · intro hpc
                                                  refine ⟨by simp only [List.length_append, List.length_cons, List.length_nil]; omega, ?_⟩
                                                  refine ⟨_, rfl, ?_⟩
                                                  intro r hr
                                                  simp only [List.mem_cons, List.mem_singleton, List.not_mem_nil, or_false] at hr
                                                  subst hr
                                                  refine ⟨by simp; omega, by simp only [List.length_append, List.length_cons, List.length_nil]; omega, ?_⟩
                                                  exact Or.inr (Or.inl (by simp [baseRefNames]))
                                              · rw [if_neg h23] at h
                                                by_cases h24 : n0 = 0xD
                                                · rw [if_pos h24] at h
                                                  simp only [jp_label, jp_z_label, jp_nz_label, jr_label, jr_z, jr_nz, jr_c, jr_nc, call_label, ret, ret_z, ld_hl_nn, ld_de_nn, ld_bc_nn, ld_hl_label, ld_a_n, ld_b_n, ld_c_n, ld_d_n, ld_e_n, ld_h_n, ld_l_n, ld_a_hl, ld_hl_a, ld_a_de, ld_de_a, ld_a_b, ld_a_c, ld_a_d, ld_a_e, ld_a_l, ld_a_h, ld_l_a, ld_h_a, ld_e_a, ld_d_a, ld_b_a, ld_c_a, ld_e_hl, ld_d_hl, ld_l_e, ld_h_d, ld_h_hl, ld_a_mem, ld_mem_a, inc_hl, inc_de, inc_bc, inc_a, inc_b, inc_hl_ind, dec_a, dec_b, dec_c, dec_d, dec_e, dec_hl, dec_bc, add_hl_de, add_hl_hl, add_a_n, add_a_hl, sbc_hl_de, sub_n, sub_hl, and_n, and_a_b, and_a_c, and_a_d, and_a_e, and_hl, or_a, or_c, or_hl, xor_a, xor_h, xor_hl, cp_n, cp_hl, push_af, push_hl, push_de, pop_af, pop_hl, pop_de, ex_de_hl, out_n_a, in_a_n, label, emit_label_ref, emit16, emit, List.append_assoc, List.cons_append, List.singleton_append, List.nil_append] at h
                                                  injection h with h
                                                  subst h
                                                  refine ⟨rfl, rfl, ⟨_, rfl⟩, ?_, ?_⟩
                                                  · intro nm hnm
                                                    repeat (first | exact hnm | apply lookup_cons_isSome)
                                                  · intro hpc
                                                    refine ⟨by simp only [List.length_append, List.length_cons, List.length_nil]; omega, ?_⟩
                                                    refine ⟨_, rfl, ?_⟩
                                                    intro r hr
                                                    simp only [List.mem_cons, List.mem_singleton, List.not_mem_nil, or_false] at hr
                                                    rcases hr with hr | hr | hr | hr | hr | hr
                                                    · subst hr
                                                      refine ⟨by simp; omega, by simp only [List.length_append, List.length_cons, List.length_nil]; omega, ?_⟩
                                                      exact Or.inl (by repeat (first | exact lookup_cons_self | apply lookup_cons_isSome))
                                                    · subst hr
                                                      refine ⟨by simp; omega, by simp only [List.length_append, List.length_cons, List.length_nil]; omega, ?_⟩
                                                      exact Or.inl (by repeat (first | exact lookup_cons_self | apply lookup_cons_isSome))
                                                    · subst hr
                                                      refine ⟨by simp; omega, by simp only [List.length_append, List.length_cons, List.length_nil]; omega, ?_⟩
                                                      exact Or.inl (by repeat (first | exact lookup_cons_self | apply lookup_cons_isSome))
                                                    · subst hr
                                                      refine ⟨by simp; omega, by simp only [List.length_append, List.length_cons, List.length_nil]; omega, ?_⟩
                                                      exact Or.inr (Or.inl (by simp [baseRefNames]))
                                                    · subst hr
                                                      refine ⟨by simp; omega, by simp only [List.length_append, List.length_cons, List.length_nil]; omega, ?_⟩
                                                      exact Or.inr (Or.inl (by simp [baseRefNames]))
                                                    · subst hr
                                                      refine ⟨by simp; omega, by simp only [List.length_append, List.length_cons, List.length_nil]; omega, ?_⟩
                                                      exact Or.inr (Or.inl (by simp [baseRefNames]))
                                                · rw [if_neg h24] at h
                                                  by_cases h25 : n0 = 0xE ∧ n2 = 0x9 ∧ n3 = 0xE
                                                  · rw [if_pos h25] at h
                                                    simp only [jp_label, jp_z_label, jp_nz_label, jr_label, jr_z, jr_nz, jr_c, jr_nc, call_label, ret, ret_z, ld_hl_nn, ld_de_nn, ld_bc_nn, ld_hl_label, ld_a_n, ld_b_n, ld_c_n, ld_d_n, ld_e_n, ld_h_n, ld_l_n, ld_a_hl, ld_hl_a, ld_a_de, ld_de_a, ld_a_b, ld_a_c, ld_a_d, ld_a_e, ld_a_l, ld_a_h, ld_l_a, ld_h_a, ld_e_a, ld_d_a, ld_b_a, ld_c_a, ld_e_hl, ld_d_hl, ld_l_e, ld_h_d, ld_h_hl, ld_a_mem, ld_mem_a, inc_hl, inc_de, inc_bc, inc_a, inc_b, inc_hl_ind, dec_a, dec_b, dec_c, dec_d, dec_e, dec_hl, dec_bc, add_hl_de, add_hl_hl, add_a_n, add_a_hl, sbc_hl_de, sub_n, sub_hl, and_n, and_a_b, and_a_c, and_a_d, and_a_e, and_hl, or_a, or_c, or_hl, xor_a, xor_h, xor_hl, cp_n, cp_hl, push_af, push_hl, push_de, pop_af, pop_hl, pop_de, ex_de_hl, out_n_a, in_a_n, label, emit_label_ref, emit16, emit, List.append_assoc, List.cons_append, List.singleton_append, List.nil_append] at h
                                                    split at h
                                                    next lbl heq =>
                                                      injection h with h
                                                      subst h
                                                      refine ⟨rfl, rfl, ⟨_, rfl⟩, ?_, ?_⟩
                                                      · intro nm hnm
                                                        repeat (first | exact hnm | apply lookup_cons_isSome)
                                                      · intro hpc
                                                        refine ⟨by simp only [List.length_append, List.length_cons, List.length_nil]; omega, ?_⟩
                                                        refine ⟨_, rfl, ?_⟩
                                                        intro r hr
                                                        simp only [List.mem_cons, List.mem_singleton, List.not_mem_nil, or_false] at hr
                                                        rcases hr with hr | hr
                                                        · subst hr
                                                          refine ⟨by simp; omega, by simp only [List.length_append, List.length_cons, List.length_nil]; omega, ?_⟩
                                                          exact Or.inr (Or.inl (by simp [baseRefNames]))
                                                        · subst hr
                                                          refine ⟨by simp; omega, by simp only [List.length_append, List.length_cons, List.length_nil]; omega, ?_⟩
                                                          exact Or.inr (Or.inr ⟨(inst.addr + 4), heq⟩)
                                                    next heq =>
                                                      injection h with h
                                                      subst h
                                                      refine ⟨rfl, rfl, ⟨_, rfl⟩, ?_, ?_⟩
                                                      · intro nm hnm
                                                        repeat (first | exact hnm | apply lookup_cons_isSome)
                                                      · intro hpc
                                                        refine ⟨by simp only [List.length_append, List.length_cons, List.length_nil]; omega, ?_⟩
                                                        refine ⟨_, rfl, ?_⟩
                                                        intro r hr
                                                        simp only [List.mem_cons, List.mem_singleton, List.not_mem_nil, or_false] at hr
                                                        subst hr
                                                        refine ⟨by simp; omega, by simp only [List.length_append, List.length_cons, List.length_nil]; omega, ?_⟩
                                                        exact Or.inr (Or.inl (by simp [baseRefNames]))
                                                  · rw [if_neg h25] at h
                                                    by_cases h26 : n0 = 0xE ∧ n2 = 0xA ∧ n3 = 0x1
                                                    · rw [if_pos h26] at h
                                                      simp only [jp_label, jp_z_label, jp_nz_label, jr_label, jr_z, jr_nz, jr_c, jr_nc, call_label, ret, ret_z, ld_hl_nn, ld_de_nn, ld_bc_nn, ld_hl_label, ld_a_n, ld_b_n, ld_c_n, ld_d_n, ld_e_n, ld_h_n, ld_l_n, ld_a_hl, ld_hl_a, ld_a_de, ld_de_a, ld_a_b, ld_a_c, ld_a_d, ld_a_e, ld_a_l, ld_a_h, ld_l_a, ld_h_a, ld_e_a, ld_d_a, ld_b_a, ld_c_a, ld_e_hl, ld_d_hl, ld_l_e, ld_h_d, ld_h_hl, ld_a_mem, ld_mem_a, inc_hl, inc_de, inc_bc, inc_a, inc_b, inc_hl_ind, dec_a, dec_b, dec_c, dec_d, dec_e, dec_hl, dec_bc, add_hl_de, add_hl_hl, add_a_n, add_a_hl, sbc_hl_de, sub_n, sub_hl, and_n, and_a_b, and_a_c, and_a_d, and_a_e, and_hl, or_a, or_c, or_hl, xor_a, xor_h, xor_hl, cp_n, cp_hl, push_af, push_hl, push_de, pop_af, pop_hl, pop_de, ex_de_hl, out_n_a, in_a_n, label, emit_label_ref, emit16, emit, List.append_assoc, List.cons_append, List.singleton_append, List.nil_append] at h
                                                      split at h
                                                      next lbl heq =>
                                                        injection h with h
                                                        subst h
                                                        refine ⟨rfl, rfl, ⟨_, rfl⟩, ?_, ?_⟩
                                                        · intro nm hnm
                                                          repeat (first | exact hnm | apply lookup_cons_isSome)
                                                        · intro hpc
                                                          refine ⟨by simp only [List.length_append, List.length_cons, List.length_nil]; omega, ?_⟩
                                                          refine ⟨_, rfl, ?_⟩
                                                          intro r hr
                                                          simp only [List.mem_cons, List.mem_singleton, List.not_mem_nil, or_false] at hr
                                                          rcases hr with hr | hr
                                                          · subst hr
                                                            refine ⟨by simp; omega, by simp only [List.length_append, List.length_cons, List.length_nil]; omega, ?_⟩
                                                            exact Or.inr (Or.inl (by simp [baseRefNames]))
                                                          · subst hr
                                                            refine ⟨by simp; omega, by simp only [List.length_append, List.length_cons, List.length_nil]; omega, ?_⟩
                                                            exact Or.inr (Or.inr ⟨(inst.addr + 4), heq⟩)
                                                      next heq =>
                                                        injection h with h
                                                        subst h
                                                        refine ⟨rfl, rfl, ⟨_, rfl⟩, ?_, ?_⟩
                                                        · intro nm hnm
                                                          repeat (first | exact hnm | apply lookup_cons_isSome)
                                                        · intro hpc
                                                          refine ⟨by simp only [List.length_append, List.length_cons, List.length_nil]; omega, ?_⟩
                                                          refine ⟨_, rfl, ?_⟩
                                                          intro r hr
                                                          simp only [List.mem_cons, List.mem_singleton, List.not_mem_nil, or_false] at hr
                                                          subst hr
                                                          refine ⟨by simp; omega, by simp only [List.length_append, List.length_cons, List.length_nil]; omega, ?_⟩
                                                          exact Or.inr (Or.inl (by simp [baseRefNames]))
                                                    · rw [if_neg h26] at h
                                                      by_cases h27 : n0 = 0xF ∧ n2 = 0x0 ∧ n3 = 0x7
                                                      · rw [if_pos h27] at h
                                                        simp only [jp_label, jp_z_label, jp_nz_label, jr_label, jr_z, jr_nz, jr_c, jr_nc, call_label, ret, ret_z, ld_hl_nn, ld_de_nn, ld_bc_nn, ld_hl_label, ld_a_n, ld_b_n, ld_c_n, ld_d_n, ld_e_n, ld_h_n, ld_l_n, ld_a_hl, ld_hl_a, ld_a_de, ld_de_a, ld_a_b, ld_a_c, ld_a_d, ld_a_e, ld_a_l, ld_a_h, ld_l_a, ld_h_a, ld_e_a, ld_d_a, ld_b_a, ld_c_a, ld_e_hl, ld_d_hl, ld_l_e, ld_h_d, ld_h_hl, ld_a_mem, ld_mem_a, inc_hl, inc_de, inc_bc, inc_a, inc_b, inc_hl_ind, dec_a, dec_b, dec_c, dec_d, dec_e, dec_hl, dec_bc, add_hl_de, add_hl_hl, add_a_n, add_a_hl, sbc_hl_de, sub_n, sub_hl, and_n, and_a_b, and_a_c, and_a_d, and_a_e, and_hl, or_a, or_c, or_hl, xor_a, xor_h, xor_hl, cp_n, cp_hl, push_af, push_hl, push_de, pop_af, pop_hl, pop_de, ex_de_hl, out_n_a, in_a_n, label, emit_label_ref, emit16, emit, List.append_assoc, List.cons_append, List.singleton_append, List.nil_append] at h
                                                        injection h with h
                                                        subst h
                                                        refine ⟨rfl, rfl, ⟨_, rfl⟩, ?_, ?_⟩
                                                        · intro nm hnm
                                                          repeat (first | exact hnm | apply lookup_cons_isSome)
                                                        · intro hpc
                                                          refine ⟨by simp only [List.length_append, List.length_cons, List.length_nil]; omega, ?_⟩
                                                          exact ⟨[], by simp, by simp⟩
                                                      · rw [if_neg h27] at h
                                                        by_cases h28 : n0 = 0xF ∧ n2 = 0x0 ∧ n3 = 0xA
                                                        · rw [if_pos h28] at h
                                                          simp only [jp_label, jp_z_label, jp_nz_label, jr_label, jr_z, jr_nz, jr_c, jr_nc, call_label, ret, ret_z, ld_hl_nn, ld_de_nn, ld_bc_nn, ld_hl_label, ld_a_n, ld_b_n, ld_c_n, ld_d_n, ld_e_n, ld_h_n, ld_l_n, ld_a_hl, ld_hl_a, ld_a_de, ld_de_a, ld_a_b, ld_a_c, ld_a_d, ld_a_e, ld_a_l, ld_a_h, ld_l_a, ld_h_a, ld_e_a, ld_d_a, ld_b_a, ld_c_a, ld_e_hl, ld_d_hl, ld_l_e, ld_h_d, ld_h_hl, ld_a_mem, ld_mem_a, inc_hl, inc_de, inc_bc, inc_a, inc_b, inc_hl_ind, dec_a, dec_b, dec_c, dec_d, dec_e, dec_hl, dec_bc, add_hl_de, add_hl_hl, add_a_n, add_a_hl, sbc_hl_de, sub_n, sub_hl, and_n, and_a_b, and_a_c, and_a_d, and_a_e, and_hl, or_a, or_c, or_hl, xor_a, xor_h, xor_hl, cp_n, cp_hl, push_af, push_hl, push_de, pop_af, pop_hl, pop_de, ex_de_hl, out_n_a, in_a_n, label, emit_label_ref, emit16, emit, List.append_assoc, List.cons_append, List.singleton_append, List.nil_append] at h
                                                          injection h with h
                                                          subst h
                                                          refine ⟨rfl, rfl, ⟨_, rfl⟩, ?_, ?_⟩
                                                          · intro nm hnm
                                                            repeat (first | exact hnm | apply lookup_cons_isSome)
                                                          · intro hpc
                                                            refine ⟨by simp only [List.length_append, List.length_cons, List.length_nil]; omega, ?_⟩
                                                            refine ⟨_, rfl, ?_⟩
                                                            intro r hr
                                                            simp only [List.mem_cons, List.mem_singleton, List.not_mem_nil, or_false] at hr
                                                            subst hr
                                                            refine ⟨by simp; omega, by simp only [List.length_append, List.length_cons, List.length_nil]; omega, ?_⟩
                                                            exact Or.inr (Or.inl (by simp [baseRefNames]))
                                                        · rw [if_neg h28] at h
                                                          by_cases h29 : n0 = 0xF ∧ n2 = 0x1 ∧ n3 = 0x5
                                                          · rw [if_pos h29] at h
                                                            simp only [jp_label, jp_z_label, jp_nz_label, jr_label, jr_z, jr_nz, jr_c, jr_nc, call_label, ret, ret_z, ld_hl_nn, ld_de_nn, ld_bc_nn, ld_hl_label, ld_a_n, ld_b_n, ld_c_n, ld_d_n, ld_e_n, ld_h_n, ld_l_n, ld_a_hl, ld_hl_a, ld_a_de, ld_de_a, ld_a_b, ld_a_c, ld_a_d, ld_a_e, ld_a_l, ld_a_h, ld_l_a, ld_h_a, ld_e_a, ld_d_a, ld_b_a, ld_c_a, ld_e_hl, ld_d_hl, ld_l_e, ld_h_d, ld_h_hl, ld_a_mem, ld_mem_a, inc_hl, inc_de, inc_bc, inc_a, inc_b, inc_hl_ind, dec_a, dec_b, dec_c, dec_d, dec_e, dec_hl, dec_bc, add_hl_de, add_hl_hl, add_a_n, add_a_hl, sbc_hl_de, sub_n, sub_hl, and_n, and_a_b, and_a_c, and_a_d, and_a_e, and_hl, or_a, or_c, or_hl, xor_a, xor_h, xor_hl, cp_n, cp_hl, push_af, push_hl, push_de, pop_af, pop_hl, pop_de, ex_de_hl, out_n_a, in_a_n, label, emit_label_ref, emit16, emit, List.append_assoc, List.cons_append, List.singleton_append, List.nil_append] at h
                                                            injection h with h
                                                            subst h
                                                            refine ⟨rfl, rfl, ⟨_, rfl⟩, ?_, ?_⟩
                                                            · intro nm hnm
                                                              repeat (first | exact hnm | apply lookup_cons_isSome)
                                                            · intro hpc
                                                              refine ⟨by simp only [List.length_append, List.length_cons, List.length_nil]; omega, ?_⟩
                                                              exact ⟨[], by simp, by simp⟩
                                                          · rw [if_neg h29] at h
                                                            by_cases h30 : n0 = 0xF ∧ n2 = 0x1 ∧ n3 = 0x8
                                                            · rw [if_pos h30] at h
                                                              simp only [jp_label, jp_z_label, jp_nz_label, jr_label, jr_z, jr_nz, jr_c, jr_nc, call_label, ret, ret_z, ld_hl_nn, ld_de_nn, ld_bc_nn, ld_hl_label, ld_a_n, ld_b_n, ld_c_n, ld_d_n, ld_e_n, ld_h_n, ld_l_n, ld_a_hl, ld_hl_a, ld_a_de, ld_de_a, ld_a_b, ld_a_c, ld_a_d, ld_a_e, ld_a_l, ld_a_h, ld_l_a, ld_h_a, ld_e_a, ld_d_a, ld_b_a, ld_c_a, ld_e_hl, ld_d_hl, ld_l_e, ld_h_d, ld_h_hl, ld_a_mem, ld_mem_a, inc_hl, inc_de, inc_bc, inc_a, inc_b, inc_hl_ind, dec_a, dec_b, dec_c, dec_d, dec_e, dec_hl, dec_bc, add_hl_de, add_hl_hl, add_a_n, add_a_hl, sbc_hl_de, sub_n, sub_hl, and_n, and_a_b, and_a_c, and_a_d, and_a_e, and_hl, or_a, or_c, or_hl, xor_a, xor_h, xor_hl, cp_n, cp_hl, push_af, push_hl, push_de, pop_af, pop_hl, pop_de, ex_de_hl, out_n_a, in_a_n, label, emit_label_ref, emit16, emit, List.append_assoc, List.cons_append, List.singleton_append, List.nil_append] at h
                                                              injection h with h
                                                              subst h
                                                              refine ⟨rfl, rfl, ⟨_, rfl⟩, ?_, ?_⟩
                                                              · intro nm hnm
                                                                repeat (first | exact hnm | apply lookup_cons_isSome)
                                                              · intro hpc
                                                                refine ⟨by simp only [List.length_append, List.length_cons, List.length_nil]; omega, ?_⟩
                                                                exact ⟨[], by simp, by simp⟩
                                                            · rw [if_neg h30] at h
                                                              by_cases h31 : n0 = 0xF ∧ n2 = 0x1 ∧ n3 = 0xE
                                                              · rw [if_pos h31] at h
                                                                simp only [jp_label, jp_z_label, jp_nz_label, jr_label, jr_z, jr_nz, jr_c, jr_nc, call_label, ret, ret_z, ld_hl_nn, ld_de_nn, ld_bc_nn, ld_hl_label, ld_a_n, ld_b_n, ld_c_n, ld_d_n, ld_e_n, ld_h_n, ld_l_n, ld_a_hl, ld_hl_a, ld_a_de, ld_de_a, ld_a_b, ld_a_c, ld_a_d, ld_a_e, ld_a_l, ld_a_h, ld_l_a, ld_h_a, ld_e_a, ld_d_a, ld_b_a, ld_c_a, ld_e_hl, ld_d_hl, ld_l_e, ld_h_d, ld_h_hl, ld_a_mem, ld_mem_a, inc_hl, inc_de, inc_bc, inc_a, inc_b, inc_hl_ind, dec_a, dec_b, dec_c, dec_d, dec_e, dec_hl, dec_bc, add_hl_de, add_hl_hl, add_a_n, add_a_hl, sbc_hl_de, sub_n, sub_hl, and_n, and_a_b, and_a_c, and_a_d, and_a_e, and_hl, or_a, or_c, or_hl, xor_a, xor_h, xor_hl, cp_n, cp_hl, push_af, push_hl, push_de, pop_af, pop_hl, pop_de, ex_de_hl, out_n_a, in_a_n, label, emit_label_ref, emit16, emit, List.append_assoc, List.cons_append, List.singleton_append, List.nil_append] at h
                                                                injection h with h
                                                                subst h
                                                                refine ⟨rfl, rfl, ⟨_, rfl⟩, ?_, ?_⟩
                                                                · intro nm hnm
                                                                  repeat (first | exact hnm | apply lookup_cons_isSome)
                                                                · intro hpc
                                                                  refine ⟨by simp only [List.length_append, List.length_cons, List.length_nil]; omega, ?_⟩
                                                                  exact ⟨[], by simp, by simp⟩
                                                              · rw [if_neg h31] at h
                                                                by_cases h32 : n0 = 0xF ∧ n2 = 0x2 ∧ n3 = 0x9
                                                                · rw [if_pos h32] at h
                                                                  simp only [jp_label, jp_z_label, jp_nz_label, jr_label, jr_z, jr_nz, jr_c, jr_nc, call_label, ret, ret_z, ld_hl_nn, ld_de_nn, ld_bc_nn, ld_hl_label, ld_a_n, ld_b_n, ld_c_n, ld_d_n, ld_e_n, ld_h_n, ld_l_n, ld_a_hl, ld_hl_a, ld_a_de, ld_de_a, ld_a_b, ld_a_c, ld_a_d, ld_a_e, ld_a_l, ld_a_h, ld_l_a, ld_h_a, ld_e_a, ld_d_a, ld_b_a, ld_c_a, ld_e_hl, ld_d_hl, ld_l_e, ld_h_d, ld_h_hl, ld_a_mem, ld_mem_a, inc_hl, inc_de, inc_bc, inc_a, inc_b, inc_hl_ind, dec_a, dec_b, dec_c, dec_d, dec_e, dec_hl, dec_bc, add_hl_de, add_hl_hl, add_a_n, add_a_hl, sbc_hl_de, sub_n, sub_hl, and_n, and_a_b, and_a_c, and_a_d, and_a_e, and_hl, or_a, or_c, or_hl, xor_a, xor_h, xor_hl, cp_n, cp_hl, push_af, push_hl, push_de, pop_af, pop_hl, pop_de, ex_de_hl, out_n_a, in_a_n, label, emit_label_ref, emit16, emit, List.append_assoc, List.cons_append, List.singleton_append, List.nil_append] at h
                                                                  injection h with h
                                                                  subst h
                                                                  refine ⟨rfl, rfl, ⟨_, rfl⟩, ?_, ?_⟩
                                                                  · intro nm hnm
                                                                    repeat (first | exact hnm | apply lookup_cons_isSome)
                                                                  · intro hpc
                                                                    refine ⟨by simp only [List.length_append, List.length_cons, List.length_nil]; omega, ?_⟩
                                                                    exact ⟨[], by simp, by simp⟩
                                                                · rw [if_neg h32] at h
                                                                  by_cases h33 : n0 = 0xF ∧ n2 = 0x3 ∧ n3 = 0x3
                                                                  · rw [if_pos h33] at h
                                                                    simp only [jp_label, jp_z_label, jp_nz_label, jr_label, jr_z, jr_nz, jr_c, jr_nc, call_label, ret, ret_z, ld_hl_nn, ld_de_nn, ld_bc_nn, ld_hl_label, ld_a_n, ld_b_n, ld_c_n, ld_d_n, ld_e_n, ld_h_n, ld_l_n, ld_a_hl, ld_hl_a, ld_a_de, ld_de_a, ld_a_b, ld_a_c, ld_a_d, ld_a_e, ld_a_l, ld_a_h, ld_l_a, ld_h_a, ld_e_a, ld_d_a, ld_b_a, ld_c_a, ld_e_hl, ld_d_hl, ld_l_e, ld_h_d, ld_h_hl, ld_a_mem, ld_mem_a, inc_hl, inc_de, inc_bc, inc_a, inc_b, inc_hl_ind, dec_a, dec_b, dec_c, dec_d, dec_e, dec_hl, dec_bc, add_hl_de, add_hl_hl, add_a_n, add_a_hl, sbc_hl_de, sub_n, sub_hl, and_n, and_a_b, and_a_c, and_a_d, and_a_e, and_hl, or_a, or_c, or_hl, xor_a, xor_h, xor_hl, cp_n, cp_hl, push_af, push_hl, push_de, pop_af, pop_hl, pop_de, ex_de_hl, out_n_a, in_a_n, label, emit_label_ref, emit16, emit, List.append_assoc, List.cons_append, List.singleton_append, List.nil_append] at h
                                                                    injection h with h
                                                                    subst h
                                                                    refine ⟨rfl, rfl, ⟨_, rfl⟩, ?_, ?_⟩
                                                                    · intro nm hnm
                                                                      repeat (first | exact hnm | apply lookup_cons_isSome)
                                                                    · intro hpc
                                                                      refine ⟨by simp only [List.length_append, List.length_cons, List.length_nil]; omega, ?_⟩
                                                                      refine ⟨_, rfl, ?_⟩
                                                                      intro r hr
                                                                      simp only [List.mem_cons, List.mem_singleton, List.not_mem_nil, or_false] at hr
                                                                      rcases hr with hr | hr | hr | hr
                                                                      · subst hr
                                                                        refine ⟨by simp; omega, by simp only [List.length_append, List.length_cons, List.length_nil]; omega, ?_⟩
                                                                        exact Or.inl (by repeat (first | exact lookup_cons_self | apply lookup_cons_isSome))
                                                                      · subst hr
                                                                        refine ⟨by simp; omega, by simp only [List.length_append, List.length_cons, List.length_nil]; omega, ?_⟩
                                                                        exact Or.inl (by repeat (first | exact lookup_cons_self | apply lookup_cons_isSome))
                                                                      · subst hr
                                                                        refine ⟨by simp; omega, by simp only [List.length_append, List.length_cons, List.length_nil]; omega, ?_⟩
                                                                        exact Or.inl (by repeat (first | exact lookup_cons_self | apply lookup_cons_isSome))
                                                                      · subst hr
                                                                        refine ⟨by simp; omega, by simp only [List.length_append, List.length_cons, List.length_nil]; omega, ?_⟩
                                                                        exact Or.inl (by repeat (first | exact lookup_cons_self | apply lookup_cons_isSome))
                                                                  · rw [if_neg h33] at h
                                                                    by_cases h34 : n0 = 0xF ∧ n2 = 0x5 ∧ n3 = 0x5
                                                                    · rw [if_pos h34] at h
                                                                      simp only [jp_label, jp_z_label, jp_nz_label, jr_label, jr_z, jr_nz, jr_c, jr_nc, call_label, ret, ret_z, ld_hl_nn, ld_de_nn, ld_bc_nn, ld_hl_label, ld_a_n, ld_b_n, ld_c_n, ld_d_n, ld_e_n, ld_h_n, ld_l_n, ld_a_hl, ld_hl_a, ld_a_de, ld_de_a, ld_a_b, ld_a_c, ld_a_d, ld_a_e, ld_a_l, ld_a_h, ld_l_a, ld_h_a, ld_e_a, ld_d_a, ld_b_a, ld_c_a, ld_e_hl, ld_d_hl, ld_l_e, ld_h_d, ld_h_hl, ld_a_mem, ld_mem_a, inc_hl, inc_de, inc_bc, inc_a, inc_b, inc_hl_ind, dec_a, dec_b, dec_c, dec_d, dec_e, dec_hl, dec_bc, add_hl_de, add_hl_hl, add_a_n, add_a_hl, sbc_hl_de, sub_n, sub_hl, and_n, and_a_b, and_a_c, and_a_d, and_a_e, and_hl, or_a, or_c, or_hl, xor_a, xor_h, xor_hl, cp_n, cp_hl, push_af, push_hl, push_de, pop_af, pop_hl, pop_de, ex_de_hl, out_n_a, in_a_n, label, emit_label_ref, emit16, emit, List.append_assoc, List.cons_append, List.singleton_append, List.nil_append] at h
                                                                      injection h with h
                                                                      subst h
                                                                      refine ⟨rfl, rfl, ⟨_, rfl⟩, ?_, ?_⟩
                                                                      · intro nm hnm
                                                                        repeat (first | exact hnm | apply lookup_cons_isSome)
                                                                      · intro hpc
                                                                        refine ⟨by simp only [List.length_append, List.length_cons, List.length_nil]; omega, ?_⟩
                                                                        refine ⟨_, rfl, ?_⟩
                                                                        intro r hr
                                                                        simp only [List.mem_cons, List.mem_singleton, List.not_mem_nil, or_false] at hr
                                                                        subst hr
                                                                        refine ⟨by simp; omega, by simp only [List.length_append, List.length_cons, List.length_nil]; omega, ?_⟩
                                                                        exact Or.inl (by repeat (first | exact lookup_cons_self | apply lookup_cons_isSome))
                                                                    · rw [if_neg h34] at h
                                                                      by_cases h35 : n0 = 0xF ∧ n2 = 0x6 ∧ n3 = 0x5
                                                                      · rw [if_pos h35] at h
                                                                        simp only [jp_label, jp_z_label, jp_nz_label, jr_label, jr_z, jr_nz, jr_c, jr_nc, call_label, ret, ret_z, ld_hl_nn, ld_de_nn, ld_bc_nn, ld_hl_label, ld_a_n, ld_b_n, ld_c_n, ld_d_n, ld_e_n, ld_h_n, ld_l_n, ld_a_hl, ld_hl_a, ld_a_de, ld_de_a, ld_a_b, ld_a_c, ld_a_d, ld_a_e, ld_a_l, ld_a_h, ld_l_a, ld_h_a, ld_e_a, ld_d_a, ld_b_a, ld_c_a, ld_e_hl, ld_d_hl, ld_l_e, ld_h_d, ld_h_hl, ld_a_mem, ld_mem_a, inc_hl, inc_de, inc_bc, inc_a, inc_b, inc_hl_ind, dec_a, dec_b, dec_c, dec_d, dec_e, dec_hl, dec_bc, add_hl_de, add_hl_hl, add_a_n, add_a_hl, sbc_hl_de, sub_n, sub_hl, and_n, and_a_b, and_a_c, and_a_d, and_a_e, and_hl, or_a, or_c, or_hl, xor_a, xor_h, xor_hl, cp_n, cp_hl, push_af, push_hl, push_de, pop_af, pop_hl, pop_de, ex_de_hl, out_n_a, in_a_n, label, emit_label_ref, emit16, emit, List.append_assoc, List.cons_append, List.singleton_append, List.nil_append] at h
                                                                        injection h with h
                                                                        subst h
                                                                        refine ⟨rfl, rfl, ⟨_, rfl⟩, ?_, ?_⟩
                                                                        · intro nm hnm
                                                                          repeat (first | exact hnm | apply lookup_cons_isSome)
                                                                        · intro hpc
                                                                          refine ⟨by simp only [List.length_append, List.length_cons, List.length_nil]; omega, ?_⟩
                                                                          refine ⟨_, rfl, ?_⟩
                                                                          intro r hr
                                                                          simp only [List.mem_cons, List.mem_singleton, List.not_mem_nil, or_false] at hr
                                                                          subst hr
                                                                          refine ⟨by simp; omega, by simp only [List.length_append, List.length_cons, List.length_nil]; omega, ?_⟩
                                                                          exact Or.inl (by repeat (first | exact lookup_cons_self | apply lookup_cons_isSome))
                                                                      · rw [if_neg h35] at h
                                                                        injection h with h
                                                                        subst h
                                                                        exact Post_refl c

/-- A template expansion fails exactly with the `1NNN`/`2NNN` unknown-target
errors: on failure the class nibble is 1 or 2, the jump target has no
`c8_XXX` label, and the message is the corresponding format string. -/
theorem compile_instruction_nibbles_err (c : Compiler) (inst : Instruction)
    (n0 n1 n2 n3 : Nat) (e : String)
    (h : compile_instruction_nibbles c inst n0 n1 n2 n3 = .error e) :
    (n0 = 0x1 ∨ n0 = 0x2) ∧ List.lookup inst.nnn c.chip8_labels = none ∧
    (e = "Jump to unknown address " ++ padHex 3 inst.nnn ∨
      e = "Call to unknown address " ++ padHex 3 inst.nnn) := by
  unfold compile_instruction_nibbles at h
  by_cases h1 : n0 = 0x0 ∧ n1 = 0x0 ∧ n2 = 0xE ∧ n3 = 0x0
  · rw [if_pos h1] at h
    exact Except.noConfusion h
  · rw [if_neg h1] at h
    by_cases h2 : n0 = 0x0 ∧ n1 = 0x0 ∧ n2 = 0xE ∧ n3 = 0xE
    · rw [if_pos h2] at h
      exact Except.noConfusion h
    · rw [if_neg h2] at h
      by_cases h3 : n0 = 0x0
      · rw [if_pos h3] at h
        exact Except.noConfusion h
      · rw [if_neg h3] at h
        by_cases h4 : n0 = 0x1
        · rw [if_pos h4] at h
          simp only [jp_label, jp_z_label, jp_nz_label, jr_label, jr_z, jr_nz, jr_c, jr_nc, call_label, ret, ret_z, ld_hl_nn, ld_de_nn, ld_bc_nn, ld_hl_label, ld_a_n, ld_b_n, ld_c_n, ld_d_n, ld_e_n, ld_h_n, ld_l_n, ld_a_hl, ld_hl_a, ld_a_de, ld_de_a, ld_a_b, ld_a_c, ld_a_d, ld_a_e, ld_a_l, ld_a_h, ld_l_a, ld_h_a, ld_e_a, ld_d_a, ld_b_a, ld_c_a, ld_e_hl, ld_d_hl, ld_l_e, ld_h_d, ld_h_hl, ld_a_mem, ld_mem_a, inc_hl, inc_de, inc_bc, inc_a, inc_b, inc_hl_ind, dec_a, dec_b, dec_c, dec_d, dec_e, dec_hl, dec_bc, add_hl_de, add_hl_hl, add_a_n, add_a_hl, sbc_hl_de, sub_n, sub_hl, and_n, and_a_b, and_a_c, and_a_d, and_a_e, and_hl, or_a, or_c, or_hl, xor_a, xor_h, xor_hl, cp_n, cp_hl, push_af, push_hl, push_de, pop_af, pop_hl, pop_de, ex_de_hl, out_n_a, in_a_n, label, emit_label_ref, emit16, emit, List.append_assoc, List.cons_append, List.singleton_append, List.nil_append] at h
          split at h
          next lbl heq => exact Except.noConfusion h
          next heq =>
            injection h with h
            exact ⟨Or.inl h4, heq, Or.inl h.symm⟩
        · rw [if_neg h4] at h
          by_cases h5 : n0 = 0x2
          · rw [if_pos h5] at h
            simp only [jp_label, jp_z_label, jp_nz_label, jr_label, jr_z, jr_nz, jr_c, jr_nc, call_label, ret, ret_z, ld_hl_nn, ld_de_nn, ld_bc_nn, ld_hl_label, ld_a_n, ld_b_n, ld_c_n, ld_d_n, ld_e_n, ld_h_n, ld_l_n, ld_a_hl, ld_hl_a, ld_a_de, ld_de_a, ld_a_b, ld_a_c, ld_a_d, ld_a_e, ld_a_l, ld_a_h, ld_l_a, ld_h_a, ld_e_a, ld_d_a, ld_b_a, ld_c_a, ld_e_hl, ld_d_hl, ld_l_e, ld_h_d, ld_h_hl, ld_a_mem, ld_mem_a, inc_hl, inc_de, inc_bc, inc_a, inc_b, inc_hl_ind, dec_a, dec_b, dec_c, dec_d, dec_e, dec_hl, dec_bc, add_hl_de, add_hl_hl, add_a_n, add_a_hl, sbc_hl_de, sub_n, sub_hl, and_n, and_a_b, and_a_c, and_a_d, and_a_e, and_hl, or_a, or_c, or_hl, xor_a, xor_h, xor_hl, cp_n, cp_hl, push_af, push_hl, push_de, pop_af, pop_hl, pop_de, ex_de_hl, out_n_a, in_a_n, label, emit_label_ref, emit16, emit, List.append_assoc, List.cons_append, List.singleton_append, List.nil_append] at h
            split at h
            next lbl heq => exact Except.noConfusion h
            next heq =>
              injection h with h
              exact ⟨Or.inr h5, heq, Or.inr h.symm⟩
          · rw [if_neg h5] at h
            by_cases h6 : n0 = 0x3
            · rw [if_pos h6] at h
              simp only [jp_label, jp_z_label, jp_nz_label, jr_label, jr_z, jr_nz, jr_c, jr_nc, call_label, ret, ret_z, ld_hl_nn, ld_de_nn, ld_bc_nn, ld_hl_label, ld_a_n, ld_b_n, ld_c_n, ld_d_n, ld_e_n, ld_h_n, ld_l_n, ld_a_hl, ld_hl_a, ld_a_de, ld_de_a, ld_a_b, ld_a_c, ld_a_d, ld_a_e, ld_a_l, ld_a_h, ld_l_a, ld_h_a, ld_e_a, ld_d_a, ld_b_a, ld_c_a, ld_e_hl, ld_d_hl, ld_l_e, ld_h_d, ld_h_hl, ld_a_mem, ld_mem_a, inc_hl, inc_de, inc_bc, inc_a, inc_b, inc_hl_ind, dec_a, dec_b, dec_c, dec_d, dec_e, dec_hl, dec_bc, add_hl_de, add_hl_hl, add_a_n, add_a_hl, sbc_hl_de, sub_n, sub_hl, and_n, and_a_b, and_a_c, and_a_d, and_a_e, and_hl, or_a, or_c, or_hl, xor_a, xor_h, xor_hl, cp_n, cp_hl, push_af, push_hl, push_de, pop_af, pop_hl, pop_de, ex_de_hl, out_n_a, in_a_n, label, emit_label_ref, emit16, emit, List.append_assoc, List.cons_append, List.singleton_append, List.nil_append] at h
              split at h
              next lbl heq => exact Except.noConfusion h
              next heq => exact Except.noConfusion h
            · rw [if_neg h6] at h
              by_cases h7 : n0 = 0x4
              · rw [if_pos h7] at h
                simp only [jp_label, jp_z_label, jp_nz_label, jr_label, jr_z, jr_nz, jr_c, jr_nc, call_label, ret, ret_z, ld_hl_nn, ld_de_nn, ld_bc_nn, ld_hl_label, ld_a_n, ld_b_n, ld_c_n, ld_d_n, ld_e_n, ld_h_n, ld_l_n, ld_a_hl, ld_hl_a, ld_a_de, ld_de_a, ld_a_b, ld_a_c, ld_a_d, ld_a_e, ld_a_l, ld_a_h, ld_l_a, ld_h_a, ld_e_a, ld_d_a, ld_b_a, ld_c_a, ld_e_hl, ld_d_hl, ld_l_e, ld_h_d, ld_h_hl, ld_a_mem, ld_mem_a, inc_hl, inc_de, inc_bc, inc_a, inc_b, inc_hl_ind, dec_a, dec_b, dec_c, dec_d, dec_e, dec_hl, dec_bc, add_hl_de, add_hl_hl, add_a_n, add_a_hl, sbc_hl_de, sub_n, sub_hl, and_n, and_a_b, and_a_c, and_a_d, and_a_e, and_hl, or_a, or_c, or_hl, xor_a, xor_h, xor_hl, cp_n, cp_hl, push_af, push_hl, push_de, pop_af, pop_hl, pop_de, ex_de_hl, out_n_a, in_a_n, label, emit_label_ref, emit16, emit, List.append_assoc, List.cons_append, List.singleton_append, List.nil_append] at h
                split at h
                next lbl heq => exact Except.noConfusion h
                next heq => exact Except.noConfusion h
              · rw [if_neg h7] at h
                by_cases h8 : n0 = 0x5 ∧ n3 = 0x0
                · rw [if_pos h8] at h
                  simp only [jp_label, jp_z_label, jp_nz_label, jr_label, jr_z, jr_nz, jr_c, jr_nc, call_label, ret, ret_z, ld_hl_nn, ld_de_nn, ld_bc_nn, ld_hl_label, ld_a_n, ld_b_n, ld_c_n, ld_d_n, ld_e_n, ld_h_n, ld_l_n, ld_a_hl, ld_hl_a, ld_a_de, ld_de_a, ld_a_b, ld_a_c, ld_a_d, ld_a_e, ld_a_l, ld_a_h, ld_l_a, ld_h_a, ld_e_a, ld_d_a, ld_b_a, ld_c_a, ld_e_hl, ld_d_hl, ld_l_e, ld_h_d, ld_h_hl, ld_a_mem, ld_mem_a, inc_hl, inc_de, inc_bc, inc_a, inc_b, inc_hl_ind, dec_a, dec_b, dec_c, dec_d, dec_e, dec_hl, dec_bc, add_hl_de, add_hl_hl, add_a_n, add_a_hl, sbc_hl_de, sub_n, sub_hl, and_n, and_a_b, and_a_c, and_a_d, and_a_e, and_hl, or_a, or_c, or_hl, xor_a, xor_h, xor_hl, cp_n, cp_hl, push_af, push_hl, push_de, pop_af, pop_hl, pop_de, ex_de_hl, out_n_a, in_a_n, label, emit_label_ref, emit16, emit, List.append_assoc, List.cons_append, List.singleton_append, List.nil_append] at h
                  split at h
                  next lbl heq => exact Except.noConfusion h
                  next heq => exact Except.noConfusion h
                · rw [if_neg h8] at h
                  by_cases h9 : n0 = 0x6
                  · rw [if_pos h9] at h
                    exact Except.noConfusion h
                  · rw [if_neg h9] at h
                    by_cases h10 : n0 = 0x7
                    · rw [if_pos h10] at h
                      exact Except.noConfusion h
                    · rw [if_neg h10] at h
                      by_cases h11 : n0 = 0x8 ∧ n3 = 0x0
                      · rw [if_pos h11] at h
                        exact Except.noConfusion h
                      · rw [if_neg h11] at h
                        by_cases h12 : n0 = 0x8 ∧ n3 = 0x1
                        · rw [if_pos h12] at h
                          exact Except.noConfusion h
                        · rw [if_neg h12] at h
                          by_cases h13 : n0 = 0x8 ∧ n3 = 0x2
                          · rw [if_pos h13] at h
                            exact Except.noConfusion h
                          · rw [if_neg h13] at h
                            by_cases h14 : n0 = 0x8 ∧ n3 = 0x3
                            · rw [if_pos h14] at h
                              exact Except.noConfusion h
                            · rw [if_neg h14] at h
                              by_cases h15 : n0 = 0x8 ∧ n3 = 0x4
                              · rw [if_pos h15] at h
                                exact Except.noConfusion h
                              · rw [if_neg h15] at h
                                by_cases h16 : n0 = 0x8 ∧ n3 = 0x5
                                · rw [if_pos h16] at h
                                  exact Except.noConfusion h
                                · rw [if_neg h16] at h
                                  by_cases h17 : n0 = 0x8 ∧ n3 = 0x6
                                  · rw [if_pos h17] at h
                                    exact Except.noConfusion h
                                  · rw [if_neg h17] at h
                                    by_cases h18 : n0 = 0x8 ∧ n3 = 0x7
                                    · rw [if_pos h18] at h
                                      exact Except.noConfusion h
                                    · rw [if_neg h18] at h
                                      by_cases h19 : n0 = 0x8 ∧ n3 = 0xE
                                      · rw [if_pos h19] at h
                                        exact Except.noConfusion h
                                      · rw [if_neg h19] at h
                                        by_cases h20 : n0 = 0x9 ∧ n3 = 0x0
                                        · rw [if_pos h20] at h
                                          simp only [jp_label, jp_z_label, jp_nz_label, jr_label, jr_z, jr_nz, jr_c, jr_nc, call_label, ret, ret_z, ld_hl_nn, ld_de_nn, ld_bc_nn, ld_hl_label, ld_a_n, ld_b_n, ld_c_n, ld_d_n, ld_e_n, ld_h_n, ld_l_n, ld_a_hl, ld_hl_a, ld_a_de, ld_de_a, ld_a_b, ld_a_c, ld_a_d, ld_a_e, ld_a_l, ld_a_h, ld_l_a, ld_h_a, ld_e_a, ld_d_a, ld_b_a, ld_c_a, ld_e_hl, ld_d_hl, ld_l_e, ld_h_d, ld_h_hl, ld_a_mem, ld_mem_a, inc_hl, inc_de, inc_bc, inc_a, inc_b, inc_hl_ind, dec_a, dec_b, dec_c, dec_d, dec_e, dec_hl, dec_bc, add_hl_de, add_hl_hl, add_a_n, add_a_hl, sbc_hl_de, sub_n, sub_hl, and_n, and_a_b, and_a_c, and_a_d, and_a_e, and_hl, or_a, or_c, or_hl, xor_a, xor_h, xor_hl, cp_n, cp_hl, push_af, push_hl, push_de, pop_af, pop_hl, pop_de, ex_de_hl, out_n_a, in_a_n, label, emit_label_ref, emit16, emit, List.append_assoc, List.cons_append, List.singleton_append, List.nil_append] at h
                                          split at h
                                          next lbl heq => exact Except.noConfusion h
                                          next heq => exact Except.noConfusion h
                                        · rw [if_neg h20] at h
                                          by_cases h21 : n0 = 0xA
                                          · rw [if_pos h21] at h
                                            exact Except.noConfusion h
                                          · rw [if_neg h21] at h
                                            by_cases h22 : n0 = 0xB
                                            · rw [if_pos h22] at h
                                              exact Except.noConfusion h
                                            · rw [if_neg h22] at h
                                              by_cases h23 : n0 = 0xC
                                              · rw [if_pos h23] at h
                                                exact Except.noConfusion h
                                              · rw [if_neg h23] at h
                                                by_cases h24 : n0 = 0xD
                                                · rw [if_pos h24] at h
                                                  exact Except.noConfusion h
                                                · rw [if_neg h24] at h
                                                  by_cases h25 : n0 = 0xE ∧ n2 = 0x9 ∧ n3 = 0xE
                                                  · rw [if_pos h25] at h
                                                    simp only [jp_label, jp_z_label, jp_nz_label, jr_label, jr_z, jr_nz, jr_c, jr_nc, call_label, ret, ret_z, ld_hl_nn, ld_de_nn, ld_bc_nn, ld_hl_label, ld_a_n, ld_b_n, ld_c_n, ld_d_n, ld_e_n, ld_h_n, ld_l_n, ld_a_hl, ld_hl_a, ld_a_de, ld_de_a, ld_a_b, ld_a_c, ld_a_d, ld_a_e, ld_a_l, ld_a_h, ld_l_a, ld_h_a, ld_e_a, ld_d_a, ld_b_a, ld_c_a, ld_e_hl, ld_d_hl, ld_l_e, ld_h_d, ld_h_hl, ld_a_mem, ld_mem_a, inc_hl, inc_de, inc_bc, inc_a, inc_b, inc_hl_ind, dec_a, dec_b, dec_c, dec_d, dec_e, dec_hl, dec_bc, add_hl_de, add_hl_hl, add_a_n, add_a_hl, sbc_hl_de, sub_n, sub_hl, and_n, and_a_b, and_a_c, and_a_d, and_a_e, and_hl, or_a, or_c, or_hl, xor_a, xor_h, xor_hl, cp_n, cp_hl, push_af, push_hl, push_de, pop_af, pop_hl, pop_de, ex_de_hl, out_n_a, in_a_n, label, emit_label_ref, emit16, emit, List.append_assoc, List.cons_append, List.singleton_append, List.nil_append] at h
                                                    split at h
                                                    next lbl heq => exact Except.noConfusion h
                                                    next heq => exact Except.noConfusion h
                                                  · rw [if_neg h25] at h
                                                    by_cases h26 : n0 = 0xE ∧ n2 = 0xA ∧ n3 = 0x1
                                                    · rw [if_pos h26] at h
                                                      simp only [jp_label, jp_z_label, jp_nz_label, jr_label, jr_z, jr_nz, jr_c, jr_nc, call_label, ret, ret_z, ld_hl_nn, ld_de_nn, ld_bc_nn, ld_hl_label, ld_a_n, ld_b_n, ld_c_n, ld_d_n, ld_e_n, ld_h_n, ld_l_n, ld_a_hl, ld_hl_a, ld_a_de, ld_de_a, ld_a_b, ld_a_c, ld_a_d, ld_a_e, ld_a_l, ld_a_h, ld_l_a, ld_h_a, ld_e_a, ld_d_a, ld_b_a, ld_c_a, ld_e_hl, ld_d_hl, ld_l_e, ld_h_d, ld_h_hl, ld_a_mem, ld_mem_a, inc_hl, inc_de, inc_bc, inc_a, inc_b, inc_hl_ind, dec_a, dec_b, dec_c, dec_d, dec_e, dec_hl, dec_bc, add_hl_de, add_hl_hl, add_a_n, add_a_hl, sbc_hl_de, sub_n, sub_hl, and_n, and_a_b, and_a_c, and_a_d, and_a_e, and_hl, or_a, or_c, or_hl, xor_a, xor_h, xor_hl, cp_n, cp_hl, push_af, push_hl, push_de, pop_af, pop_hl, pop_de, ex_de_hl, out_n_a, in_a_n, label, emit_label_ref, emit16, emit, List.append_assoc, List.cons_append, List.singleton_append, List.nil_append] at h
                                                      split at h
                                                      next lbl heq => exact Except.noConfusion h
                                                      next heq => exact Except.noConfusion h
                                                    · rw [if_neg h26] at h
                                                      by_cases h27 : n0 = 0xF ∧ n2 = 0x0 ∧ n3 = 0x7
                                                      · rw [if_pos h27] at h
                                                        exact Except.noConfusion h
                                                      · rw [if_neg h27] at h
                                                        by_cases h28 : n0 = 0xF ∧ n2 = 0x0 ∧ n3 = 0xA
                                                        · rw [if_pos h28] at h
                                                          exact Except.noConfusion h
                                                        · rw [if_neg h28] at h
                                                          by_cases h29 : n0 = 0xF ∧ n2 = 0x1 ∧ n3 = 0x5
                                                          · rw [if_pos h29] at h
                                                            exact Except.noConfusion h
                                                          · rw [if_neg h29] at h
                                                            by_cases h30 : n0 = 0xF ∧ n2 = 0x1 ∧ n3 = 0x8
                                                            · rw [if_pos h30] at h
                                                              exact Except.noConfusion h
                                                            · rw [if_neg h30] at h
                                                              by_cases h31 : n0 = 0xF ∧ n2 = 0x1 ∧ n3 = 0xE
                                                              · rw [if_pos h31] at h
                                                                exact Except.noConfusion h
                                                              · rw [if_neg h31] at h
                                                                by_cases h32 : n0 = 0xF ∧ n2 = 0x2 ∧ n3 = 0x9
                                                                · rw [if_pos h32] at h
                                                                  exact Except.noConfusion h
                                                                · rw [if_neg h32] at h
                                                                  by_cases h33 : n0 = 0xF ∧ n2 = 0x3 ∧ n3 = 0x3
                                                                  · rw [if_pos h33] at h
                                                                    exact Except.noConfusion h
                                                                  · rw [if_neg h33] at h
                                                                    by_cases h34 : n0 = 0xF ∧ n2 = 0x5 ∧ n3 = 0x5
                                                                    · rw [if_pos h34] at h
                                                                      exact Except.noConfusion h
                                                                    · rw [if_neg h34] at h
                                                                      by_cases h35 : n0 = 0xF ∧ n2 = 0x6 ∧ n3 = 0x5
                                                                      · rw [if_pos h35] at h
                                                                        exact Except.noConfusion h
                                                                      · rw [if_neg h35] at h
                                                                        exact Except.noConfusion h



/-! ### Extractors for the emission-step invariant -/

theorem Post_chip8_eq {c c' : Compiler} (h : Post c c') :
    c'.chip8_labels = c.chip8_labels := h.1

theorem Post_rom_eq {c c' : Compiler} (h : Post c c') :
    c'.chip8_rom = c.chip8_rom := h.2.1

theorem Post_labels_le {c c' : Compiler} (h : Post c c') :
    ∀ n, (List.lookup n c.labels).isSome = true →
      (List.lookup n c'.labels).isSome = true := h.2.2.2.1

/-! ### Lifting the per-arm facts to `compile_instruction` -/

theorem compile_instruction_post {c c' : Compiler} {inst : Instruction}
    (h : compile_instruction c inst = .ok c') : Post c c' :=
  compile_instruction_nibbles_post c inst _ _ _ _ c' h

theorem compile_instruction_err {c : Compiler} {inst : Instruction} {e : String}
    (h : compile_instruction c inst = .error e) :
    Faulty c inst ∧
      (e = "Jump to unknown address " ++ padHex 3 inst.nnn ∨
        e = "Call to unknown address " ++ padHex 3 inst.nnn) := by
  obtain ⟨h1, h2, h3⟩ := compile_instruction_nibbles_err c inst _ _ _ _ e h
  exact ⟨⟨h1, h2⟩, h3⟩

theorem compile_instruction_nibbles_ok_nnn (c : Compiler) (inst : Instruction)
    (n0 n1 n2 n3 : Nat) (c' : Compiler)
    (h : compile_instruction_nibbles c inst n0 n1 n2 n3 = .ok c')
    (hn : n0 = 0x1 ∨ n0 = 0x2) :
    (List.lookup inst.nnn c.chip8_labels).isSome = true := by
  unfold compile_instruction_nibbles at h
  rcases hn with hn | hn <;> subst hn
  · rw [if_neg (by simp), if_neg (by simp), if_neg (by simp), if_pos rfl] at h
    split at h
    next lbl heq => simp [heq]
    next heq => exact Except.noConfusion h
  · rw [if_neg (by simp), if_neg (by simp), if_neg (by simp), if_neg (by simp),
      if_pos rfl] at h
    simp only [ld_hl_nn, ld_a_hl, ld_l_a, ld_h_n, add_hl_hl, ld_de_nn, add_hl_de,
      ld_a_n, ld_hl_a, inc_hl, inc_hl_ind, emit16, emit] at h
    split at h
    next lbl heq => simp [heq]
    next heq => exact Except.noConfusion h

theorem compile_instruction_total_err {c : Compiler} {inst : Instruction}
    (h : Faulty c inst) : ∃ e, compile_instruction c inst = .error e := by
  cases hres : compile_instruction c inst with
  | error e => exact ⟨e, rfl⟩
  | ok c' =>
    have hs := compile_instruction_nibbles_ok_nnn c inst inst.nibbles.1 inst.nibbles.2.1
      inst.nibbles.2.2.1 inst.nibbles.2.2.2 c' hres h.1
    rw [h.2] at hs
    exact Bool.noConfusion hs

/-! ### The per-instruction fold of `compile` -/

theorem label_chip8 (c : Compiler) (n : String) :
    (label c n).chip8_labels = c.chip8_labels := rfl

theorem label_code (c : Compiler) (n : String) : (label c n).code = c.code := rfl

theorem label_pc (c : Compiler) (n : String) : (label c n).pc = c.pc := rfl

theorem label_refs (c : Compiler) (n : String) :
    (label c n).forward_refs = c.forward_refs := rfl

theorem label_rom (c : Compiler) (n : String) :
    (label c n).chip8_rom = c.chip8_rom := rfl

theorem compileAll_nil (c : Compiler) : compileAll c [] = .ok c := rfl

theorem compileAll_cons (c : Compiler) (inst : Instruction) (instrs : List Instruction) :
    compileAll c (inst :: instrs) =
      (compile_instruction (label c (c8Name inst.addr)) inst).bind
        (fun c₁ => compileAll c₁ instrs) := rfl

theorem compileAll_ok_post {instrs : List Instruction} :
    ∀ {c c' : Compiler}, compileAll c instrs = .ok c' →
      Post c c' ∧
      ∀ inst ∈ instrs, (List.lookup (c8Name inst.addr) c'.labels).isSome = true := by
  induction instrs with
  | nil =>
    intro c c' h
    rw [compileAll_nil] at h
    injection h with h
    subst h
    exact ⟨Post_refl c, by simp⟩
  | cons inst instrs ih =>
    intro c c' h
    rw [compileAll_cons] at h
    cases hci : compile_instruction (label c (c8Name inst.addr)) inst with
    | error e => rw [hci] at h; exact Except.noConfusion h
    | ok c₁ =>
      rw [hci] at h
      simp only [Except.bind] at h
      obtain ⟨hpost, hcov⟩ := ih h
      have hstep : Post c c₁ := Post_trans (Post_label c _) (compile_instruction_post hci)
      refine ⟨Post_trans hstep hpost, ?_⟩
      intro i hi
      rcases List.mem_cons.mp hi with rfl | hi
      · have h0 : (List.lookup (c8Name i.addr) (label c (c8Name i.addr)).labels).isSome
            = true := by
          simp [label, List.lookup]
        exact Post_labels_le hpost _ (Post_labels_le (compile_instruction_post hci) _ h0)
      · exact hcov i hi

theorem compileAll_err {instrs : List Instruction} :
    ∀ {c : Compiler} {e : String}, compileAll c instrs = .error e →
      ∃ inst ∈ instrs, Faulty c inst ∧
        (e = "Jump to unknown address " ++ padHex 3 inst.nnn ∨
          e = "Call to unknown address " ++ padHex 3 inst.nnn) := by
  induction instrs with
  | nil => intro c e h; rw [compileAll_nil] at h; exact Except.noConfusion h
  | cons inst instrs ih =>
    intro c e h
    rw [compileAll_cons] at h
    cases hci : compile_instruction (label c (c8Name inst.addr)) inst with
    | error e' =>
      rw [hci] at h
      simp only [Except.bind] at h
      injection h with h
      subst h
      obtain ⟨⟨hf1, hf2⟩, hmsg⟩ := compile_instruction_err hci
      rw [label_chip8] at hf2
      exact ⟨inst, List.mem_cons_self _ _, ⟨hf1, hf2⟩, hmsg⟩
    | ok c₁ =>
      rw [hci] at h
      simp only [Except.bind] at h
      obtain ⟨i, hi, hf, hmsg⟩ := ih h
      have hp : Post (label c (c8Name inst.addr)) c₁ := compile_instruction_post hci
      have hchip : c₁.chip8_labels = c.chip8_labels := by
        rw [hp.1, label_chip8]
      refine ⟨i, List.mem_cons_of_mem _ hi, ⟨hf.1, ?_⟩, hmsg⟩
      rw [← hchip]
      exact hf.2

theorem compileAll_ok_not_faulty {instrs : List Instruction} :
    ∀ {c c' : Compiler}, compileAll c instrs = .ok c' →
      ∀ inst ∈ instrs, ¬ Faulty c inst := by
  induction instrs with
  | nil => intro c c' _ i hi; exact absurd hi (List.not_mem_nil i)
  | cons inst instrs ih =>
    intro c c' h
    rw [compileAll_cons] at h
    cases hci : compile_instruction (label c (c8Name inst.addr)) inst with
    | error e => rw [hci] at h; exact Except.noConfusion h
    | ok c₁ =>
      rw [hci] at h
      simp only [Except.bind] at h
      intro i hi
      rcases List.mem_cons.mp hi with rfl | hi
      · intro hf
        have hf2 : List.lookup i.nnn (label c (c8Name i.addr)).chip8_labels = none := by
          rw [label_chip8]
          exact hf.2
        obtain ⟨e, he⟩ :=
          @compile_instruction_total_err (label c (c8Name i.addr)) i ⟨hf.1, hf2⟩
        rw [he] at hci
        exact Except.noConfusion hci
      · have hp : Post (label c (c8Name inst.addr)) c₁ := compile_instruction_post hci
        have hchip : c₁.chip8_labels = c.chip8_labels := by
          rw [hp.1, label_chip8]
        intro hf
        exact ih h i hi ⟨hf.1, by rw [hchip]; exact hf.2⟩

/-! ### The address-label map built by the first pass -/

/-- The `c8_XXX` address map `compile` builds from the scanned stream. -/
def c8X (rom : List Nat) : List (Nat × String) := buildC8Labels (parse rom) []

theorem buildC8_cons (i : Instruction) (l : List Instruction) (m : List (Nat × String)) :
    buildC8Labels (i :: l) m = buildC8Labels l ((i.addr, c8Name i.addr) :: m) := rfl

theorem buildC8_lookup_aux (l : List Instruction) :
    ∀ (m : List (Nat × String)) (a : Nat),
      List.lookup a (buildC8Labels l m) =
        if ∃ inst ∈ l, inst.addr = a then some (c8Name a) else List.lookup a m := by
  induction l with
  | nil =>
    intro m a
    simp [buildC8Labels]
  | cons i l ih =>
    intro m a
    rw [buildC8_cons, ih]
    by_cases hl : ∃ inst ∈ l, inst.addr = a
    · obtain ⟨j, hj, hja⟩ := hl
      rw [if_pos ⟨j, hj, hja⟩, if_pos ⟨j, List.mem_cons_of_mem _ hj, hja⟩]
    · rw [if_neg hl]
      by_cases hia : i.addr = a
      · rw [if_pos ⟨i, List.mem_cons_self _ _, hia⟩]
        simp [List.lookup, hia]
      · have hcond : ¬ ∃ inst ∈ i :: l, inst.addr = a := by
          rintro ⟨j, hj, hja⟩
          rcases List.mem_cons.mp hj with rfl | hj
          · exact hia hja
          · exact hl ⟨j, hj, hja⟩
        rw [if_neg hcond]
        have hbeq : (a == i.addr) = false := by
          simp [beq_iff_eq]
          exact fun h => hia h.symm
        simp [List.lookup, hbeq]

theorem c8X_lookup (rom : List Nat) (a : Nat) :
    List.lookup a (c8X rom) =
      if ∃ inst ∈ parse rom, inst.addr = a then some (c8Name a) else none := by
  rw [c8X, buildC8_lookup_aux]
  simp

/-! ### Concrete runtime state -/


/-- The pre-main pipeline state from a fresh compiler (`new()` through
`generate_runtime`), with empty ROM and address map. -/
def runtimeState : Compiler :=
  generate_runtime (generate_init (generate_header compilerNew))

/-- Install the scanned address map and the stored ROM into a state: the only
fields of `Compiler` that `generate_header`/`generate_init`/`generate_runtime`
neither read nor write. -/
def setC8 (c : Compiler) (X : List (Nat × String)) (rom : List Nat) : Compiler :=
  { c with chip8_labels := X, chip8_rom := rom }

theorem emit_setC8 (c : Compiler) (X : List (Nat × String)) (rom : List Nat) (b : Nat) :
    emit (setC8 c X rom) b = setC8 (emit c b) X rom := rfl

theorem label_setC8 (c : Compiler) (X : List (Nat × String)) (rom : List Nat) (n : String) :
    label (setC8 c X rom) n = setC8 (label c n) X rom := rfl

theorem emit_label_ref_setC8 (c : Compiler) (X : List (Nat × String)) (rom : List Nat)
    (n : String) :
    emit_label_ref (setC8 c X rom) n = setC8 (emit_label_ref c n) X rom := rfl

theorem padZeros_setC8 (fuel : Nat) :
    ∀ (c : Compiler) (X : List (Nat × String)) (rom : List Nat),
      padZeros fuel (setC8 c X rom) = setC8 (padZeros fuel c) X rom := by
  induction fuel with
  | zero => intro c X rom; rfl
  | succ fuel ih =>
    intro c X rom
    rw [padZeros, padZeros]
    have hpc : (setC8 c X rom).pc = c.pc := rfl
    rw [hpc]
    by_cases h : c.pc < CODE_START
    · rw [if_pos h, if_pos h, emit_setC8, ih]
    · rw [if_neg h, if_neg h]

theorem foldl_emit_setC8 (bs : List Nat) :
    ∀ (c : Compiler) (X : List (Nat × String)) (rom : List Nat),
      bs.foldl emit (setC8 c X rom) = setC8 (bs.foldl emit c) X rom := by
  induction bs with
  | nil => intro c X rom; rfl
  | cons b bs ih =>
    intro c X rom
    rw [List.foldl_cons, List.foldl_cons, emit_setC8, ih]

theorem generate_header_setC8 (c : Compiler) (X : List (Nat × String)) (rom : List Nat) :
    generate_header (setC8 c X rom) = setC8 (generate_header c) X rom := by
  simp only [generate_header, emit16, emit_setC8, padZeros_setC8]

theorem generate_init_setC8 (c : Compiler) (X : List (Nat × String)) (rom : List Nat) :
    generate_init (setC8 c X rom) = setC8 (generate_init c) X rom := by
  simp only [generate_init, jp_label, jr_nz, jp_nz_label, call_label, ld_hl_nn, ld_bc_nn,
    ld_a_n, ld_hl_a, inc_hl, dec_bc, ld_a_b, or_c, xor_a, emit16,
    emit_setC8, label_setC8, emit_label_ref_setC8]

theorem generate_runtime_setC8 (c : Compiler) (X : List (Nat × String)) (rom : List Nat) :
    generate_runtime (setC8 c X rom) = setC8 (generate_runtime c) X rom := by
  simp only [generate_runtime, jp_label, jp_z_label, jp_nz_label, jr_label, jr_z, jr_nz,
    jr_c, jr_nc, call_label, ret, ret_z, ld_hl_nn, ld_de_nn, ld_bc_nn, ld_hl_label,
    ld_a_n, ld_b_n, ld_c_n, ld_d_n, ld_e_n, ld_h_n, ld_l_n, ld_a_hl, ld_hl_a, ld_a_de,
    ld_de_a, ld_a_b, ld_a_c, ld_a_d, ld_a_e, ld_a_l, ld_a_h, ld_l_a, ld_h_a, ld_e_a,
    ld_d_a, ld_b_a, ld_c_a, ld_e_hl, ld_d_hl, ld_l_e, ld_h_d, ld_h_hl, ld_a_mem,
    ld_mem_a, inc_hl, inc_de, inc_bc, inc_a, inc_b, inc_hl_ind, dec_a, dec_b, dec_c,
    dec_d, dec_e, dec_hl, dec_bc, add_hl_de, add_hl_hl, add_a_n, add_a_hl, sbc_hl_de,
    sub_n, sub_hl, and_n, and_a_b, and_a_c, and_a_d, and_a_e, and_hl, or_a, or_c, or_hl,
    xor_a, xor_h, xor_hl, cp_n, cp_hl, push_af, push_hl, push_de, pop_af, pop_hl, pop_de,
    ex_de_hl, out_n_a, in_a_n, emit16,
    emit_setC8, label_setC8, emit_label_ref_setC8, foldl_emit_setC8]

theorem runtime_concrete (X : List (Nat × String)) (rom : List Nat) :
    generate_runtime (generate_init (generate_header (setC8 compilerNew X rom))) =
      setC8 runtimeState X rom := by
  rw [generate_header_setC8, generate_init_setC8, generate_runtime_setC8]
  rfl

theorem runtimeState_pc : runtimeState.pc = 669 := by decide

theorem runtimeState_len : runtimeState.code.length = 669 := by decide

def headerBytes : List Nat := 0xC3 :: 0x00 :: 0x01 :: List.replicate 253 0

theorem runtimeState_take : runtimeState.code.take 256 = headerBytes := by decide

theorem runtimeState_refs :
    ∀ r ∈ runtimeState.forward_refs, 256 ≤ r.1 ∧ r.1 + 2 ≤ 669 ∧
      ((List.lookup r.2 runtimeState.labels).isSome = true ∨ r.2 = "main") := by decide

theorem runtimeState_base :
    ∀ n ∈ baseRefNames, n = "halt" ∨ n = "chip8_rom_data" ∨
      (List.lookup n runtimeState.labels).isSome = true := by decide



/-! ### The dispatch state entering the per-instruction loop -/

theorem setC8_code (c : Compiler) (X : List (Nat × String)) (rom : List Nat) :
    (setC8 c X rom).code = c.code := rfl

theorem setC8_pc (c : Compiler) (X : List (Nat × String)) (rom : List Nat) :
    (setC8 c X rom).pc = c.pc := rfl

theorem setC8_labels (c : Compiler) (X : List (Nat × String)) (rom : List Nat) :
    (setC8 c X rom).labels = c.labels := rfl

theorem setC8_refs (c : Compiler) (X : List (Nat × String)) (rom : List Nat) :
    (setC8 c X rom).forward_refs = c.forward_refs := rfl

theorem setC8_chip8 (c : Compiler) (X : List (Nat × String)) (rom : List Nat) :
    (setC8 c X rom).chip8_labels = X := rfl

theorem setC8_rom (c : Compiler) (X : List (Nat × String)) (rom : List Nat) :
    (setC8 c X rom).chip8_rom = rom := rfl

theorem label_labels (c : Compiler) (n : String) :
    (label c n).labels = (n, c.pc) :: c.labels := rfl

/-- The state of `compile` just after `self.label("main")`: runtime emitted,
address map and ROM installed. -/
def preMain (rom : List Nat) : Compiler :=
  label (setC8 runtimeState (c8X rom) rom) "main"

/-- The state of `compile` entering the per-instruction loop: the `main`
dispatch jump (to `c8_200`, or to `halt` for an empty stream). -/
def mainState (rom : List Nat) : Compiler :=
  if !(parse rom).isEmpty then jp_label (preMain rom) (c8Name 0x200)
  else jp_label (preMain rom) "halt"

theorem preMain_code (rom : List Nat) : (preMain rom).code = runtimeState.code := by
  unfold preMain
  rw [label_code, setC8_code]

theorem preMain_pc (rom : List Nat) : (preMain rom).pc = runtimeState.pc := by
  unfold preMain
  rw [label_pc, setC8_pc]

theorem preMain_labels (rom : List Nat) :
    (preMain rom).labels = ("main", runtimeState.pc) :: runtimeState.labels := by
  unfold preMain
  rw [label_labels, setC8_pc, setC8_labels]

theorem preMain_refs (rom : List Nat) :
    (preMain rom).forward_refs = runtimeState.forward_refs := by
  unfold preMain
  rw [label_refs, setC8_refs]

theorem preMain_chip8 (rom : List Nat) : (preMain rom).chip8_labels = c8X rom := by
  unfold preMain
  rw [label_chip8, setC8_chip8]

theorem preMain_rom (rom : List Nat) : (preMain rom).chip8_rom = rom := by
  unfold preMain
  rw [label_rom, setC8_rom]

theorem mainState_chip8 (rom : List Nat) : (mainState rom).chip8_labels = c8X rom := by
  unfold mainState
  split <;> rfl

theorem mainState_rom (rom : List Nat) : (mainState rom).chip8_rom = rom := by
  unfold mainState
  split <;> rfl

/-- A nonempty scanned stream starts at address `0x200`. -/
theorem parse_nonempty_head (rom : List Nat) (hne : parse rom ≠ []) :
    ∃ inst ∈ parse rom, inst.addr = 0x200 := by
  obtain ⟨h1, -, -⟩ := parseLoop_spec rom rom.length 0 (by omega)
  have hlen : 0 < (parseLoop rom.length rom 0).length := by
    have he : parse rom = parseLoop rom.length rom 0 := rfl
    rw [he] at hne
    exact List.length_pos.mpr hne
  obtain ⟨he0, -⟩ := h1 0 hlen
  refine ⟨(parseLoop rom.length rom 0).get ⟨0, hlen⟩, List.get_mem _ _ _, ?_⟩
  rw [he0]

theorem mainState_post (rom : List Nat) : Post (preMain rom) (mainState rom) := by
  unfold mainState
  split
  case isTrue hx =>
    apply Post_jp_label
    right
    have hne : parse rom ≠ [] := by
      intro hnil
      rw [hnil] at hx
      simp at hx
    obtain ⟨inst, hmem, haddr⟩ := parse_nonempty_head rom hne
    refine ⟨0x200, ?_⟩
    rw [preMain_chip8, c8X_lookup]
    rw [if_pos ⟨inst, hmem, haddr⟩]
  case isFalse hx =>
    apply Post_jp_label
    left
    simp [baseRefNames]

/-- `compile` up to `resolve_refs`, reorganized around the named intermediate
states: the scanned stream is compiled from `mainState`, then the halt loop
and the ROM copy are appended. -/
theorem compileCode_eq (rom : List Nat) :
    compileCode compilerNew rom =
      (compileAll (mainState rom) (parse rom)).bind
        (fun c => Except.ok (embedRom (label (jp_label (emit (label c "halt") 0x76) "halt")
          "chip8_rom_data"))) := by
  have h : generate_runtime (generate_init (generate_header (setC8 compilerNew (c8X rom) rom)))
      = setC8 runtimeState (c8X rom) rom := runtime_concrete (c8X rom) rom
  show (compileAll
      (if !(parse rom).isEmpty then
        jp_label (label (generate_runtime (generate_init (generate_header
          (setC8 compilerNew (c8X rom) rom)))) "main") (c8Name 0x200)
      else
        jp_label (label (generate_runtime (generate_init (generate_header
          (setC8 compilerNew (c8X rom) rom)))) "main") "halt")
      (parse rom)).bind
      (fun c => Except.ok (embedRom (label (jp_label (emit (label c "halt") 0x76) "halt")
        "chip8_rom_data"))) = _
  rw [h]
  rfl

/-! ### Projection lemmas for the remaining emitters -/

theorem emit_code (c : Compiler) (b : Nat) : (emit c b).code = c.code ++ [b] := rfl

theorem emit_labels (c : Compiler) (b : Nat) : (emit c b).labels = c.labels := rfl

theorem jp_label_labels (c : Compiler) (l : String) : (jp_label c l).labels = c.labels := rfl

/-- The `for byte in bytes` emission loop appends the bytes and advances `pc`
by their count, leaving every other field unchanged. -/
theorem foldl_emit (bs : List Nat) :
    ∀ c : Compiler, bs.foldl emit c = { c with code := c.code ++ bs, pc := c.pc + bs.length } := by
  induction bs with
  | nil => intro c; simp
  | cons b bs ih =>
    intro c
    rw [List.foldl_cons, ih]
    simp only [emit, List.append_assoc, List.singleton_append, List.cons_append,
      List.nil_append, List.length_cons, Compiler.mk.injEq, and_true, true_and]
    omega

theorem embedRom_code (c : Compiler) : (embedRom c).code = c.code ++ c.chip8_rom := by
  rw [embedRom, foldl_emit]

theorem embedRom_pc (c : Compiler) : (embedRom c).pc = c.pc + c.chip8_rom.length := by
  rw [embedRom, foldl_emit]

theorem embedRom_labels (c : Compiler) : (embedRom c).labels = c.labels := by
  rw [embedRom, foldl_emit]

theorem embedRom_refs (c : Compiler) : (embedRom c).forward_refs = c.forward_refs := by
  rw [embedRom, foldl_emit]

theorem embedRom_rom (c : Compiler) : (embedRom c).chip8_rom = c.chip8_rom := by
  rw [embedRom, foldl_emit]

/-- The halt loop and `chip8_rom_data` label after the per-instruction fold
form one emission step. -/
theorem post_c4_to_c8 (c₄ : Compiler) :
    Post c₄ (label (jp_label (emit (label c₄ "halt") 0x76) "halt") "chip8_rom_data") :=
  Post_trans (Post_label _ _)
    (Post_trans (Post_emit _ _)
      (Post_trans (Post_jp_label _ _ (Or.inl (by simp [baseRefNames]))) (Post_label _ _)))

/-! ### Indexing helpers -/

theorem getD_set_ne : ∀ (l : List Nat) (i j a : Nat), i ≠ j →
    (l.set i a).getD j 0 = l.getD j 0 := by
  intro l
  induction l with
  | nil => intro i j a _; rfl
  | cons x t ih =>
    intro i j a hne
    cases i with
    | zero =>
      cases j with
      | zero => exact absurd rfl hne
      | succ j => rfl
    | succ i =>
      cases j with
      | zero => rfl
      | succ j => exact ih i j a (fun he => hne (by rw [he]))

theorem getD_append_left : ∀ (l₁ l₂ : List Nat) (k : Nat), k < l₁.length →
    (l₁ ++ l₂).getD k 0 = l₁.getD k 0 := by
  intro l₁
  induction l₁ with
  | nil => intro l₂ k hk; simp at hk
  | cons x t ih =>
    intro l₂ k hk
    cases k with
    | zero => rfl
    | succ k =>
      simp only [List.length_cons] at hk
      exact ih l₂ k (by omega)

theorem getD_append_right : ∀ (l₁ l₂ : List Nat) (k : Nat),
    (l₁ ++ l₂).getD (l₁.length + k) 0 = l₂.getD k 0 := by
  intro l₁
  induction l₁ with
  | nil => intro l₂ k; simp
  | cons x t ih =>
    intro l₂ k
    have hs : (x :: t).length + k = (t.length + k) + 1 := by
      simp only [List.length_cons]; omega
    rw [hs]
    exact ih l₂ k

/-! ### `resolve_refs`: success and locality of the patching fold -/

theorem resolveFold (labels : List (String × Nat)) :
    ∀ (refs : List (Nat × String)) (code : List Nat),
      (∀ r ∈ refs, (List.lookup r.2 labels).isSome = true) →
      ∃ code',
        refs.foldlM
          (fun (code : List Nat) (r : Nat × String) =>
            match List.lookup r.2 labels with
            | none => Except.error ("Undefined label: " ++ r.2)
            | some target =>
              Except.ok ((code.set r.1 (target &&& 0xFF)).set (r.1 + 1)
                ((target >>> 8) &&& 0xFF)))
          code = Except.ok code' ∧
        code'.length = code.length ∧
        ∀ i, (∀ r ∈ refs, i ≠ r.1 ∧ i ≠ r.1 + 1) → code'.getD i 0 = code.getD i 0 := by
  intro refs
  induction refs with
  | nil =>
    intro code _
    exact ⟨code, rfl, rfl, fun i _ => rfl⟩
  | cons r refs ih =>
    intro code h
    have hr := h r (List.mem_cons_self _ _)
    obtain ⟨target, htgt⟩ := Option.isSome_iff_exists.mp hr
    obtain ⟨code', hfold, hlen, hget⟩ :=
      ih ((code.set r.1 (target &&& 0xFF)).set (r.1 + 1) ((target >>> 8) &&& 0xFF))
        (fun r' hr' => h r' (List.mem_cons_of_mem _ hr'))
    refine ⟨code', ?_, ?_, ?_⟩
    · rw [List.foldlM_cons, htgt]
      exact hfold
    · rw [hlen, List.length_set, List.length_set]
    · intro i hi
      have hir := hi r (List.mem_cons_self _ _)
      rw [hget i (fun r' hr' => hi r' (List.mem_cons_of_mem _ hr'))]
      rw [getD_set_ne _ _ _ _ (fun he => hir.2 he.symm)]
      rw [getD_set_ne _ _ _ _ (fun he => hir.1 he.symm)]

/-- When every recorded reference names a defined label, `resolve_refs`
succeeds, patches in place (same length), and touches only the two bytes of
each placeholder. -/
theorem resolve_refs_ok {c : Compiler}
    (h : ∀ r ∈ c.forward_refs, (List.lookup r.2 c.labels).isSome = true) :
    ∃ code', resolve_refs c = .ok { c with code := code' } ∧
      code'.length = c.code.length ∧
      ∀ i, (∀ r ∈ c.forward_refs, i ≠ r.1 ∧ i ≠ r.1 + 1) →
        code'.getD i 0 = c.code.getD i 0 := by
  obtain ⟨code', hfold, hlen, hget⟩ := resolveFold c.labels c.forward_refs c.code h
  refine ⟨code', ?_, hlen, hget⟩
  show (c.forward_refs.foldlM
      (fun (code : List Nat) (r : Nat × String) =>
        match List.lookup r.2 c.labels with
        | none => Except.error ("Undefined label: " ++ r.2)
        | some target =>
          Except.ok ((code.set r.1 (target &&& 0xFF)).set (r.1 + 1)
            ((target >>> 8) &&& 0xFF)))
      c.code).bind (fun code => Except.ok { c with code := code }) = _
  rw [hfold]
  rfl

/-! ### The state handed to `resolve_refs` -/

theorem lookup_cons_eq (k : String) (v : Nat) (l : List (String × Nat)) :
    List.lookup k ((k, v) :: l) = some v := by
  simp [List.lookup]

theorem getD_take : ∀ (l : List Nat) (n k : Nat), k < n →
    (l.take n).getD k 0 = l.getD k 0 := by
  intro l
  induction l with
  | nil =>
    intro n k hk
    cases n with
    | zero => omega
    | succ n => rfl
  | cons x t ih =>
    intro n k hk
    cases n with
    | zero => omega
    | succ n =>
      cases k with
      | zero => rfl
      | succ k => exact ih n k (by omega)

theorem runtimeState_getD (k : Nat) (hk : k < 256) :
    runtimeState.code.getD k 0 = headerBytes.getD k 0 := by
  rw [← getD_take runtimeState.code 256 k hk, runtimeState_take]

/-- Everything `resolve_refs` and the image builder need about the state
`compile` reaches after embedding the ROM: the `chip8_rom_data` offset, the
header region, the embedded ROM bytes, and the recorded references patching
strictly between the header and the embedded copy, each with a resolvable
name. -/
theorem compileCode_ok {rom : List Nat} {c' : Compiler}
    (h : compileCode compilerNew rom = .ok c') :
    ∃ off,
      List.lookup "chip8_rom_data" c'.labels = some off ∧
      256 ≤ off ∧
      c'.pc = c'.code.length ∧
      c'.code.length = off + rom.length ∧
      (∀ k, k < 256 → c'.code.getD k 0 = runtimeState.code.getD k 0) ∧
      (∀ k, k < rom.length → c'.code.getD (off + k) 0 = rom.getD k 0) ∧
      (∀ r ∈ c'.forward_refs, 256 ≤ r.1 ∧ r.1 + 2 ≤ off ∧
        (List.lookup r.2 c'.labels).isSome = true) := by
  rw [compileCode_eq] at h
  cases hca : compileAll (mainState rom) (parse rom) with
  | error e => rw [hca] at h; exact Except.noConfusion h
  | ok c₄ =>
    rw [hca] at h
    simp only [Except.bind] at h
    injection h with h
    subst h
    set c₅ := label c₄ "halt" with hc5
    set c₆ := emit c₅ 0x76 with hc6
    set c₇ := jp_label c₆ "halt" with hc7
    set c₈ := label c₇ "chip8_rom_data" with hc8
    obtain ⟨hpostA, hcov⟩ := compileAll_ok_post hca
    have h48 : Post c₄ c₈ := by
      rw [hc8, hc7, hc6, hc5]
      exact post_c4_to_c8 c₄
    have hP : Post (preMain rom) c₈ :=
      Post_trans (Post_trans (mainState_post rom) hpostA) h48
    have hle08 : (preMain rom).code.length ≤ c₈.code.length := Post_code_le hP
    obtain ⟨hchip8, hrom8, ⟨t, ht⟩, hlmono, hpcc⟩ := hP
    have hpc0 : (preMain rom).pc = (preMain rom).code.length := by
      rw [preMain_pc, preMain_code, runtimeState_pc, runtimeState_len]
    obtain ⟨hpc8, t2, ht2, hrefs2⟩ := hpcc hpc0
    have hlen0 : (preMain rom).code.length = 669 := by
      rw [preMain_code, runtimeState_len]
    have hrom : c₈.chip8_rom = rom := by
      rw [hrom8, preMain_rom]
    have h7pc : c₇.pc = c₈.code.length := by
      rw [← hpc8, hc8, label_pc]
    have hlabels8 : c₈.labels = ("chip8_rom_data", c₇.pc) :: ("halt", c₄.pc) :: c₄.labels := by
      rw [hc8, label_labels, hc7, jp_label_labels, hc6, emit_labels, hc5, label_labels]
    have hmono48 : ∀ n, (List.lookup n c₄.labels).isSome = true →
        (List.lookup n c₈.labels).isSome = true := by
      intro n hn
      rw [hlabels8]
      exact lookup_cons_isSome (lookup_cons_isSome hn)
    have hhalt8 : (List.lookup "halt" c₈.labels).isSome = true := by
      rw [hlabels8]
      exact lookup_cons_isSome lookup_cons_self
    have hcrd8 : (List.lookup "chip8_rom_data" c₈.labels).isSome = true := by
      rw [hlabels8]
      exact lookup_cons_self
    have hmonoR8 : ∀ n, (List.lookup n runtimeState.labels).isSome = true →
        (List.lookup n c₈.labels).isSome = true := by
      intro n hn
      apply hlmono
      rw [preMain_labels]
      exact lookup_cons_isSome hn
    refine ⟨c₈.code.length, ?_, ?_, ?_, ?_, ?_, ?_, ?_⟩
    · rw [embedRom_labels, hlabels8, lookup_cons_eq, h7pc]
    · omega
    · rw [embedRom_pc, embedRom_code, List.length_append, hpc8]
    · rw [embedRom_code, List.length_append, hrom]
    · intro k hk
      rw [embedRom_code, getD_append_left _ _ _ (by omega : k < c₈.code.length)]
      rw [ht, getD_append_left _ _ _ (by omega : k < (preMain rom).code.length)]
      rw [preMain_code]
    · intro k hk
      rw [embedRom_code, hrom]
      exact getD_append_right c₈.code rom k
    · intro r hr
      rw [embedRom_refs, ht2, preMain_refs] at hr
      rcases List.mem_append.mp hr with hr | hr
      · obtain ⟨hb1, hb2, hb3⟩ := runtimeState_refs r hr
        refine ⟨hb1, by omega, ?_⟩
        rw [embedRom_labels]
        rcases hb3 with hb3 | hb3
        · exact hmonoR8 _ hb3
        · rw [hb3]
          apply hlmono
          rw [preMain_labels]
          exact lookup_cons_self
      · obtain ⟨hb1, hb2, hb3⟩ := hrefs2 r hr
        refine ⟨by omega, hb2, ?_⟩
        rw [embedRom_labels]
        rcases hb3 with hb3 | hb3 | ⟨a, ha⟩
        · exact hb3
        · rcases runtimeState_base r.2 hb3 with hbn | hbn | hbn
          · rw [hbn]; exact hhalt8
          · rw [hbn]; exact hcrd8
          · exact hmonoR8 _ hbn
        · rw [preMain_chip8, c8X_lookup] at ha
          by_cases hex : ∃ inst ∈ parse rom, inst.addr = a
          · rw [if_pos hex] at ha
            injection ha with ha
            obtain ⟨inst, hmem, haddr⟩ := hex
            have hc4 := hcov inst hmem
            rw [haddr] at hc4
            rw [← ha]
            exact hmono48 _ hc4
          · rw [if_neg hex] at ha
            exact Option.noConfusion ha

/-! ### The 32 KiB image buffer -/

theorem getD_set_eq : ∀ (l : List Nat) (i a : Nat), i < l.length →
    (l.set i a).getD i 0 = a := by
  intro l
  induction l with
  | nil => intro i a h; simp at h
  | cons x t ih =>
    intro i a h
    cases i with
    | zero => rfl
    | succ i =>
      simp only [List.length_cons] at h
      exact ih i a (by omega)

theorem writeBytes_length : ∀ (bytes img : List Nat) (i : Nat),
    (writeBytes img bytes i).length = img.length := by
  intro bytes
  induction bytes with
  | nil => intro img i; rfl
  | cons b rest ih =>
    intro img i
    rw [writeBytes, ih]
    split
    · rw [List.length_set]
    · rfl

theorem writeBytes_getD : ∀ (bytes img : List Nat) (i k : Nat),
    (writeBytes img bytes i).getD k 0 =
      if i ≤ k ∧ k < i + bytes.length ∧ k < img.length then bytes.getD (k - i) 0
      else img.getD k 0 := by
  intro bytes
  induction bytes with
  | nil =>
    intro img i k
    rw [writeBytes]
    rw [if_neg (by simp; omega)]
  | cons b rest ih =>
    intro img i k
    rw [writeBytes, ih]
    simp only [List.length_cons]
    by_cases hlt : i < img.length
    · rw [if_pos hlt]
      rw [List.length_set]
      by_cases h1 : i + 1 ≤ k ∧ k < i + 1 + rest.length ∧ k < img.length
      · rw [if_pos h1, if_pos (by omega)]
        have hki : k - i = (k - (i + 1)) + 1 := by omega
        rw [hki]
        rfl
      · rw [if_neg h1]
        by_cases h2 : i ≤ k ∧ k < i + (rest.length + 1) ∧ k < img.length
        · have hk : k = i := by omega
          subst hk
          rw [if_pos h2]
          have hz : k - k = 0 := by omega
          rw [hz]
          exact getD_set_eq img k b hlt
        · rw [if_neg h2]
          exact getD_set_ne img i k b (by omega)
    · rw [if_neg hlt]
      rw [if_neg (by omega), if_neg (by omega)]

theorem replicate_getD : ∀ (n k : Nat), (List.replicate n (0 : Nat)).getD k 0 = 0 := by
  intro n
  induction n with
  | zero => intro k; rfl
  | succ n ih =>
    intro k
    cases k with
    | zero => rfl
    | succ k => exact ih k

theorem mkImage_length (code : List Nat) : (mkImage code).length = 32768 := by
  rw [mkImage, writeBytes_length, List.length_replicate]

theorem mkImage_getD (code : List Nat) (k : Nat) :
    (mkImage code).getD k 0 =
      if k < code.length ∧ k < 32768 then code.getD k 0 else 0 := by
  rw [mkImage, writeBytes_getD, List.length_replicate]
  by_cases hk : k < code.length ∧ k < 32768
  · rw [if_pos (by omega), if_pos hk]
    have hz : k - 0 = k := by omega
    rw [hz]
  · rw [if_neg (by omega), if_neg hk, replicate_getD]

/-! ### `compile` through `resolve_refs` -/

/-- After fixup the header region and the embedded ROM copy are untouched
(all patches land strictly between them), and the `chip8_rom_data` label
still marks the copy. -/
theorem compileCore_ok {rom : List Nat} {c'' : Compiler}
    (h : compileCore compilerNew rom = .ok c'') :
    ∃ off,
      List.lookup "chip8_rom_data" c''.labels = some off ∧
      256 ≤ off ∧
      c''.code.length = off + rom.length ∧
      (∀ k, k < 256 → c''.code.getD k 0 = headerBytes.getD k 0) ∧
      (∀ k, k < rom.length → c''.code.getD (off + k) 0 = rom.getD k 0) := by
  have h' : (compileCode compilerNew rom).bind (fun c => resolve_refs c) = .ok c'' := h
  cases hcc : compileCode compilerNew rom with
  | error e => rw [hcc] at h'; exact Except.noConfusion h'
  | ok c1 =>
    rw [hcc] at h'
    simp only [Except.bind] at h'
    obtain ⟨off, hlook, hoff, hpc, hlen, hhead, hromb, hrefs⟩ := compileCode_ok hcc
    obtain ⟨code', hok, hlen', hget⟩ := resolve_refs_ok (fun r hr => (hrefs r hr).2.2)
    rw [hok] at h'
    injection h' with h'
    subst h'
    refine ⟨off, ?_, hoff, ?_, ?_, ?_⟩
    · show List.lookup "chip8_rom_data" c1.labels = some off
      exact hlook
    · show code'.length = off + rom.length
      rw [hlen', hlen]
    · intro k hk
      show code'.getD k 0 = headerBytes.getD k 0
      have huntouched : ∀ r ∈ c1.forward_refs, k ≠ r.1 ∧ k ≠ r.1 + 1 := by
        intro r hr
        have h1 := (hrefs r hr).1
        constructor <;> omega
      rw [hget k huntouched, hhead k hk]
      exact runtimeState_getD k hk
    · intro k hk
      show code'.getD (off + k) 0 = rom.getD k 0
      have huntouched : ∀ r ∈ c1.forward_refs, off + k ≠ r.1 ∧ off + k ≠ r.1 + 1 := by
        intro r hr
        have h2 := (hrefs r hr).2.1
        constructor <;> omega
      rw [hget (off + k) huntouched]
      exact hromb k hk

theorem compile_eq (rom : List Nat) :
    compile compilerNew rom = (compileCore compilerNew rom).bind
      (fun c => Except.ok (embed_font c (mkImage c.code))) := rfl

/-! ### Concrete evaluation views (for closed witnesses) -/

/-- Whether the pipeline step succeeded. -/
def ccOk : Except String Compiler → Bool
  | .ok _ => true
  | .error _ => false

/-- The `chip8_rom_data` offset and the code length of a compiler state
(`(none, 0)` on error). -/
def romDataView : Except String Compiler → Option Nat × Nat
  | .ok c => (List.lookup "chip8_rom_data" c.labels, c.code.length)
  | .error _ => (none, 0)

/-! ### C1, C6, C10 -/

/-- C1: for every ROM accepted by `compile`, the image is exactly 32768
bytes; byte 0 is 0xC3, bytes 1-2 are 0x00 0x01 (little-endian 0x0100), and
bytes 3 through 0xFF are zero. -/
theorem c1_image_header (rom img : List Nat) (hne : rom ≠ [])
    (h : compile compilerNew rom = .ok img) :
    img.length = 32768 ∧ img.getD 0 0 = 0xC3 ∧ img.getD 1 0 = 0x00 ∧
      img.getD 2 0 = 0x01 ∧ ∀ k, 3 ≤ k → k ≤ 0xFF → img.getD k 0 = 0 := by
  rw [compile_eq] at h
  cases hcc : compileCore compilerNew rom with
  | error e => rw [hcc] at h; exact Except.noConfusion h
  | ok c'' =>
    rw [hcc] at h
    simp only [Except.bind] at h
    injection h with h
    subst h
    obtain ⟨off, hlook, hoff, hlen, hhead, hromb⟩ := compileCore_ok hcc
    have hcl : 256 ≤ c''.code.length := by omega
    refine ⟨?_, ?_, ?_, ?_, ?_⟩
    · show (mkImage c''.code).length = 32768
      exact mkImage_length c''.code
    · show (mkImage c''.code).getD 0 0 = 0xC3
      rw [mkImage_getD, if_pos ⟨by omega, by omega⟩, hhead 0 (by omega)]
      rfl
    · show (mkImage c''.code).getD 1 0 = 0x00
      rw [mkImage_getD, if_pos ⟨by omega, by omega⟩, hhead 1 (by omega)]
      rfl
    · show (mkImage c''.code).getD 2 0 = 0x01
      rw [mkImage_getD, if_pos ⟨by omega, by omega⟩, hhead 2 (by omega)]
      rfl
    · intro k h3 h255
      show (mkImage c''.code).getD k 0 = 0
      rw [mkImage_getD, if_pos ⟨by omega, by omega⟩, hhead k (by omega)]
      obtain ⟨m, rfl⟩ : ∃ m, k = m + 3 := ⟨k - 3, by omega⟩
      show (List.replicate 253 (0 : Nat)).getD m 0 = 0
      exact replicate_getD 253 m

/-- C1 witness: the two-byte self-jump ROM compiles to a 32768-byte image
whose byte 0 is 0xC3. -/
theorem c1_image_header_witness :
    ∃ img, compile compilerNew [0x12, 0x00] = Except.ok img ∧ img.length = 32768 ∧
      img.getD 0 0 = 0xC3 := by
  have hok : ∃ img, compile compilerNew [0x12, 0x00] = Except.ok img := by
    cases himg : compile compilerNew [0x12, 0x00] with
    | ok img => exact ⟨img, rfl⟩
    | error e =>
      rw [compile_eq] at himg
      cases hcc : compileCore compilerNew [0x12, 0x00] with
      | ok c'' =>
        rw [hcc] at himg
        simp only [Except.bind] at himg
        exact Except.noConfusion himg
      | error e' =>
        have hv : ccOk (compileCore compilerNew [0x12, 0x00]) = true := by decide
        rw [hcc] at hv
        simp [ccOk] at hv
  obtain ⟨img, himg⟩ := hok
  obtain ⟨h1, h2, -⟩ := c1_image_header [0x12, 0x00] img (by decide) himg
  exact ⟨img, himg, h1, h2⟩

/-- C6 (amended): the state entering the image builder embeds the input ROM
verbatim at the `chip8_rom_data` label, as the final bytes of the code — with
no 16-byte padding (the code ends exactly `rom.length` bytes after the
label). -/
theorem c6_rom_embedding (rom : List Nat) (c'' : Compiler)
    (h : compileCore compilerNew rom = .ok c'') :
    ∃ off, List.lookup "chip8_rom_data" c''.labels = some off ∧
      c''.code.length = off + rom.length ∧
      ∀ k, k < rom.length → c''.code.getD (off + k) 0 = rom.getD k 0 := by
  obtain ⟨off, h1, -, h3, -, h5⟩ := compileCore_ok h
  exact ⟨off, h1, h3, h5⟩

/-- C6 counterexample to the 16-byte padding: for the two-byte self-jump ROM
the label sits at 679 and the code ends at 681 = 679 + 2 — no padding to a
16-byte boundary anywhere after the embedded copy. -/
theorem c6_rom_embedding_counterexample :
    romDataView (compileCore compilerNew [0x12, 0x00]) = (some 679, 681) ∧
    681 = 679 + 2 ∧ 681 % 16 ≠ 0 ∧ 679 % 16 ≠ 0 := by decide

/-- C6 witness: the amended embedding fact at the two-byte self-jump ROM. -/
theorem c6_rom_embedding_witness :
    ∃ c'' off, compileCore compilerNew [0x12, 0x00] = Except.ok c'' ∧
      List.lookup "chip8_rom_data" c''.labels = some off ∧
      c''.code.length = off + 2 := by
  have hok : ∃ c'', compileCore compilerNew [0x12, 0x00] = Except.ok c'' := by
    cases hcc : compileCore compilerNew [0x12, 0x00] with
    | ok c'' => exact ⟨c'', rfl⟩
    | error e =>
      have hv : romDataView (compileCore compilerNew [0x12, 0x00]) = (some 679, 681) := by
        decide
      rw [hcc] at hv
      simp [romDataView] at hv
  obtain ⟨c'', hcc⟩ := hok
  obtain ⟨off, h1, h2, -⟩ := c6_rom_embedding [0x12, 0x00] c'' hcc
  exact ⟨c'', off, hcc, h1, h2⟩

/-- C10: whenever the emission phase succeeds, the state handed to
`resolve_refs` has `pc = code.length`, and every recorded forward reference
satisfies `offset + 1 < code.length`, so both patch writes stay in bounds. -/
theorem c10_forward_refs_in_bounds (rom : List Nat) (c' : Compiler)
    (h : compileCode compilerNew rom = .ok c') :
    c'.pc = c'.code.length ∧
    ∀ r ∈ c'.forward_refs, r.1 + 1 < c'.code.length := by
  obtain ⟨off, -, hoff, hpc, hlen, -, -, hrefs⟩ := compileCode_ok h
  refine ⟨hpc, ?_⟩
  intro r hr
  have h2 := (hrefs r hr).2.1
  omega

/-- C10 witness: the emission phase of the two-byte self-jump ROM succeeds
with `pc = code.length` and every reference in bounds. -/
theorem c10_forward_refs_in_bounds_witness :
    ∃ c', compileCode compilerNew [0x12, 0x00] = Except.ok c' ∧
      c'.pc = c'.code.length ∧
      ∀ r ∈ c'.forward_refs, r.1 + 1 < c'.code.length := by
  have hok : ∃ c', compileCode compilerNew [0x12, 0x00] = Except.ok c' := by
    cases hcc : compileCode compilerNew [0x12, 0x00] with
    | ok c' => exact ⟨c', rfl⟩
    | error e =>
      have hv : ccOk (compileCode compilerNew [0x12, 0x00]) = true := by decide
      rw [hcc] at hv
      simp [ccOk] at hv
  obtain ⟨c', hcc⟩ := hok
  obtain ⟨h1, h2⟩ := c10_forward_refs_in_bounds [0x12, 0x00] c' hcc
  exact ⟨c', hcc, h1, h2⟩

/-! ### C4: fatal branch targets, silent skip fall-through -/

/-- C4: `compile` fails exactly when some scanned `1NNN`/`2NNN` instruction
targets an address with no `c8_XXX` label; and a skip template (3XNN, 4XNN,
5XY0, 9XY0, EX9E, EXA1) whose skip target `addr + 4` has no label still
succeeds, emitting no branch reference (the only references it may add are
fixed runtime calls, never a code-label branch). -/
theorem c4_branch_targets (rom : List Nat) :
    ((∃ e, compile compilerNew rom = .error e) ↔
      (∃ inst ∈ parse rom, (inst.nibbles.1 = 0x1 ∨ inst.nibbles.1 = 0x2) ∧
        ¬ ∃ inst' ∈ parse rom, inst'.addr = inst.nnn)) ∧
    (∀ (c : Compiler) (inst : Instruction),
      List.lookup (inst.addr + 4) c.chip8_labels = none →
      (inst.nibbles.1 = 0x3 ∨ inst.nibbles.1 = 0x4 ∨
        (inst.nibbles.1 = 0x5 ∧ inst.nibbles.2.2.2 = 0x0) ∨
        (inst.nibbles.1 = 0x9 ∧ inst.nibbles.2.2.2 = 0x0) ∨
        (inst.nibbles.1 = 0xE ∧ inst.nibbles.2.2.1 = 0x9 ∧ inst.nibbles.2.2.2 = 0xE) ∨
        (inst.nibbles.1 = 0xE ∧ inst.nibbles.2.2.1 = 0xA ∧ inst.nibbles.2.2.2 = 0x1)) →
      ∃ c', compile_instruction c inst = .ok c' ∧
        ∀ r ∈ c'.forward_refs, r ∈ c.forward_refs ∨ r.2 ∈ baseRefNames) := by
  constructor
  · constructor
    · rintro ⟨e, he⟩
      rw [compile_eq] at he
      cases hcc : compileCore compilerNew rom with
      | ok c'' =>
        rw [hcc] at he
        simp only [Except.bind] at he
        exact Except.noConfusion he
      | error e' =>
        have h2 : (compileCode compilerNew rom).bind (fun c => resolve_refs c)
            = .error e' := hcc
        cases hcd : compileCode compilerNew rom with
        | ok c1 =>
          rw [hcd] at h2
          simp only [Except.bind] at h2
          obtain ⟨off, -, -, -, -, -, -, hrefs⟩ := compileCode_ok hcd
          obtain ⟨code', hok, -, -⟩ := resolve_refs_ok (fun r hr => (hrefs r hr).2.2)
          rw [hok] at h2
          exact Except.noConfusion h2
        | error e'' =>
          rw [compileCode_eq] at hcd
          cases hca : compileAll (mainState rom) (parse rom) with
          | ok c₄ =>
            rw [hca] at hcd
            simp only [Except.bind] at hcd
            exact Except.noConfusion hcd
          | error e₃ =>
            obtain ⟨inst, hmem, hf, -⟩ := compileAll_err hca
            refine ⟨inst, hmem, hf.1, ?_⟩
            intro hex
            have hnn := hf.2
            rw [mainState_chip8, c8X_lookup, if_pos hex] at hnn
            exact Option.noConfusion hnn
    · rintro ⟨inst, hmem, hn, hnex⟩
      have hf : Faulty (mainState rom) inst := by
        refine ⟨hn, ?_⟩
        rw [mainState_chip8, c8X_lookup, if_neg hnex]
      cases hca : compileAll (mainState rom) (parse rom) with
      | ok c₄ => exact absurd hf (compileAll_ok_not_faulty hca inst hmem)
      | error e =>
        refine ⟨e, ?_⟩
        have hcd : compileCode compilerNew rom = .error e := by
          rw [compileCode_eq, hca]
          rfl
        have hcore : compileCore compilerNew rom = .error e := by
          show (compileCode compilerNew rom).bind (fun c => resolve_refs c) = .error e
          rw [hcd]
          rfl
        rw [compile_eq, hcore]
        rfl
  · intro c inst hnone hp
    rcases hp with hp | hp | ⟨hp, hq⟩ | ⟨hp, hq⟩ | ⟨hp, hq, hr⟩ | ⟨hp, hq, hr⟩
    · unfold compile_instruction compile_instruction_nibbles
      rw [if_neg (by simp [hp]), if_neg (by simp [hp]), if_neg (by simp [hp]),
        if_neg (by simp [hp]), if_neg (by simp [hp]), if_pos hp]
      simp only [jp_label, jp_z_label, jp_nz_label, jr_label, jr_z, jr_nz, jr_c, jr_nc, call_label, ret, ret_z, ld_hl_nn, ld_de_nn, ld_bc_nn, ld_hl_label, ld_a_n, ld_b_n, ld_c_n, ld_d_n, ld_e_n, ld_h_n, ld_l_n, ld_a_hl, ld_hl_a, ld_a_de, ld_de_a, ld_a_b, ld_a_c, ld_a_d, ld_a_e, ld_a_l, ld_a_h, ld_l_a, ld_h_a, ld_e_a, ld_d_a, ld_b_a, ld_c_a, ld_e_hl, ld_d_hl, ld_l_e, ld_h_d, ld_h_hl, ld_a_mem, ld_mem_a, inc_hl, inc_de, inc_bc, inc_a, inc_b, inc_hl_ind, dec_a, dec_b, dec_c, dec_d, dec_e, dec_hl, dec_bc, add_hl_de, add_hl_hl, add_a_n, add_a_hl, sbc_hl_de, sub_n, sub_hl, and_n, and_a_b, and_a_c, and_a_d, and_a_e, and_hl, or_a, or_c, or_hl, xor_a, xor_h, xor_hl, cp_n, cp_hl, push_af, push_hl, push_de, pop_af, pop_hl, pop_de, ex_de_hl, out_n_a, in_a_n, label, emit_label_ref, emit16, emit, List.append_assoc, List.cons_append, List.singleton_append, List.nil_append]
      rw [hnone]
      exact ⟨_, rfl, fun r hr => Or.inl hr⟩
    · unfold compile_instruction compile_instruction_nibbles
      rw [if_neg (by simp [hp]), if_neg (by simp [hp]), if_neg (by simp [hp]),
        if_neg (by simp [hp]), if_neg (by simp [hp]), if_neg (by simp [hp]), if_pos hp]
      simp only [jp_label, jp_z_label, jp_nz_label, jr_label, jr_z, jr_nz, jr_c, jr_nc, call_label, ret, ret_z, ld_hl_nn, ld_de_nn, ld_bc_nn, ld_hl_label, ld_a_n, ld_b_n, ld_c_n, ld_d_n, ld_e_n, ld_h_n, ld_l_n, ld_a_hl, ld_hl_a, ld_a_de, ld_de_a, ld_a_b, ld_a_c, ld_a_d, ld_a_e, ld_a_l, ld_a_h, ld_l_a, ld_h_a, ld_e_a, ld_d_a, ld_b_a, ld_c_a, ld_e_hl, ld_d_hl, ld_l_e, ld_h_d, ld_h_hl, ld_a_mem, ld_mem_a, inc_hl, inc_de, inc_bc, inc_a, inc_b, inc_hl_ind, dec_a, dec_b, dec_c, dec_d, dec_e, dec_hl, dec_bc, add_hl_de, add_hl_hl, add_a_n, add_a_hl, sbc_hl_de, sub_n, sub_hl, and_n, and_a_b, and_a_c, and_a_d, and_a_e, and_hl, or_a, or_c, or_hl, xor_a, xor_h, xor_hl, cp_n, cp_hl, push_af, push_hl, push_de, pop_af, pop_hl, pop_de, ex_de_hl, out_n_a, in_a_n, label, emit_label_ref, emit16, emit, List.append_assoc, List.cons_append, List.singleton_append, List.nil_append]
      rw [hnone]
      exact ⟨_, rfl, fun r hr => Or.inl hr⟩
    · unfold compile_instruction compile_instruction_nibbles
      rw [if_neg (by simp [hp, hq]), if_neg (by simp [hp, hq]), if_neg (by simp [hp, hq]),
        if_neg (by simp [hp, hq]), if_neg (by simp [hp, hq]), if_neg (by simp [hp, hq]),
        if_neg (by simp [hp, hq]), if_pos ⟨hp, hq⟩]
      simp only [jp_label, jp_z_label, jp_nz_label, jr_label, jr_z, jr_nz, jr_c, jr_nc, call_label, ret, ret_z, ld_hl_nn, ld_de_nn, ld_bc_nn, ld_hl_label, ld_a_n, ld_b_n, ld_c_n, ld_d_n, ld_e_n, ld_h_n, ld_l_n, ld_a_hl, ld_hl_a, ld_a_de, ld_de_a, ld_a_b, ld_a_c, ld_a_d, ld_a_e, ld_a_l, ld_a_h, ld_l_a, ld_h_a, ld_e_a, ld_d_a, ld_b_a, ld_c_a, ld_e_hl, ld_d_hl, ld_l_e, ld_h_d, ld_h_hl, ld_a_mem, ld_mem_a, inc_hl, inc_de, inc_bc, inc_a, inc_b, inc_hl_ind, dec_a, dec_b, dec_c, dec_d, dec_e, dec_hl, dec_bc, add_hl_de, add_hl_hl, add_a_n, add_a_hl, sbc_hl_de, sub_n, sub_hl, and_n, and_a_b, and_a_c, and_a_d, and_a_e, and_hl, or_a, or_c, or_hl, xor_a, xor_h, xor_hl, cp_n, cp_hl, push_af, push_hl, push_de, pop_af, pop_hl, pop_de, ex_de_hl, out_n_a, in_a_n, label, emit_label_ref, emit16, emit, List.append_assoc, List.cons_append, List.singleton_append, List.nil_append]
      rw [hnone]
      exact ⟨_, rfl, fun r hr => Or.inl hr⟩
    · unfold compile_instruction compile_instruction_nibbles
      rw [if_neg (by simp [hp, hq]), if_neg (by simp [hp, hq]), if_neg (by simp [hp, hq]),
        if_neg (by simp [hp, hq]), if_neg (by simp [hp, hq]), if_neg (by simp [hp, hq]),
        if_neg (by simp [hp, hq]), if_neg (by simp [hp, hq]), if_neg (by simp [hp, hq]),
        if_neg (by simp [hp, hq]), if_neg (by simp [hp, hq]), if_neg (by simp [hp, hq]),
        if_neg (by simp [hp, hq]), if_neg (by simp [hp, hq]), if_neg (by simp [hp, hq]),
        if_neg (by simp [hp, hq]), if_neg (by simp [hp, hq]), if_neg (by simp [hp, hq]),
        if_neg (by simp [hp, hq]), if_pos ⟨hp, hq⟩]
      simp only [jp_label, jp_z_label, jp_nz_label, jr_label, jr_z, jr_nz, jr_c, jr_nc, call_label, ret, ret_z, ld_hl_nn, ld_de_nn, ld_bc_nn, ld_hl_label, ld_a_n, ld_b_n, ld_c_n, ld_d_n, ld_e_n, ld_h_n, ld_l_n, ld_a_hl, ld_hl_a, ld_a_de, ld_de_a, ld_a_b, ld_a_c, ld_a_d, ld_a_e, ld_a_l, ld_a_h, ld_l_a, ld_h_a, ld_e_a, ld_d_a, ld_b_a, ld_c_a, ld_e_hl, ld_d_hl, ld_l_e, ld_h_d, ld_h_hl, ld_a_mem, ld_mem_a, inc_hl, inc_de, inc_bc, inc_a, inc_b, inc_hl_ind, dec_a, dec_b, dec_c, dec_d, dec_e, dec_hl, dec_bc, add_hl_de, add_hl_hl, add_a_n, add_a_hl, sbc_hl_de, sub_n, sub_hl, and_n, and_a_b, and_a_c, and_a_d, and_a_e, and_hl, or_a, or_c, or_hl, xor_a, xor_h, xor_hl, cp_n, cp_hl, push_af, push_hl, push_de, pop_af, pop_hl, pop_de, ex_de_hl, out_n_a, in_a_n, label, emit_label_ref, emit16, emit, List.append_assoc, List.cons_append, List.singleton_append, List.nil_append]
      rw [hnone]
      exact ⟨_, rfl, fun r hr => Or.inl hr⟩
    · unfold compile_instruction compile_instruction_nibbles
      rw [if_neg (by simp [hp, hq, hr]), if_neg (by simp [hp, hq, hr]),
        if_neg (by simp [hp, hq, hr]), if_neg (by simp [hp, hq, hr]),
        if_neg (by simp [hp, hq, hr]), if_neg (by simp [hp, hq, hr]),
        if_neg (by simp [hp, hq, hr]), if_neg (by simp [hp, hq, hr]),
        if_neg (by simp [hp, hq, hr]), if_neg (by simp [hp, hq, hr]),
        if_neg (by simp [hp, hq, hr]), if_neg (by simp [hp, hq, hr]),
        if_neg (by simp [hp, hq, hr]), if_neg (by simp [hp, hq, hr]),
        if_neg (by simp [hp, hq, hr]), if_neg (by simp [hp, hq, hr]),
        if_neg (by simp [hp, hq, hr]), if_neg (by simp [hp, hq, hr]),
        if_neg (by simp [hp, hq, hr]), if_neg (by simp [hp, hq, hr]),
        if_neg (by simp [hp, hq, hr]), if_neg (by simp [hp, hq, hr]),
        if_neg (by simp [hp, hq, hr]), if_neg (by simp [hp, hq, hr]), if_pos ⟨hp, hq, hr⟩]
      simp only [jp_label, jp_z_label, jp_nz_label, jr_label, jr_z, jr_nz, jr_c, jr_nc, call_label, ret, ret_z, ld_hl_nn, ld_de_nn, ld_bc_nn, ld_hl_label, ld_a_n, ld_b_n, ld_c_n, ld_d_n, ld_e_n, ld_h_n, ld_l_n, ld_a_hl, ld_hl_a, ld_a_de, ld_de_a, ld_a_b, ld_a_c, ld_a_d, ld_a_e, ld_a_l, ld_a_h, ld_l_a, ld_h_a, ld_e_a, ld_d_a, ld_b_a, ld_c_a, ld_e_hl, ld_d_hl, ld_l_e, ld_h_d, ld_h_hl, ld_a_mem, ld_mem_a, inc_hl, inc_de, inc_bc, inc_a, inc_b, inc_hl_ind, dec_a, dec_b, dec_c, dec_d, dec_e, dec_hl, dec_bc, add_hl_de, add_hl_hl, add_a_n, add_a_hl, sbc_hl_de, sub_n, sub_hl, and_n, and_a_b, and_a_c, and_a_d, and_a_e, and_hl, or_a, or_c, or_hl, xor_a, xor_h, xor_hl, cp_n, cp_hl, push_af, push_hl, push_de, pop_af, pop_hl, pop_de, ex_de_hl, out_n_a, in_a_n, label, emit_label_ref, emit16, emit, List.append_assoc, List.cons_append, List.singleton_append, List.nil_append]
      rw [hnone]
      refine ⟨_, rfl, ?_⟩
      intro r hr
      rcases List.mem_append.mp hr with h | h
      · exact Or.inl h
      · rw [List.mem_singleton] at h
        subst h
        exact Or.inr (by simp [baseRefNames])
    · unfold compile_instruction compile_instruction_nibbles
      rw [if_neg (by simp [hp, hq, hr]), if_neg (by simp [hp, hq, hr]),
        if_neg (by simp [hp, hq, hr]), if_neg (by simp [hp, hq, hr]),
        if_neg (by simp [hp, hq, hr]), if_neg (by simp [hp, hq, hr]),
        if_neg (by simp [hp, hq, hr]), if_neg (by simp [hp, hq, hr]),
        if_neg (by simp [hp, hq, hr]), if_neg (by simp [hp, hq, hr]),
        if_neg (by simp [hp, hq, hr]), if_neg (by simp [hp, hq, hr]),
        if_neg (by simp [hp, hq, hr]), if_neg (by simp [hp, hq, hr]),
        if_neg (by simp [hp, hq, hr]), if_neg (by simp [hp, hq, hr]),
        if_neg (by simp [hp, hq, hr]), if_neg (by simp [hp, hq, hr]),
        if_neg (by simp [hp, hq, hr]), if_neg (by simp [hp, hq, hr]),
        if_neg (by simp [hp, hq, hr]), if_neg (by simp [hp, hq, hr]),
        if_neg (by simp [hp, hq, hr]), if_neg (by simp [hp, hq, hr]),
        if_neg (by simp [hp, hq, hr]), if_pos ⟨hp, hq, hr⟩]
      simp only [jp_label, jp_z_label, jp_nz_label, jr_label, jr_z, jr_nz, jr_c, jr_nc, call_label, ret, ret_z, ld_hl_nn, ld_de_nn, ld_bc_nn, ld_hl_label, ld_a_n, ld_b_n, ld_c_n, ld_d_n, ld_e_n, ld_h_n, ld_l_n, ld_a_hl, ld_hl_a, ld_a_de, ld_de_a, ld_a_b, ld_a_c, ld_a_d, ld_a_e, ld_a_l, ld_a_h, ld_l_a, ld_h_a, ld_e_a, ld_d_a, ld_b_a, ld_c_a, ld_e_hl, ld_d_hl, ld_l_e, ld_h_d, ld_h_hl, ld_a_mem, ld_mem_a, inc_hl, inc_de, inc_bc, inc_a, inc_b, inc_hl_ind, dec_a, dec_b, dec_c, dec_d, dec_e, dec_hl, dec_bc, add_hl_de, add_hl_hl, add_a_n, add_a_hl, sbc_hl_de, sub_n, sub_hl, and_n, and_a_b, and_a_c, and_a_d, and_a_e, and_hl, or_a, or_c, or_hl, xor_a, xor_h, xor_hl, cp_n, cp_hl, push_af, push_hl, push_de, pop_af, pop_hl, pop_de, ex_de_hl, out_n_a, in_a_n, label, emit_label_ref, emit16, emit, List.append_assoc, List.cons_append, List.singleton_append, List.nil_append]
      rw [hnone]
      refine ⟨_, rfl, ?_⟩
      intro r hr
      rcases List.mem_append.mp hr with h | h
      · exact Or.inl h
      · rw [List.mem_singleton] at h
        subst h
        exact Or.inr (by simp [baseRefNames])

/-- C4 witness: a lone `JP 0x100` (outside the scanned range) is rejected. -/
theorem c4_branch_targets_witness :
    ∃ e, compile compilerNew [0x11, 0x00] = Except.error e :=
  ((c4_branch_targets [0x11, 0x00]).1).mpr (by decide)

/-! ### C2: there is no image-size check -/

/-- C2 divergence: `compile` has no `ImageTooLarge` failure. Every error it
can return is an unknown jump or call target; and an input whose emitted
code exceeds 32 KiB (here 40000 zero bytes, whose templates are empty but
whose verbatim ROM copy already overflows) is still accepted, the overlong
code silently truncated into the 32768-byte image. -/
theorem c2_no_size_check :
    (∀ (rom : List Nat) (e : String), compile compilerNew rom = .error e →
      ∃ a, e = "Jump to unknown address " ++ padHex 3 a ∨
        e = "Call to unknown address " ++ padHex 3 a) ∧
    (∃ c'' img, compileCore compilerNew (List.replicate 40000 0) = .ok c'' ∧
      32768 < c''.code.length ∧
      compile compilerNew (List.replicate 40000 0) = .ok img ∧ img.length = 32768) := by
  constructor
  · intro rom e he
    rw [compile_eq] at he
    cases hcc : compileCore compilerNew rom with
    | ok c'' =>
      rw [hcc] at he
      simp only [Except.bind] at he
      exact Except.noConfusion he
    | error e' =>
      rw [hcc] at he
      simp only [Except.bind] at he
      injection he with he
      subst he
      have h2 : (compileCode compilerNew rom).bind (fun c => resolve_refs c)
          = .error e' := hcc
      cases hcd : compileCode compilerNew rom with
      | ok c1 =>
        rw [hcd] at h2
        simp only [Except.bind] at h2
        obtain ⟨off, -, -, -, -, -, -, hrefs⟩ := compileCode_ok hcd
        obtain ⟨code', hok, -, -⟩ := resolve_refs_ok (fun r hr => (hrefs r hr).2.2)
        rw [hok] at h2
        exact Except.noConfusion h2
      | error e'' =>
        rw [hcd] at h2
        simp only [Except.bind] at h2
        injection h2 with h2
        subst h2
        rw [compileCode_eq] at hcd
        cases hca : compileAll (mainState rom) (parse rom) with
        | ok c₄ =>
          rw [hca] at hcd
          simp only [Except.bind] at hcd
          exact Except.noConfusion hcd
        | error e₃ =>
          rw [hca] at hcd
          simp only [Except.bind] at hcd
          injection hcd with hcd
          subst hcd
          obtain ⟨inst, -, -, hmsg⟩ := compileAll_err hca
          exact ⟨inst.nnn, hmsg⟩
  · have hnf : ∀ inst ∈ parse (List.replicate 40000 0),
        ¬ Faulty (mainState (List.replicate 40000 0)) inst := by
      intro inst hmem hf
      rcases List.mem_iff_get.mp hmem with ⟨⟨j, hj⟩, hget⟩
      obtain ⟨h1, -, -⟩ := parseLoop_spec (List.replicate 40000 0)
        (List.replicate 40000 0).length 0 (by omega)
      have he := (h1 j hj).1
      have hinst : inst =
          ⟨((List.replicate 40000 0).getD (0 + 2 * j) 0) <<< 8 |||
            (List.replicate 40000 0).getD (0 + 2 * j + 1) 0,
           0x200 + (0 + 2 * j) % 65536⟩ := by
        rw [← hget]
        exact he
      have hop : inst.opcode = 0 := by
        rw [hinst]
        show ((List.replicate 40000 0).getD (0 + 2 * j) 0) <<< 8 |||
          (List.replicate 40000 0).getD (0 + 2 * j + 1) 0 = 0
        rw [replicate_getD, replicate_getD]
        decide
      have hn0 : inst.nibbles.1 = 0 := by
        show (inst.opcode >>> 12) &&& 0xF = 0
        rw [hop]
        decide
      rcases hf.1 with h | h <;> rw [hn0] at h <;> exact absurd h (by decide)
    cases hca : compileAll (mainState (List.replicate 40000 0))
        (parse (List.replicate 40000 0)) with
    | error e =>
      obtain ⟨inst, hmem, hf, -⟩ := compileAll_err hca
      exact absurd hf (hnf inst hmem)
    | ok c₄ =>
      have hcd : compileCode compilerNew (List.replicate 40000 0) =
          .ok (embedRom (label (jp_label (emit (label c₄ "halt") 0x76) "halt")
            "chip8_rom_data")) := by
        rw [compileCode_eq, hca]
        rfl
      obtain ⟨off, hlook, hoff, hpc, hlen, -, -, hrefs⟩ := compileCode_ok hcd
      obtain ⟨code', hok, hlen', -⟩ := resolve_refs_ok (fun r hr => (hrefs r hr).2.2)
      have hcore : compileCore compilerNew (List.replicate 40000 0) =
          .ok { embedRom (label (jp_label (emit (label c₄ "halt") 0x76) "halt")
            "chip8_rom_data") with code := code' } := by
        show (compileCode compilerNew (List.replicate 40000 0)).bind
          (fun c => resolve_refs c) = _
        rw [hcd]
        simp only [Except.bind]
        exact hok
      refine ⟨_, mkImage code', hcore, ?_, ?_, ?_⟩
      · show 32768 < code'.length
        have hrl : (List.replicate 40000 (0 : Nat)).length = 40000 :=
          List.length_replicate 40000 0
        rw [hlen', hlen, hrl]
        omega
      · rw [compile_eq, hcore]
        rfl
      · exact mkImage_length code'

/-! ### C3: duplicate labels are silently allowed -/

/-- How many times a name is defined in the label map of a compiler state
(0 on error). -/
def dupLabelView : Except String Compiler → Nat
  | .ok c => c.labels.countP (fun p => p.1 == "no_borrow_8xy5")
  | .error _ => 0

/-- C3 divergence: a ROM with two `8XY5` instructions makes `compile` define
the template-internal label `no_borrow_8xy5` twice — and the pipeline still
succeeds (an error state would count 0), with both definitions present in
the label map. There is no `DuplicateLabel` check. -/
theorem c3_duplicate_label_unchecked :
    dupLabelView (compileCore compilerNew [0x80, 0x15, 0x82, 0x35, 0x12, 0x04]) = 2 := by
  decide

/-! ### C9: determinism and map-representation independence -/

/-- The template expander reads the address map only through lookups: replacing
the map by any lookup-equivalent list gives the same result (with the new map
carried in the state), so expansion is independent of the map representation
and insertion order. -/
theorem compile_instruction_nibbles_mapEq (c : Compiler) (m : List (Nat × String))
    (hm : ∀ a, List.lookup a c.chip8_labels = List.lookup a m)
    (inst : Instruction) (n0 n1 n2 n3 : Nat) :
    compile_instruction_nibbles { c with chip8_labels := m } inst n0 n1 n2 n3 =
      Except.map (fun c' => { c' with chip8_labels := m })
        (compile_instruction_nibbles c inst n0 n1 n2 n3) := by
  unfold compile_instruction_nibbles
  by_cases h1 : n0 = 0x0 ∧ n1 = 0x0 ∧ n2 = 0xE ∧ n3 = 0x0
  · rw [if_pos h1, if_pos h1]
    simp only [jp_label, jp_z_label, jp_nz_label, jr_label, jr_z, jr_nz, jr_c, jr_nc, call_label, ret, ret_z, ld_hl_nn, ld_de_nn, ld_bc_nn, ld_hl_label, ld_a_n, ld_b_n, ld_c_n, ld_d_n, ld_e_n, ld_h_n, ld_l_n, ld_a_hl, ld_hl_a, ld_a_de, ld_de_a, ld_a_b, ld_a_c, ld_a_d, ld_a_e, ld_a_l, ld_a_h, ld_l_a, ld_h_a, ld_e_a, ld_d_a, ld_b_a, ld_c_a, ld_e_hl, ld_d_hl, ld_l_e, ld_h_d, ld_h_hl, ld_a_mem, ld_mem_a, inc_hl, inc_de, inc_bc, inc_a, inc_b, inc_hl_ind, dec_a, dec_b, dec_c, dec_d, dec_e, dec_hl, dec_bc, add_hl_de, add_hl_hl, add_a_n, add_a_hl, sbc_hl_de, sub_n, sub_hl, and_n, and_a_b, and_a_c, and_a_d, and_a_e, and_hl, or_a, or_c, or_hl, xor_a, xor_h, xor_hl, cp_n, cp_hl, push_af, push_hl, push_de, pop_af, pop_hl, pop_de, ex_de_hl, out_n_a, in_a_n, label, emit_label_ref, emit16, emit, List.append_assoc, List.cons_append, List.singleton_append, List.nil_append, Except.map]
  · rw [if_neg h1, if_neg h1]
    by_cases h2 : n0 = 0x0 ∧ n1 = 0x0 ∧ n2 = 0xE ∧ n3 = 0xE
    · rw [if_pos h2, if_pos h2]
      simp only [jp_label, jp_z_label, jp_nz_label, jr_label, jr_z, jr_nz, jr_c, jr_nc, call_label, ret, ret_z, ld_hl_nn, ld_de_nn, ld_bc_nn, ld_hl_label, ld_a_n, ld_b_n, ld_c_n, ld_d_n, ld_e_n, ld_h_n, ld_l_n, ld_a_hl, ld_hl_a, ld_a_de, ld_de_a, ld_a_b, ld_a_c, ld_a_d, ld_a_e, ld_a_l, ld_a_h, ld_l_a, ld_h_a, ld_e_a, ld_d_a, ld_b_a, ld_c_a, ld_e_hl, ld_d_hl, ld_l_e, ld_h_d, ld_h_hl, ld_a_mem, ld_mem_a, inc_hl, inc_de, inc_bc, inc_a, inc_b, inc_hl_ind, dec_a, dec_b, dec_c, dec_d, dec_e, dec_hl, dec_bc, add_hl_de, add_hl_hl, add_a_n, add_a_hl, sbc_hl_de, sub_n, sub_hl, and_n, and_a_b, and_a_c, and_a_d, and_a_e, and_hl, or_a, or_c, or_hl, xor_a, xor_h, xor_hl, cp_n, cp_hl, push_af, push_hl, push_de, pop_af, pop_hl, pop_de, ex_de_hl, out_n_a, in_a_n, label, emit_label_ref, emit16, emit, List.append_assoc, List.cons_append, List.singleton_append, List.nil_append, Except.map]
    · rw [if_neg h2, if_neg h2]
      by_cases h3 : n0 = 0x0
      · rw [if_pos h3, if_pos h3]
        simp only [jp_label, jp_z_label, jp_nz_label, jr_label, jr_z, jr_nz, jr_c, jr_nc, call_label, ret, ret_z, ld_hl_nn, ld_de_nn, ld_bc_nn, ld_hl_label, ld_a_n, ld_b_n, ld_c_n, ld_d_n, ld_e_n, ld_h_n, ld_l_n, ld_a_hl, ld_hl_a, ld_a_de, ld_de_a, ld_a_b, ld_a_c, ld_a_d, ld_a_e, ld_a_l, ld_a_h, ld_l_a, ld_h_a, ld_e_a, ld_d_a, ld_b_a, ld_c_a, ld_e_hl, ld_d_hl, ld_l_e, ld_h_d, ld_h_hl, ld_a_mem, ld_mem_a, inc_hl, inc_de, inc_bc, inc_a, inc_b, inc_hl_ind, dec_a, dec_b, dec_c, dec_d, dec_e, dec_hl, dec_bc, add_hl_de, add_hl_hl, add_a_n, add_a_hl, sbc_hl_de, sub_n, sub_hl, and_n, and_a_b, and_a_c, and_a_d, and_a_e, and_hl, or_a, or_c, or_hl, xor_a, xor_h, xor_hl, cp_n, cp_hl, push_af, push_hl, push_de, pop_af, pop_hl, pop_de, ex_de_hl, out_n_a, in_a_n, label, emit_label_ref, emit16, emit, List.append_assoc, List.cons_append, List.singleton_append, List.nil_append, Except.map]
      · rw [if_neg h3, if_neg h3]
        by_cases h4 : n0 = 0x1
        · rw [if_pos h4, if_pos h4]
          simp only [jp_label, jp_z_label, jp_nz_label, jr_label, jr_z, jr_nz, jr_c, jr_nc, call_label, ret, ret_z, ld_hl_nn, ld_de_nn, ld_bc_nn, ld_hl_label, ld_a_n, ld_b_n, ld_c_n, ld_d_n, ld_e_n, ld_h_n, ld_l_n, ld_a_hl, ld_hl_a, ld_a_de, ld_de_a, ld_a_b, ld_a_c, ld_a_d, ld_a_e, ld_a_l, ld_a_h, ld_l_a, ld_h_a, ld_e_a, ld_d_a, ld_b_a, ld_c_a, ld_e_hl, ld_d_hl, ld_l_e, ld_h_d, ld_h_hl, ld_a_mem, ld_mem_a, inc_hl, inc_de, inc_bc, inc_a, inc_b, inc_hl_ind, dec_a, dec_b, dec_c, dec_d, dec_e, dec_hl, dec_bc, add_hl_de, add_hl_hl, add_a_n, add_a_hl, sbc_hl_de, sub_n, sub_hl, and_n, and_a_b, and_a_c, and_a_d, and_a_e, and_hl, or_a, or_c, or_hl, xor_a, xor_h, xor_hl, cp_n, cp_hl, push_af, push_hl, push_de, pop_af, pop_hl, pop_de, ex_de_hl, out_n_a, in_a_n, label, emit_label_ref, emit16, emit, List.append_assoc, List.cons_append, List.singleton_append, List.nil_append]
          rw [← hm inst.nnn]
          cases hL : List.lookup inst.nnn c.chip8_labels
          · simp only [Except.map]
          · simp only [jp_label, jp_z_label, jp_nz_label, jr_label, jr_z, jr_nz, jr_c, jr_nc, call_label, ret, ret_z, ld_hl_nn, ld_de_nn, ld_bc_nn, ld_hl_label, ld_a_n, ld_b_n, ld_c_n, ld_d_n, ld_e_n, ld_h_n, ld_l_n, ld_a_hl, ld_hl_a, ld_a_de, ld_de_a, ld_a_b, ld_a_c, ld_a_d, ld_a_e, ld_a_l, ld_a_h, ld_l_a, ld_h_a, ld_e_a, ld_d_a, ld_b_a, ld_c_a, ld_e_hl, ld_d_hl, ld_l_e, ld_h_d, ld_h_hl, ld_a_mem, ld_mem_a, inc_hl, inc_de, inc_bc, inc_a, inc_b, inc_hl_ind, dec_a, dec_b, dec_c, dec_d, dec_e, dec_hl, dec_bc, add_hl_de, add_hl_hl, add_a_n, add_a_hl, sbc_hl_de, sub_n, sub_hl, and_n, and_a_b, and_a_c, and_a_d, and_a_e, and_hl, or_a, or_c, or_hl, xor_a, xor_h, xor_hl, cp_n, cp_hl, push_af, push_hl, push_de, pop_af, pop_hl, pop_de, ex_de_hl, out_n_a, in_a_n, label, emit_label_ref, emit16, emit, List.append_assoc, List.cons_append, List.singleton_append, List.nil_append, Except.map]
        · rw [if_neg h4, if_neg h4]
          by_cases h5 : n0 = 0x2
          · rw [if_pos h5, if_pos h5]
            simp only [jp_label, jp_z_label, jp_nz_label, jr_label, jr_z, jr_nz, jr_c, jr_nc, call_label, ret, ret_z, ld_hl_nn, ld_de_nn, ld_bc_nn, ld_hl_label, ld_a_n, ld_b_n, ld_c_n, ld_d_n, ld_e_n, ld_h_n, ld_l_n, ld_a_hl, ld_hl_a, ld_a_de, ld_de_a, ld_a_b, ld_a_c, ld_a_d, ld_a_e, ld_a_l, ld_a_h, ld_l_a, ld_h_a, ld_e_a, ld_d_a, ld_b_a, ld_c_a, ld_e_hl, ld_d_hl, ld_l_e, ld_h_d, ld_h_hl, ld_a_mem, ld_mem_a, inc_hl, inc_de, inc_bc, inc_a, inc_b, inc_hl_ind, dec_a, dec_b, dec_c, dec_d, dec_e, dec_hl, dec_bc, add_hl_de, add_hl_hl, add_a_n, add_a_hl, sbc_hl_de, sub_n, sub_hl, and_n, and_a_b, and_a_c, and_a_d, and_a_e, and_hl, or_a, or_c, or_hl, xor_a, xor_h, xor_hl, cp_n, cp_hl, push_af, push_hl, push_de, pop_af, pop_hl, pop_de, ex_de_hl, out_n_a, in_a_n, label, emit_label_ref, emit16, emit, List.append_assoc, List.cons_append, List.singleton_append, List.nil_append]
            rw [← hm inst.nnn]
            cases hL : List.lookup inst.nnn c.chip8_labels
            · simp only [Except.map]
            · simp only [jp_label, jp_z_label, jp_nz_label, jr_label, jr_z, jr_nz, jr_c, jr_nc, call_label, ret, ret_z, ld_hl_nn, ld_de_nn, ld_bc_nn, ld_hl_label, ld_a_n, ld_b_n, ld_c_n, ld_d_n, ld_e_n, ld_h_n, ld_l_n, ld_a_hl, ld_hl_a, ld_a_de, ld_de_a, ld_a_b, ld_a_c, ld_a_d, ld_a_e, ld_a_l, ld_a_h, ld_l_a, ld_h_a, ld_e_a, ld_d_a, ld_b_a, ld_c_a, ld_e_hl, ld_d_hl, ld_l_e, ld_h_d, ld_h_hl, ld_a_mem, ld_mem_a, inc_hl, inc_de, inc_bc, inc_a, inc_b, inc_hl_ind, dec_a, dec_b, dec_c, dec_d, dec_e, dec_hl, dec_bc, add_hl_de, add_hl_hl, add_a_n, add_a_hl, sbc_hl_de, sub_n, sub_hl, and_n, and_a_b, and_a_c, and_a_d, and_a_e, and_hl, or_a, or_c, or_hl, xor_a, xor_h, xor_hl, cp_n, cp_hl, push_af, push_hl, push_de, pop_af, pop_hl, pop_de, ex_de_hl, out_n_a, in_a_n, label, emit_label_ref, emit16, emit, List.append_assoc, List.cons_append, List.singleton_append, List.nil_append, Except.map]
          · rw [if_neg h5, if_neg h5]
            by_cases h6 : n0 = 0x3
            · rw [if_pos h6, if_pos h6]
              simp only [jp_label, jp_z_label, jp_nz_label, jr_label, jr_z, jr_nz, jr_c, jr_nc, call_label, ret, ret_z, ld_hl_nn, ld_de_nn, ld_bc_nn, ld_hl_label, ld_a_n, ld_b_n, ld_c_n, ld_d_n, ld_e_n, ld_h_n, ld_l_n, ld_a_hl, ld_hl_a, ld_a_de, ld_de_a, ld_a_b, ld_a_c, ld_a_d, ld_a_e, ld_a_l, ld_a_h, ld_l_a, ld_h_a, ld_e_a, ld_d_a, ld_b_a, ld_c_a, ld_e_hl, ld_d_hl, ld_l_e, ld_h_d, ld_h_hl, ld_a_mem, ld_mem_a, inc_hl, inc_de, inc_bc, inc_a, inc_b, inc_hl_ind, dec_a, dec_b, dec_c, dec_d, dec_e, dec_hl, dec_bc, add_hl_de, add_hl_hl, add_a_n, add_a_hl, sbc_hl_de, sub_n, sub_hl, and_n, and_a_b, and_a_c, and_a_d, and_a_e, and_hl, or_a, or_c, or_hl, xor_a, xor_h, xor_hl, cp_n, cp_hl, push_af, push_hl, push_de, pop_af, pop_hl, pop_de, ex_de_hl, out_n_a, in_a_n, label, emit_label_ref, emit16, emit, List.append_assoc, List.cons_append, List.singleton_append, List.nil_append]
              rw [← hm (inst.addr + 4)]
              cases hL : List.lookup (inst.addr + 4) c.chip8_labels
              · simp only [Except.map]
              · simp only [jp_label, jp_z_label, jp_nz_label, jr_label, jr_z, jr_nz, jr_c, jr_nc, call_label, ret, ret_z, ld_hl_nn, ld_de_nn, ld_bc_nn, ld_hl_label, ld_a_n, ld_b_n, ld_c_n, ld_d_n, ld_e_n, ld_h_n, ld_l_n, ld_a_hl, ld_hl_a, ld_a_de, ld_de_a, ld_a_b, ld_a_c, ld_a_d, ld_a_e, ld_a_l, ld_a_h, ld_l_a, ld_h_a, ld_e_a, ld_d_a, ld_b_a, ld_c_a, ld_e_hl, ld_d_hl, ld_l_e, ld_h_d, ld_h_hl, ld_a_mem, ld_mem_a, inc_hl, inc_de, inc_bc, inc_a, inc_b, inc_hl_ind, dec_a, dec_b, dec_c, dec_d, dec_e, dec_hl, dec_bc, add_hl_de, add_hl_hl, add_a_n, add_a_hl, sbc_hl_de, sub_n, sub_hl, and_n, and_a_b, and_a_c, and_a_d, and_a_e, and_hl, or_a, or_c, or_hl, xor_a, xor_h, xor_hl, cp_n, cp_hl, push_af, push_hl, push_de, pop_af, pop_hl, pop_de, ex_de_hl, out_n_a, in_a_n, label, emit_label_ref, emit16, emit, List.append_assoc, List.cons_append, List.singleton_append, List.nil_append, Except.map]
            · rw [if_neg h6, if_neg h6]
              by_cases h7 : n0 = 0x4
              · rw [if_pos h7, if_pos h7]
                simp only [jp_label, jp_z_label, jp_nz_label, jr_label, jr_z, jr_nz, jr_c, jr_nc, call_label, ret, ret_z, ld_hl_nn, ld_de_nn, ld_bc_nn, ld_hl_label, ld_a_n, ld_b_n, ld_c_n, ld_d_n, ld_e_n, ld_h_n, ld_l_n, ld_a_hl, ld_hl_a, ld_a_de, ld_de_a, ld_a_b, ld_a_c, ld_a_d, ld_a_e, ld_a_l, ld_a_h, ld_l_a, ld_h_a, ld_e_a, ld_d_a, ld_b_a, ld_c_a, ld_e_hl, ld_d_hl, ld_l_e, ld_h_d, ld_h_hl, ld_a_mem, ld_mem_a, inc_hl, inc_de, inc_bc, inc_a, inc_b, inc_hl_ind, dec_a, dec_b, dec_c, dec_d, dec_e, dec_hl, dec_bc, add_hl_de, add_hl_hl, add_a_n, add_a_hl, sbc_hl_de, sub_n, sub_hl, and_n, and_a_b, and_a_c, and_a_d, and_a_e, and_hl, or_a, or_c, or_hl, xor_a, xor_h, xor_hl, cp_n, cp_hl, push_af, push_hl, push_de, pop_af, pop_hl, pop_de, ex_de_hl, out_n_a, in_a_n, label, emit_label_ref, emit16, emit, List.append_assoc, List.cons_append, List.singleton_append, List.nil_append]
                rw [← hm (inst.addr + 4)]
                cases hL : List.lookup (inst.addr + 4) c.chip8_labels
                · simp only [Except.map]
                · simp only [jp_label, jp_z_label, jp_nz_label, jr_label, jr_z, jr_nz, jr_c, jr_nc, call_label, ret, ret_z, ld_hl_nn, ld_de_nn, ld_bc_nn, ld_hl_label, ld_a_n, ld_b_n, ld_c_n, ld_d_n, ld_e_n, ld_h_n, ld_l_n, ld_a_hl, ld_hl_a, ld_a_de, ld_de_a, ld_a_b, ld_a_c, ld_a_d, ld_a_e, ld_a_l, ld_a_h, ld_l_a, ld_h_a, ld_e_a, ld_d_a, ld_b_a, ld_c_a, ld_e_hl, ld_d_hl, ld_l_e, ld_h_d, ld_h_hl, ld_a_mem, ld_mem_a, inc_hl, inc_de, inc_bc, inc_a, inc_b, inc_hl_ind, dec_a, dec_b, dec_c, dec_d, dec_e, dec_hl, dec_bc, add_hl_de, add_hl_hl, add_a_n, add_a_hl, sbc_hl_de, sub_n, sub_hl, and_n, and_a_b, and_a_c, and_a_d, and_a_e, and_hl, or_a, or_c, or_hl, xor_a, xor_h, xor_hl, cp_n, cp_hl, push_af, push_hl, push_de, pop_af, pop_hl, pop_de, ex_de_hl, out_n_a, in_a_n, label, emit_label_ref, emit16, emit, List.append_assoc, List.cons_append, List.singleton_append, List.nil_append, Except.map]
              · rw [if_neg h7, if_neg h7]
                by_cases h8 : n0 = 0x5 ∧ n3 = 0x0
                · rw [if_pos h8, if_pos h8]
                  simp only [jp_label, jp_z_label, jp_nz_label, jr_label, jr_z, jr_nz, jr_c, jr_nc, call_label, ret, ret_z, ld_hl_nn, ld_de_nn, ld_bc_nn, ld_hl_label, ld_a_n, ld_b_n, ld_c_n, ld_d_n, ld_e_n, ld_h_n, ld_l_n, ld_a_hl, ld_hl_a, ld_a_de, ld_de_a, ld_a_b, ld_a_c, ld_a_d, ld_a_e, ld_a_l, ld_a_h, ld_l_a, ld_h_a, ld_e_a, ld_d_a, ld_b_a, ld_c_a, ld_e_hl, ld_d_hl, ld_l_e, ld_h_d, ld_h_hl, ld_a_mem, ld_mem_a, inc_hl, inc_de, inc_bc, inc_a, inc_b, inc_hl_ind, dec_a, dec_b, dec_c, dec_d, dec_e, dec_hl, dec_bc, add_hl_de, add_hl_hl, add_a_n, add_a_hl, sbc_hl_de, sub_n, sub_hl, and_n, and_a_b, and_a_c, and_a_d, and_a_e, and_hl, or_a, or_c, or_hl, xor_a, xor_h, xor_hl, cp_n, cp_hl, push_af, push_hl, push_de, pop_af, pop_hl, pop_de, ex_de_hl, out_n_a, in_a_n, label, emit_label_ref, emit16, emit, List.append_assoc, List.cons_append, List.singleton_append, List.nil_append]
                  rw [← hm (inst.addr + 4)]
                  cases hL : List.lookup (inst.addr + 4) c.chip8_labels
                  · simp only [Except.map]
                  · simp only [jp_label, jp_z_label, jp_nz_label, jr_label, jr_z, jr_nz, jr_c, jr_nc, call_label, ret, ret_z, ld_hl_nn, ld_de_nn, ld_bc_nn, ld_hl_label, ld_a_n, ld_b_n, ld_c_n, ld_d_n, ld_e_n, ld_h_n, ld_l_n, ld_a_hl, ld_hl_a, ld_a_de, ld_de_a, ld_a_b, ld_a_c, ld_a_d, ld_a_e, ld_a_l, ld_a_h, ld_l_a, ld_h_a, ld_e_a, ld_d_a, ld_b_a, ld_c_a, ld_e_hl, ld_d_hl, ld_l_e, ld_h_d, ld_h_hl, ld_a_mem, ld_mem_a, inc_hl, inc_de, inc_bc, inc_a, inc_b, inc_hl_ind, dec_a, dec_b, dec_c, dec_d, dec_e, dec_hl, dec_bc, add_hl_de, add_hl_hl, add_a_n, add_a_hl, sbc_hl_de, sub_n, sub_hl, and_n, and_a_b, and_a_c, and_a_d, and_a_e, and_hl, or_a, or_c, or_hl, xor_a, xor_h, xor_hl, cp_n, cp_hl, push_af, push_hl, push_de, pop_af, pop_hl, pop_de, ex_de_hl, out_n_a, in_a_n, label, emit_label_ref, emit16, emit, List.append_assoc, List.cons_append, List.singleton_append, List.nil_append, Except.map]
                · rw [if_neg h8, if_neg h8]
                  by_cases h9 : n0 = 0x6
                  · rw [if_pos h9, if_pos h9]
                    simp only [jp_label, jp_z_label, jp_nz_label, jr_label, jr_z, jr_nz, jr_c, jr_nc, call_label, ret, ret_z, ld_hl_nn, ld_de_nn, ld_bc_nn, ld_hl_label, ld_a_n, ld_b_n, ld_c_n, ld_d_n, ld_e_n, ld_h_n, ld_l_n, ld_a_hl, ld_hl_a, ld_a_de, ld_de_a, ld_a_b, ld_a_c, ld_a_d, ld_a_e, ld_a_l, ld_a_h, ld_l_a, ld_h_a, ld_e_a, ld_d_a, ld_b_a, ld_c_a, ld_e_hl, ld_d_hl, ld_l_e, ld_h_d, ld_h_hl, ld_a_mem, ld_mem_a, inc_hl, inc_de, inc_bc, inc_a, inc_b, inc_hl_ind, dec_a, dec_b, dec_c, dec_d, dec_e, dec_hl, dec_bc, add_hl_de, add_hl_hl, add_a_n, add_a_hl, sbc_hl_de, sub_n, sub_hl, and_n, and_a_b, and_a_c, and_a_d, and_a_e, and_hl, or_a, or_c, or_hl, xor_a, xor_h, xor_hl, cp_n, cp_hl, push_af, push_hl, push_de, pop_af, pop_hl, pop_de, ex_de_hl, out_n_a, in_a_n, label, emit_label_ref, emit16, emit, List.append_assoc, List.cons_append, List.singleton_append, List.nil_append, Except.map]
                  · rw [if_neg h9, if_neg h9]
                    by_cases h10 : n0 = 0x7
                    · rw [if_pos h10, if_pos h10]
                      simp only [jp_label, jp_z_label, jp_nz_label, jr_label, jr_z, jr_nz, jr_c, jr_nc, call_label, ret, ret_z, ld_hl_nn, ld_de_nn, ld_bc_nn, ld_hl_label, ld_a_n, ld_b_n, ld_c_n, ld_d_n, ld_e_n, ld_h_n, ld_l_n, ld_a_hl, ld_hl_a, ld_a_de, ld_de_a, ld_a_b, ld_a_c, ld_a_d, ld_a_e, ld_a_l, ld_a_h, ld_l_a, ld_h_a, ld_e_a, ld_d_a, ld_b_a, ld_c_a, ld_e_hl, ld_d_hl, ld_l_e, ld_h_d, ld_h_hl, ld_a_mem, ld_mem_a, inc_hl, inc_de, inc_bc, inc_a, inc_b, inc_hl_ind, dec_a, dec_b, dec_c, dec_d, dec_e, dec_hl, dec_bc, add_hl_de, add_hl_hl, add_a_n, add_a_hl, sbc_hl_de, sub_n, sub_hl, and_n, and_a_b, and_a_c, and_a_d, and_a_e, and_hl, or_a, or_c, or_hl, xor_a, xor_h, xor_hl, cp_n, cp_hl, push_af, push_hl, push_de, pop_af, pop_hl, pop_de, ex_de_hl, out_n_a, in_a_n, label, emit_label_ref, emit16, emit, List.append_assoc, List.cons_append, List.singleton_append, List.nil_append, Except.map]
                    · rw [if_neg h10, if_neg h10]
                      by_cases h11 : n0 = 0x8 ∧ n3 = 0x0
                      · rw [if_pos h11, if_pos h11]
                        simp only [jp_label, jp_z_label, jp_nz_label, jr_label, jr_z, jr_nz, jr_c, jr_nc, call_label, ret, ret_z, ld_hl_nn, ld_de_nn, ld_bc_nn, ld_hl_label, ld_a_n, ld_b_n, ld_c_n, ld_d_n, ld_e_n, ld_h_n, ld_l_n, ld_a_hl, ld_hl_a, ld_a_de, ld_de_a, ld_a_b, ld_a_c, ld_a_d, ld_a_e, ld_a_l, ld_a_h, ld_l_a, ld_h_a, ld_e_a, ld_d_a, ld_b_a, ld_c_a, ld_e_hl, ld_d_hl, ld_l_e, ld_h_d, ld_h_hl, ld_a_mem, ld_mem_a, inc_hl, inc_de, inc_bc, inc_a, inc_b, inc_hl_ind, dec_a, dec_b, dec_c, dec_d, dec_e, dec_hl, dec_bc, add_hl_de, add_hl_hl, add_a_n, add_a_hl, sbc_hl_de, sub_n, sub_hl, and_n, and_a_b, and_a_c, and_a_d, and_a_e, and_hl, or_a, or_c, or_hl, xor_a, xor_h, xor_hl, cp_n, cp_hl, push_af, push_hl, push_de, pop_af, pop_hl, pop_de, ex_de_hl, out_n_a, in_a_n, label, emit_label_ref, emit16, emit, List.append_assoc, List.cons_append, List.singleton_append, List.nil_append, Except.map]
                      · rw [if_neg h11, if_neg h11]
                        by_cases h12 : n0 = 0x8 ∧ n3 = 0x1
                        · rw [if_pos h12, if_pos h12]
                          simp only [jp_label, jp_z_label, jp_nz_label, jr_label, jr_z, jr_nz, jr_c, jr_nc, call_label, ret, ret_z, ld_hl_nn, ld_de_nn, ld_bc_nn, ld_hl_label, ld_a_n, ld_b_n, ld_c_n, ld_d_n, ld_e_n, ld_h_n, ld_l_n, ld_a_hl, ld_hl_a, ld_a_de, ld_de_a, ld_a_b, ld_a_c, ld_a_d, ld_a_e, ld_a_l, ld_a_h, ld_l_a, ld_h_a, ld_e_a, ld_d_a, ld_b_a, ld_c_a, ld_e_hl, ld_d_hl, ld_l_e, ld_h_d, ld_h_hl, ld_a_mem, ld_mem_a, inc_hl, inc_de, inc_bc, inc_a, inc_b, inc_hl_ind, dec_a, dec_b, dec_c, dec_d, dec_e, dec_hl, dec_bc, add_hl_de, add_hl_hl, add_a_n, add_a_hl, sbc_hl_de, sub_n, sub_hl, and_n, and_a_b, and_a_c, and_a_d, and_a_e, and_hl, or_a, or_c, or_hl, xor_a, xor_h, xor_hl, cp_n, cp_hl, push_af, push_hl, push_de, pop_af, pop_hl, pop_de, ex_de_hl, out_n_a, in_a_n, label, emit_label_ref, emit16, emit, List.append_assoc, List.cons_append, List.singleton_append, List.nil_append, Except.map]
                        · rw [if_neg h12, if_neg h12]
                          by_cases h13 : n0 = 0x8 ∧ n3 = 0x2
                          · rw [if_pos h13, if_pos h13]
                            simp only [jp_label, jp_z_label, jp_nz_label, jr_label, jr_z, jr_nz, jr_c, jr_nc, call_label, ret, ret_z, ld_hl_nn, ld_de_nn, ld_bc_nn, ld_hl_label, ld_a_n, ld_b_n, ld_c_n, ld_d_n, ld_e_n, ld_h_n, ld_l_n, ld_a_hl, ld_hl_a, ld_a_de, ld_de_a, ld_a_b, ld_a_c, ld_a_d, ld_a_e, ld_a_l, ld_a_h, ld_l_a, ld_h_a, ld_e_a, ld_d_a, ld_b_a, ld_c_a, ld_e_hl, ld_d_hl, ld_l_e, ld_h_d, ld_h_hl, ld_a_mem, ld_mem_a, inc_hl, inc_de, inc_bc, inc_a, inc_b, inc_hl_ind, dec_a, dec_b, dec_c, dec_d, dec_e, dec_hl, dec_bc, add_hl_de, add_hl_hl, add_a_n, add_a_hl, sbc_hl_de, sub_n, sub_hl, and_n, and_a_b, and_a_c, and_a_d, and_a_e, and_hl, or_a, or_c, or_hl, xor_a, xor_h, xor_hl, cp_n, cp_hl, push_af, push_hl, push_de, pop_af, pop_hl, pop_de, ex_de_hl, out_n_a, in_a_n, label, emit_label_ref, emit16, emit, List.append_assoc, List.cons_append, List.singleton_append, List.nil_append, Except.map]
                          · rw [if_neg h13, if_neg h13]
                            by_cases h14 : n0 = 0x8 ∧ n3 = 0x3
                            · rw [if_pos h14, if_pos h14]
                              simp only [jp_label, jp_z_label, jp_nz_label, jr_label, jr_z, jr_nz, jr_c, jr_nc, call_label, ret, ret_z, ld_hl_nn, ld_de_nn, ld_bc_nn, ld_hl_label, ld_a_n, ld_b_n, ld_c_n, ld_d_n, ld_e_n, ld_h_n, ld_l_n, ld_a_hl, ld_hl_a, ld_a_de, ld_de_a, ld_a_b, ld_a_c, ld_a_d, ld_a_e, ld_a_l, ld_a_h, ld_l_a, ld_h_a, ld_e_a, ld_d_a, ld_b_a, ld_c_a, ld_e_hl, ld_d_hl, ld_l_e, ld_h_d, ld_h_hl, ld_a_mem, ld_mem_a, inc_hl, inc_de, inc_bc, inc_a, inc_b, inc_hl_ind, dec_a, dec_b, dec_c, dec_d, dec_e, dec_hl, dec_bc, add_hl_de, add_hl_hl, add_a_n, add_a_hl, sbc_hl_de, sub_n, sub_hl, and_n, and_a_b, and_a_c, and_a_d, and_a_e, and_hl, or_a, or_c, or_hl, xor_a, xor_h, xor_hl, cp_n, cp_hl, push_af, push_hl, push_de, pop_af, pop_hl, pop_de, ex_de_hl, out_n_a, in_a_n, label, emit_label_ref, emit16, emit, List.append_assoc, List.cons_append, List.singleton_append, List.nil_append, Except.map]
                            · rw [if_neg h14, if_neg h14]
                              by_cases h15 : n0 = 0x8 ∧ n3 = 0x4
                              · rw [if_pos h15, if_pos h15]
                                simp only [jp_label, jp_z_label, jp_nz_label, jr_label, jr_z, jr_nz, jr_c, jr_nc, call_label, ret, ret_z, ld_hl_nn, ld_de_nn, ld_bc_nn, ld_hl_label, ld_a_n, ld_b_n, ld_c_n, ld_d_n, ld_e_n, ld_h_n, ld_l_n, ld_a_hl, ld_hl_a, ld_a_de, ld_de_a, ld_a_b, ld_a_c, ld_a_d, ld_a_e, ld_a_l, ld_a_h, ld_l_a, ld_h_a, ld_e_a, ld_d_a, ld_b_a, ld_c_a, ld_e_hl, ld_d_hl, ld_l_e, ld_h_d, ld_h_hl, ld_a_mem, ld_mem_a, inc_hl, inc_de, inc_bc, inc_a, inc_b, inc_hl_ind, dec_a, dec_b, dec_c, dec_d, dec_e, dec_hl, dec_bc, add_hl_de, add_hl_hl, add_a_n, add_a_hl, sbc_hl_de, sub_n, sub_hl, and_n, and_a_b, and_a_c, and_a_d, and_a_e, and_hl, or_a, or_c, or_hl, xor_a, xor_h, xor_hl, cp_n, cp_hl, push_af, push_hl, push_de, pop_af, pop_hl, pop_de, ex_de_hl, out_n_a, in_a_n, label, emit_label_ref, emit16, emit, List.append_assoc, List.cons_append, List.singleton_append, List.nil_append, Except.map]
                              · rw [if_neg h15, if_neg h15]
                                by_cases h16 : n0 = 0x8 ∧ n3 = 0x5
                                · rw [if_pos h16, if_pos h16]
                                  simp only [jp_label, jp_z_label, jp_nz_label, jr_label, jr_z, jr_nz, jr_c, jr_nc, call_label, ret, ret_z, ld_hl_nn, ld_de_nn, ld_bc_nn, ld_hl_label, ld_a_n, ld_b_n, ld_c_n, ld_d_n, ld_e_n, ld_h_n, ld_l_n, ld_a_hl, ld_hl_a, ld_a_de, ld_de_a, ld_a_b, ld_a_c, ld_a_d, ld_a_e, ld_a_l, ld_a_h, ld_l_a, ld_h_a, ld_e_a, ld_d_a, ld_b_a, ld_c_a, ld_e_hl, ld_d_hl, ld_l_e, ld_h_d, ld_h_hl, ld_a_mem, ld_mem_a, inc_hl, inc_de, inc_bc, inc_a, inc_b, inc_hl_ind, dec_a, dec_b, dec_c, dec_d, dec_e, dec_hl, dec_bc, add_hl_de, add_hl_hl, add_a_n, add_a_hl, sbc_hl_de, sub_n, sub_hl, and_n, and_a_b, and_a_c, and_a_d, and_a_e, and_hl, or_a, or_c, or_hl, xor_a, xor_h, xor_hl, cp_n, cp_hl, push_af, push_hl, push_de, pop_af, pop_hl, pop_de, ex_de_hl, out_n_a, in_a_n, label, emit_label_ref, emit16, emit, List.append_assoc, List.cons_append, List.singleton_append, List.nil_append, Except.map]
                                · rw [if_neg h16, if_neg h16]
                                  by_cases h17 : n0 = 0x8 ∧ n3 = 0x6
                                  · rw [if_pos h17, if_pos h17]
                                    simp only [jp_label, jp_z_label, jp_nz_label, jr_label, jr_z, jr_nz, jr_c, jr_nc, call_label, ret, ret_z, ld_hl_nn, ld_de_nn, ld_bc_nn, ld_hl_label, ld_a_n, ld_b_n, ld_c_n, ld_d_n, ld_e_n, ld_h_n, ld_l_n, ld_a_hl, ld_hl_a, ld_a_de, ld_de_a, ld_a_b, ld_a_c, ld_a_d, ld_a_e, ld_a_l, ld_a_h, ld_l_a, ld_h_a, ld_e_a, ld_d_a, ld_b_a, ld_c_a, ld_e_hl, ld_d_hl, ld_l_e, ld_h_d, ld_h_hl, ld_a_mem, ld_mem_a, inc_hl, inc_de, inc_bc, inc_a, inc_b, inc_hl_ind, dec_a, dec_b, dec_c, dec_d, dec_e, dec_hl, dec_bc, add_hl_de, add_hl_hl, add_a_n, add_a_hl, sbc_hl_de, sub_n, sub_hl, and_n, and_a_b, and_a_c, and_a_d, and_a_e, and_hl, or_a, or_c, or_hl, xor_a, xor_h, xor_hl, cp_n, cp_hl, push_af, push_hl, push_de, pop_af, pop_hl, pop_de, ex_de_hl, out_n_a, in_a_n, label, emit_label_ref, emit16, emit, List.append_assoc, List.cons_append, List.singleton_append, List.nil_append, Except.map]
                                  · rw [if_neg h17, if_neg h17]
                                    by_cases h18 : n0 = 0x8 ∧ n3 = 0x7
                                    · rw [if_pos h18, if_pos h18]
                                      simp only [jp_label, jp_z_label, jp_nz_label, jr_label, jr_z, jr_nz, jr_c, jr_nc, call_label, ret, ret_z, ld_hl_nn, ld_de_nn, ld_bc_nn, ld_hl_label, ld_a_n, ld_b_n, ld_c_n, ld_d_n, ld_e_n, ld_h_n, ld_l_n, ld_a_hl, ld_hl_a, ld_a_de, ld_de_a, ld_a_b, ld_a_c, ld_a_d, ld_a_e, ld_a_l, ld_a_h, ld_l_a, ld_h_a, ld_e_a, ld_d_a, ld_b_a, ld_c_a, ld_e_hl, ld_d_hl, ld_l_e, ld_h_d, ld_h_hl, ld_a_mem, ld_mem_a, inc_hl, inc_de, inc_bc, inc_a, inc_b, inc_hl_ind, dec_a, dec_b, dec_c, dec_d, dec_e, dec_hl, dec_bc, add_hl_de, add_hl_hl, add_a_n, add_a_hl, sbc_hl_de, sub_n, sub_hl, and_n, and_a_b, and_a_c, and_a_d, and_a_e, and_hl, or_a, or_c, or_hl, xor_a, xor_h, xor_hl, cp_n, cp_hl, push_af, push_hl, push_de, pop_af, pop_hl, pop_de, ex_de_hl, out_n_a, in_a_n, label, emit_label_ref, emit16, emit, List.append_assoc, List.cons_append, List.singleton_append, List.nil_append, Except.map]
                                    · rw [if_neg h18, if_neg h18]
                                      by_cases h19 : n0 = 0x8 ∧ n3 = 0xE
                                      · rw [if_pos h19, if_pos h19]
                                        simp only [jp_label, jp_z_label, jp_nz_label, jr_label, jr_z, jr_nz, jr_c, jr_nc, call_label, ret, ret_z, ld_hl_nn, ld_de_nn, ld_bc_nn, ld_hl_label, ld_a_n, ld_b_n, ld_c_n, ld_d_n, ld_e_n, ld_h_n, ld_l_n, ld_a_hl, ld_hl_a, ld_a_de, ld_de_a, ld_a_b, ld_a_c, ld_a_d, ld_a_e, ld_a_l, ld_a_h, ld_l_a, ld_h_a, ld_e_a, ld_d_a, ld_b_a, ld_c_a, ld_e_hl, ld_d_hl, ld_l_e, ld_h_d, ld_h_hl, ld_a_mem, ld_mem_a, inc_hl, inc_de, inc_bc, inc_a, inc_b, inc_hl_ind, dec_a, dec_b, dec_c, dec_d, dec_e, dec_hl, dec_bc, add_hl_de, add_hl_hl, add_a_n, add_a_hl, sbc_hl_de, sub_n, sub_hl, and_n, and_a_b, and_a_c, and_a_d, and_a_e, and_hl, or_a, or_c, or_hl, xor_a, xor_h, xor_hl, cp_n, cp_hl, push_af, push_hl, push_de, pop_af, pop_hl, pop_de, ex_de_hl, out_n_a, in_a_n, label, emit_label_ref, emit16, emit, List.append_assoc, List.cons_append, List.singleton_append, List.nil_append, Except.map]
                                      · rw [if_neg h19, if_neg h19]
                                        by_cases h20 : n0 = 0x9 ∧ n3 = 0x0
                                        · rw [if_pos h20, if_pos h20]
                                          simp only [jp_label, jp_z_label, jp_nz_label, jr_label, jr_z, jr_nz, jr_c, jr_nc, call_label, ret, ret_z, ld_hl_nn, ld_de_nn, ld_bc_nn, ld_hl_label, ld_a_n, ld_b_n, ld_c_n, ld_d_n, ld_e_n, ld_h_n, ld_l_n, ld_a_hl, ld_hl_a, ld_a_de, ld_de_a, ld_a_b, ld_a_c, ld_a_d, ld_a_e, ld_a_l, ld_a_h, ld_l_a, ld_h_a, ld_e_a, ld_d_a, ld_b_a, ld_c_a, ld_e_hl, ld_d_hl, ld_l_e, ld_h_d, ld_h_hl, ld_a_mem, ld_mem_a, inc_hl, inc_de, inc_bc, inc_a, inc_b, inc_hl_ind, dec_a, dec_b, dec_c, dec_d, dec_e, dec_hl, dec_bc, add_hl_de, add_hl_hl, add_a_n, add_a_hl, sbc_hl_de, sub_n, sub_hl, and_n, and_a_b, and_a_c, and_a_d, and_a_e, and_hl, or_a, or_c, or_hl, xor_a, xor_h, xor_hl, cp_n, cp_hl, push_af, push_hl, push_de, pop_af, pop_hl, pop_de, ex_de_hl, out_n_a, in_a_n, label, emit_label_ref, emit16, emit, List.append_assoc, List.cons_append, List.singleton_append, List.nil_append]
                                          rw [← hm (inst.addr + 4)]
                                          cases hL : List.lookup (inst.addr + 4) c.chip8_labels
                                          · simp only [Except.map]
                                          · simp only [jp_label, jp_z_label, jp_nz_label, jr_label, jr_z, jr_nz, jr_c, jr_nc, call_label, ret, ret_z, ld_hl_nn, ld_de_nn, ld_bc_nn, ld_hl_label, ld_a_n, ld_b_n, ld_c_n, ld_d_n, ld_e_n, ld_h_n, ld_l_n, ld_a_hl, ld_hl_a, ld_a_de, ld_de_a, ld_a_b, ld_a_c, ld_a_d, ld_a_e, ld_a_l, ld_a_h, ld_l_a, ld_h_a, ld_e_a, ld_d_a, ld_b_a, ld_c_a, ld_e_hl, ld_d_hl, ld_l_e, ld_h_d, ld_h_hl, ld_a_mem, ld_mem_a, inc_hl, inc_de, inc_bc, inc_a, inc_b, inc_hl_ind, dec_a, dec_b, dec_c, dec_d, dec_e, dec_hl, dec_bc, add_hl_de, add_hl_hl, add_a_n, add_a_hl, sbc_hl_de, sub_n, sub_hl, and_n, and_a_b, and_a_c, and_a_d, and_a_e, and_hl, or_a, or_c, or_hl, xor_a, xor_h, xor_hl, cp_n, cp_hl, push_af, push_hl, push_de, pop_af, pop_hl, pop_de, ex_de_hl, out_n_a, in_a_n, label, emit_label_ref, emit16, emit, List.append_assoc, List.cons_append, List.singleton_append, List.nil_append, Except.map]
                                        · rw [if_neg h20, if_neg h20]
                                          by_cases h21 : n0 = 0xA
                                          · rw [if_pos h21, if_pos h21]
                                            simp only [jp_label, jp_z_label, jp_nz_label, jr_label, jr_z, jr_nz, jr_c, jr_nc, call_label, ret, ret_z, ld_hl_nn, ld_de_nn, ld_bc_nn, ld_hl_label, ld_a_n, ld_b_n, ld_c_n, ld_d_n, ld_e_n, ld_h_n, ld_l_n, ld_a_hl, ld_hl_a, ld_a_de, ld_de_a, ld_a_b, ld_a_c, ld_a_d, ld_a_e, ld_a_l, ld_a_h, ld_l_a, ld_h_a, ld_e_a, ld_d_a, ld_b_a, ld_c_a, ld_e_hl, ld_d_hl, ld_l_e, ld_h_d, ld_h_hl, ld_a_mem, ld_mem_a, inc_hl, inc_de, inc_bc, inc_a, inc_b, inc_hl_ind, dec_a, dec_b, dec_c, dec_d, dec_e, dec_hl, dec_bc, add_hl_de, add_hl_hl, add_a_n, add_a_hl, sbc_hl_de, sub_n, sub_hl, and_n, and_a_b, and_a_c, and_a_d, and_a_e, and_hl, or_a, or_c, or_hl, xor_a, xor_h, xor_hl, cp_n, cp_hl, push_af, push_hl, push_de, pop_af, pop_hl, pop_de, ex_de_hl, out_n_a, in_a_n, label, emit_label_ref, emit16, emit, List.append_assoc, List.cons_append, List.singleton_append, List.nil_append, Except.map]
                                          · rw [if_neg h21, if_neg h21]
                                            by_cases h22 : n0 = 0xB
                                            · rw [if_pos h22, if_pos h22]
                                              simp only [jp_label, jp_z_label, jp_nz_label, jr_label, jr_z, jr_nz, jr_c, jr_nc, call_label, ret, ret_z, ld_hl_nn, ld_de_nn, ld_bc_nn, ld_hl_label, ld_a_n, ld_b_n, ld_c_n, ld_d_n, ld_e_n, ld_h_n, ld_l_n, ld_a_hl, ld_hl_a, ld_a_de, ld_de_a, ld_a_b, ld_a_c, ld_a_d, ld_a_e, ld_a_l, ld_a_h, ld_l_a, ld_h_a, ld_e_a, ld_d_a, ld_b_a, ld_c_a, ld_e_hl, ld_d_hl, ld_l_e, ld_h_d, ld_h_hl, ld_a_mem, ld_mem_a, inc_hl, inc_de, inc_bc, inc_a, inc_b, inc_hl_ind, dec_a, dec_b, dec_c, dec_d, dec_e, dec_hl, dec_bc, add_hl_de, add_hl_hl, add_a_n, add_a_hl, sbc_hl_de, sub_n, sub_hl, and_n, and_a_b, and_a_c, and_a_d, and_a_e, and_hl, or_a, or_c, or_hl, xor_a, xor_h, xor_hl, cp_n, cp_hl, push_af, push_hl, push_de, pop_af, pop_hl, pop_de, ex_de_hl, out_n_a, in_a_n, label, emit_label_ref, emit16, emit, List.append_assoc, List.cons_append, List.singleton_append, List.nil_append, Except.map]
                                            · rw [if_neg h22, if_neg h22]
                                              by_cases h23 : n0 = 0xC
                                              · rw [if_pos h23, if_pos h23]
                                                simp only [jp_label, jp_z_label, jp_nz_label, jr_label, jr_z, jr_nz, jr_c, jr_nc, call_label, ret, ret_z, ld_hl_nn, ld_de_nn, ld_bc_nn, ld_hl_label, ld_a_n, ld_b_n, ld_c_n, ld_d_n, ld_e_n, ld_h_n, ld_l_n, ld_a_hl, ld_hl_a, ld_a_de, ld_de_a, ld_a_b, ld_a_c, ld_a_d, ld_a_e, ld_a_l, ld_a_h, ld_l_a, ld_h_a, ld_e_a, ld_d_a, ld_b_a, ld_c_a, ld_e_hl, ld_d_hl, ld_l_e, ld_h_d, ld_h_hl, ld_a_mem, ld_mem_a, inc_hl, inc_de, inc_bc, inc_a, inc_b, inc_hl_ind, dec_a, dec_b, dec_c, dec_d, dec_e, dec_hl, dec_bc, add_hl_de, add_hl_hl, add_a_n, add_a_hl, sbc_hl_de, sub_n, sub_hl, and_n, and_a_b, and_a_c, and_a_d, and_a_e, and_hl, or_a, or_c, or_hl, xor_a, xor_h, xor_hl, cp_n, cp_hl, push_af, push_hl, push_de, pop_af, pop_hl, pop_de, ex_de_hl, out_n_a, in_a_n, label, emit_label_ref, emit16, emit, List.append_assoc, List.cons_append, List.singleton_append, List.nil_append, Except.map]
                                              · rw [if_neg h23, if_neg h23]
                                                by_cases h24 : n0 = 0xD
                                                · rw [if_pos h24, if_pos h24]
                                                  simp only [jp_label, jp_z_label, jp_nz_label, jr_label, jr_z, jr_nz, jr_c, jr_nc, call_label, ret, ret_z, ld_hl_nn, ld_de_nn, ld_bc_nn, ld_hl_label, ld_a_n, ld_b_n, ld_c_n, ld_d_n, ld_e_n, ld_h_n, ld_l_n, ld_a_hl, ld_hl_a, ld_a_de, ld_de_a, ld_a_b, ld_a_c, ld_a_d, ld_a_e, ld_a_l, ld_a_h, ld_l_a, ld_h_a, ld_e_a, ld_d_a, ld_b_a, ld_c_a, ld_e_hl, ld_d_hl, ld_l_e, ld_h_d, ld_h_hl, ld_a_mem, ld_mem_a, inc_hl, inc_de, inc_bc, inc_a, inc_b, inc_hl_ind, dec_a, dec_b, dec_c, dec_d, dec_e, dec_hl, dec_bc, add_hl_de, add_hl_hl, add_a_n, add_a_hl, sbc_hl_de, sub_n, sub_hl, and_n, and_a_b, and_a_c, and_a_d, and_a_e, and_hl, or_a, or_c, or_hl, xor_a, xor_h, xor_hl, cp_n, cp_hl, push_af, push_hl, push_de, pop_af, pop_hl, pop_de, ex_de_hl, out_n_a, in_a_n, label, emit_label_ref, emit16, emit, List.append_assoc, List.cons_append, List.singleton_append, List.nil_append, Except.map]
                                                · rw [if_neg h24, if_neg h24]
                                                  by_cases h25 : n0 = 0xE ∧ n2 = 0x9 ∧ n3 = 0xE
                                                  · rw [if_pos h25, if_pos h25]
                                                    simp only [jp_label, jp_z_label, jp_nz_label, jr_label, jr_z, jr_nz, jr_c, jr_nc, call_label, ret, ret_z, ld_hl_nn, ld_de_nn, ld_bc_nn, ld_hl_label, ld_a_n, ld_b_n, ld_c_n, ld_d_n, ld_e_n, ld_h_n, ld_l_n, ld_a_hl, ld_hl_a, ld_a_de, ld_de_a, ld_a_b, ld_a_c, ld_a_d, ld_a_e, ld_a_l, ld_a_h, ld_l_a, ld_h_a, ld_e_a, ld_d_a, ld_b_a, ld_c_a, ld_e_hl, ld_d_hl, ld_l_e, ld_h_d, ld_h_hl, ld_a_mem, ld_mem_a, inc_hl, inc_de, inc_bc, inc_a, inc_b, inc_hl_ind, dec_a, dec_b, dec_c, dec_d, dec_e, dec_hl, dec_bc, add_hl_de, add_hl_hl, add_a_n, add_a_hl, sbc_hl_de, sub_n, sub_hl, and_n, and_a_b, and_a_c, and_a_d, and_a_e, and_hl, or_a, or_c, or_hl, xor_a, xor_h, xor_hl, cp_n, cp_hl, push_af, push_hl, push_de, pop_af, pop_hl, pop_de, ex_de_hl, out_n_a, in_a_n, label, emit_label_ref, emit16, emit, List.append_assoc, List.cons_append, List.singleton_append, List.nil_append]
                                                    rw [← hm (inst.addr + 4)]
                                                    cases hL : List.lookup (inst.addr + 4) c.chip8_labels
                                                    · simp only [Except.map]
                                                    · simp only [jp_label, jp_z_label, jp_nz_label, jr_label, jr_z, jr_nz, jr_c, jr_nc, call_label, ret, ret_z, ld_hl_nn, ld_de_nn, ld_bc_nn, ld_hl_label, ld_a_n, ld_b_n, ld_c_n, ld_d_n, ld_e_n, ld_h_n, ld_l_n, ld_a_hl, ld_hl_a, ld_a_de, ld_de_a, ld_a_b, ld_a_c, ld_a_d, ld_a_e, ld_a_l, ld_a_h, ld_l_a, ld_h_a, ld_e_a, ld_d_a, ld_b_a, ld_c_a, ld_e_hl, ld_d_hl, ld_l_e, ld_h_d, ld_h_hl, ld_a_mem, ld_mem_a, inc_hl, inc_de, inc_bc, inc_a, inc_b, inc_hl_ind, dec_a, dec_b, dec_c, dec_d, dec_e, dec_hl, dec_bc, add_hl_de, add_hl_hl, add_a_n, add_a_hl, sbc_hl_de, sub_n, sub_hl, and_n, and_a_b, and_a_c, and_a_d, and_a_e, and_hl, or_a, or_c, or_hl, xor_a, xor_h, xor_hl, cp_n, cp_hl, push_af, push_hl, push_de, pop_af, pop_hl, pop_de, ex_de_hl, out_n_a, in_a_n, label, emit_label_ref, emit16, emit, List.append_assoc, List.cons_append, List.singleton_append, List.nil_append, Except.map]
                                                  · rw [if_neg h25, if_neg h25]
                                                    by_cases h26 : n0 = 0xE ∧ n2 = 0xA ∧ n3 = 0x1
                                                    · rw [if_pos h26, if_pos h26]
                                                      simp only [jp_label, jp_z_label, jp_nz_label, jr_label, jr_z, jr_nz, jr_c, jr_nc, call_label, ret, ret_z, ld_hl_nn, ld_de_nn, ld_bc_nn, ld_hl_label, ld_a_n, ld_b_n, ld_c_n, ld_d_n, ld_e_n, ld_h_n, ld_l_n, ld_a_hl, ld_hl_a, ld_a_de, ld_de_a, ld_a_b, ld_a_c, ld_a_d, ld_a_e, ld_a_l, ld_a_h, ld_l_a, ld_h_a, ld_e_a, ld_d_a, ld_b_a, ld_c_a, ld_e_hl, ld_d_hl, ld_l_e, ld_h_d, ld_h_hl, ld_a_mem, ld_mem_a, inc_hl, inc_de, inc_bc, inc_a, inc_b, inc_hl_ind, dec_a, dec_b, dec_c, dec_d, dec_e, dec_hl, dec_bc, add_hl_de, add_hl_hl, add_a_n, add_a_hl, sbc_hl_de, sub_n, sub_hl, and_n, and_a_b, and_a_c, and_a_d, and_a_e, and_hl, or_a, or_c, or_hl, xor_a, xor_h, xor_hl, cp_n, cp_hl, push_af, push_hl, push_de, pop_af, pop_hl, pop_de, ex_de_hl, out_n_a, in_a_n, label, emit_label_ref, emit16, emit, List.append_assoc, List.cons_append, List.singleton_append, List.nil_append]
                                                      rw [← hm (inst.addr + 4)]
                                                      cases hL : List.lookup (inst.addr + 4) c.chip8_labels
                                                      · simp only [Except.map]
                                                      · simp only [jp_label, jp_z_label, jp_nz_label, jr_label, jr_z, jr_nz, jr_c, jr_nc, call_label, ret, ret_z, ld_hl_nn, ld_de_nn, ld_bc_nn, ld_hl_label, ld_a_n, ld_b_n, ld_c_n, ld_d_n, ld_e_n, ld_h_n, ld_l_n, ld_a_hl, ld_hl_a, ld_a_de, ld_de_a, ld_a_b, ld_a_c, ld_a_d, ld_a_e, ld_a_l, ld_a_h, ld_l_a, ld_h_a, ld_e_a, ld_d_a, ld_b_a, ld_c_a, ld_e_hl, ld_d_hl, ld_l_e, ld_h_d, ld_h_hl, ld_a_mem, ld_mem_a, inc_hl, inc_de, inc_bc, inc_a, inc_b, inc_hl_ind, dec_a, dec_b, dec_c, dec_d, dec_e, dec_hl, dec_bc, add_hl_de, add_hl_hl, add_a_n, add_a_hl, sbc_hl_de, sub_n, sub_hl, and_n, and_a_b, and_a_c, and_a_d, and_a_e, and_hl, or_a, or_c, or_hl, xor_a, xor_h, xor_hl, cp_n, cp_hl, push_af, push_hl, push_de, pop_af, pop_hl, pop_de, ex_de_hl, out_n_a, in_a_n, label, emit_label_ref, emit16, emit, List.append_assoc, List.cons_append, List.singleton_append, List.nil_append, Except.map]
                                                    · rw [if_neg h26, if_neg h26]
                                                      by_cases h27 : n0 = 0xF ∧ n2 = 0x0 ∧ n3 = 0x7
                                                      · rw [if_pos h27, if_pos h27]
                                                        simp only [jp_label, jp_z_label, jp_nz_label, jr_label, jr_z, jr_nz, jr_c, jr_nc, call_label, ret, ret_z, ld_hl_nn, ld_de_nn, ld_bc_nn, ld_hl_label, ld_a_n, ld_b_n, ld_c_n, ld_d_n, ld_e_n, ld_h_n, ld_l_n, ld_a_hl, ld_hl_a, ld_a_de, ld_de_a, ld_a_b, ld_a_c, ld_a_d, ld_a_e, ld_a_l, ld_a_h, ld_l_a, ld_h_a, ld_e_a, ld_d_a, ld_b_a, ld_c_a, ld_e_hl, ld_d_hl, ld_l_e, ld_h_d, ld_h_hl, ld_a_mem, ld_mem_a, inc_hl, inc_de, inc_bc, inc_a, inc_b, inc_hl_ind, dec_a, dec_b, dec_c, dec_d, dec_e, dec_hl, dec_bc, add_hl_de, add_hl_hl, add_a_n, add_a_hl, sbc_hl_de, sub_n, sub_hl, and_n, and_a_b, and_a_c, and_a_d, and_a_e, and_hl, or_a, or_c, or_hl, xor_a, xor_h, xor_hl, cp_n, cp_hl, push_af, push_hl, push_de, pop_af, pop_hl, pop_de, ex_de_hl, out_n_a, in_a_n, label, emit_label_ref, emit16, emit, List.append_assoc, List.cons_append, List.singleton_append, List.nil_append, Except.map]
                                                      · rw [if_neg h27, if_neg h27]
                                                        by_cases h28 : n0 = 0xF ∧ n2 = 0x0 ∧ n3 = 0xA
                                                        · rw [if_pos h28, if_pos h28]
                                                          simp only [jp_label, jp_z_label, jp_nz_label, jr_label, jr_z, jr_nz, jr_c, jr_nc, call_label, ret, ret_z, ld_hl_nn, ld_de_nn, ld_bc_nn, ld_hl_label, ld_a_n, ld_b_n, ld_c_n, ld_d_n, ld_e_n, ld_h_n, ld_l_n, ld_a_hl, ld_hl_a, ld_a_de, ld_de_a, ld_a_b, ld_a_c, ld_a_d, ld_a_e, ld_a_l, ld_a_h, ld_l_a, ld_h_a, ld_e_a, ld_d_a, ld_b_a, ld_c_a, ld_e_hl, ld_d_hl, ld_l_e, ld_h_d, ld_h_hl, ld_a_mem, ld_mem_a, inc_hl, inc_de, inc_bc, inc_a, inc_b, inc_hl_ind, dec_a, dec_b, dec_c, dec_d, dec_e, dec_hl, dec_bc, add_hl_de, add_hl_hl, add_a_n, add_a_hl, sbc_hl_de, sub_n, sub_hl, and_n, and_a_b, and_a_c, and_a_d, and_a_e, and_hl, or_a, or_c, or_hl, xor_a, xor_h, xor_hl, cp_n, cp_hl, push_af, push_hl, push_de, pop_af, pop_hl, pop_de, ex_de_hl, out_n_a, in_a_n, label, emit_label_ref, emit16, emit, List.append_assoc, List.cons_append, List.singleton_append, List.nil_append, Except.map]
                                                        · rw [if_neg h28, if_neg h28]
                                                          by_cases h29 : n0 = 0xF ∧ n2 = 0x1 ∧ n3 = 0x5
                                                          · rw [if_pos h29, if_pos h29]
                                                            simp only [jp_label, jp_z_label, jp_nz_label, jr_label, jr_z, jr_nz, jr_c, jr_nc, call_label, ret, ret_z, ld_hl_nn, ld_de_nn, ld_bc_nn, ld_hl_label, ld_a_n, ld_b_n, ld_c_n, ld_d_n, ld_e_n, ld_h_n, ld_l_n, ld_a_hl, ld_hl_a, ld_a_de, ld_de_a, ld_a_b, ld_a_c, ld_a_d, ld_a_e, ld_a_l, ld_a_h, ld_l_a, ld_h_a, ld_e_a, ld_d_a, ld_b_a, ld_c_a, ld_e_hl, ld_d_hl, ld_l_e, ld_h_d, ld_h_hl, ld_a_mem, ld_mem_a, inc_hl, inc_de, inc_bc, inc_a, inc_b, inc_hl_ind, dec_a, dec_b, dec_c, dec_d, dec_e, dec_hl, dec_bc, add_hl_de, add_hl_hl, add_a_n, add_a_hl, sbc_hl_de, sub_n, sub_hl, and_n, and_a_b, and_a_c, and_a_d, and_a_e, and_hl, or_a, or_c, or_hl, xor_a, xor_h, xor_hl, cp_n, cp_hl, push_af, push_hl, push_de, pop_af, pop_hl, pop_de, ex_de_hl, out_n_a, in_a_n, label, emit_label_ref, emit16, emit, List.append_assoc, List.cons_append, List.singleton_append, List.nil_append, Except.map]
                                                          · rw [if_neg h29, if_neg h29]
                                                            by_cases h30 : n0 = 0xF ∧ n2 = 0x1 ∧ n3 = 0x8
                                                            · rw [if_pos h30, if_pos h30]
                                                              simp only [jp_label, jp_z_label, jp_nz_label, jr_label, jr_z, jr_nz, jr_c, jr_nc, call_label, ret, ret_z, ld_hl_nn, ld_de_nn, ld_bc_nn, ld_hl_label, ld_a_n, ld_b_n, ld_c_n, ld_d_n, ld_e_n, ld_h_n, ld_l_n, ld_a_hl, ld_hl_a, ld_a_de, ld_de_a, ld_a_b, ld_a_c, ld_a_d, ld_a_e, ld_a_l, ld_a_h, ld_l_a, ld_h_a, ld_e_a, ld_d_a, ld_b_a, ld_c_a, ld_e_hl, ld_d_hl, ld_l_e, ld_h_d, ld_h_hl, ld_a_mem, ld_mem_a, inc_hl, inc_de, inc_bc, inc_a, inc_b, inc_hl_ind, dec_a, dec_b, dec_c, dec_d, dec_e, dec_hl, dec_bc, add_hl_de, add_hl_hl, add_a_n, add_a_hl, sbc_hl_de, sub_n, sub_hl, and_n, and_a_b, and_a_c, and_a_d, and_a_e, and_hl, or_a, or_c, or_hl, xor_a, xor_h, xor_hl, cp_n, cp_hl, push_af, push_hl, push_de, pop_af, pop_hl, pop_de, ex_de_hl, out_n_a, in_a_n, label, emit_label_ref, emit16, emit, List.append_assoc, List.cons_append, List.singleton_append, List.nil_append, Except.map]
                                                            · rw [if_neg h30, if_neg h30]
                                                              by_cases h31 : n0 = 0xF ∧ n2 = 0x1 ∧ n3 = 0xE
                                                              · rw [if_pos h31, if_pos h31]
                                                                simp only [jp_label, jp_z_label, jp_nz_label, jr_label, jr_z, jr_nz, jr_c, jr_nc, call_label, ret, ret_z, ld_hl_nn, ld_de_nn, ld_bc_nn, ld_hl_label, ld_a_n, ld_b_n, ld_c_n, ld_d_n, ld_e_n, ld_h_n, ld_l_n, ld_a_hl, ld_hl_a, ld_a_de, ld_de_a, ld_a_b, ld_a_c, ld_a_d, ld_a_e, ld_a_l, ld_a_h, ld_l_a, ld_h_a, ld_e_a, ld_d_a, ld_b_a, ld_c_a, ld_e_hl, ld_d_hl, ld_l_e, ld_h_d, ld_h_hl, ld_a_mem, ld_mem_a, inc_hl, inc_de, inc_bc, inc_a, inc_b, inc_hl_ind, dec_a, dec_b, dec_c, dec_d, dec_e, dec_hl, dec_bc, add_hl_de, add_hl_hl, add_a_n, add_a_hl, sbc_hl_de, sub_n, sub_hl, and_n, and_a_b, and_a_c, and_a_d, and_a_e, and_hl, or_a, or_c, or_hl, xor_a, xor_h, xor_hl, cp_n, cp_hl, push_af, push_hl, push_de, pop_af, pop_hl, pop_de, ex_de_hl, out_n_a, in_a_n, label, emit_label_ref, emit16, emit, List.append_assoc, List.cons_append, List.singleton_append, List.nil_append, Except.map]
                                                              · rw [if_neg h31, if_neg h31]
                                                                by_cases h32 : n0 = 0xF ∧ n2 = 0x2 ∧ n3 = 0x9
                                                                · rw [if_pos h32, if_pos h32]
                                                                  simp only [jp_label, jp_z_label, jp_nz_label, jr_label, jr_z, jr_nz, jr_c, jr_nc, call_label, ret, ret_z, ld_hl_nn, ld_de_nn, ld_bc_nn, ld_hl_label, ld_a_n, ld_b_n, ld_c_n, ld_d_n, ld_e_n, ld_h_n, ld_l_n, ld_a_hl, ld_hl_a, ld_a_de, ld_de_a, ld_a_b, ld_a_c, ld_a_d, ld_a_e, ld_a_l, ld_a_h, ld_l_a, ld_h_a, ld_e_a, ld_d_a, ld_b_a, ld_c_a, ld_e_hl, ld_d_hl, ld_l_e, ld_h_d, ld_h_hl, ld_a_mem, ld_mem_a, inc_hl, inc_de, inc_bc, inc_a, inc_b, inc_hl_ind, dec_a, dec_b, dec_c, dec_d, dec_e, dec_hl, dec_bc, add_hl_de, add_hl_hl, add_a_n, add_a_hl, sbc_hl_de, sub_n, sub_hl, and_n, and_a_b, and_a_c, and_a_d, and_a_e, and_hl, or_a, or_c, or_hl, xor_a, xor_h, xor_hl, cp_n, cp_hl, push_af, push_hl, push_de, pop_af, pop_hl, pop_de, ex_de_hl, out_n_a, in_a_n, label, emit_label_ref, emit16, emit, List.append_assoc, List.cons_append, List.singleton_append, List.nil_append, Except.map]
                                                                · rw [if_neg h32, if_neg h32]
                                                                  by_cases h33 : n0 = 0xF ∧ n2 = 0x3 ∧ n3 = 0x3
                                                                  · rw [if_pos h33, if_pos h33]
                                                                    simp only [jp_label, jp_z_label, jp_nz_label, jr_label, jr_z, jr_nz, jr_c, jr_nc, call_label, ret, ret_z, ld_hl_nn, ld_de_nn, ld_bc_nn, ld_hl_label, ld_a_n, ld_b_n, ld_c_n, ld_d_n, ld_e_n, ld_h_n, ld_l_n, ld_a_hl, ld_hl_a, ld_a_de, ld_de_a, ld_a_b, ld_a_c, ld_a_d, ld_a_e, ld_a_l, ld_a_h, ld_l_a, ld_h_a, ld_e_a, ld_d_a, ld_b_a, ld_c_a, ld_e_hl, ld_d_hl, ld_l_e, ld_h_d, ld_h_hl, ld_a_mem, ld_mem_a, inc_hl, inc_de, inc_bc, inc_a, inc_b, inc_hl_ind, dec_a, dec_b, dec_c, dec_d, dec_e, dec_hl, dec_bc, add_hl_de, add_hl_hl, add_a_n, add_a_hl, sbc_hl_de, sub_n, sub_hl, and_n, and_a_b, and_a_c, and_a_d, and_a_e, and_hl, or_a, or_c, or_hl, xor_a, xor_h, xor_hl, cp_n, cp_hl, push_af, push_hl, push_de, pop_af, pop_hl, pop_de, ex_de_hl, out_n_a, in_a_n, label, emit_label_ref, emit16, emit, List.append_assoc, List.cons_append, List.singleton_append, List.nil_append, Except.map]
                                                                  · rw [if_neg h33, if_neg h33]
                                                                    by_cases h34 : n0 = 0xF ∧ n2 = 0x5 ∧ n3 = 0x5
                                                                    · rw [if_pos h34, if_pos h34]
                                                                      simp only [jp_label, jp_z_label, jp_nz_label, jr_label, jr_z, jr_nz, jr_c, jr_nc, call_label, ret, ret_z, ld_hl_nn, ld_de_nn, ld_bc_nn, ld_hl_label, ld_a_n, ld_b_n, ld_c_n, ld_d_n, ld_e_n, ld_h_n, ld_l_n, ld_a_hl, ld_hl_a, ld_a_de, ld_de_a, ld_a_b, ld_a_c, ld_a_d, ld_a_e, ld_a_l, ld_a_h, ld_l_a, ld_h_a, ld_e_a, ld_d_a, ld_b_a, ld_c_a, ld_e_hl, ld_d_hl, ld_l_e, ld_h_d, ld_h_hl, ld_a_mem, ld_mem_a, inc_hl, inc_de, inc_bc, inc_a, inc_b, inc_hl_ind, dec_a, dec_b, dec_c, dec_d, dec_e, dec_hl, dec_bc, add_hl_de, add_hl_hl, add_a_n, add_a_hl, sbc_hl_de, sub_n, sub_hl, and_n, and_a_b, and_a_c, and_a_d, and_a_e, and_hl, or_a, or_c, or_hl, xor_a, xor_h, xor_hl, cp_n, cp_hl, push_af, push_hl, push_de, pop_af, pop_hl, pop_de, ex_de_hl, out_n_a, in_a_n, label, emit_label_ref, emit16, emit, List.append_assoc, List.cons_append, List.singleton_append, List.nil_append, Except.map]
                                                                    · rw [if_neg h34, if_neg h34]
                                                                      by_cases h35 : n0 = 0xF ∧ n2 = 0x6 ∧ n3 = 0x5
                                                                      · rw [if_pos h35, if_pos h35]
                                                                        simp only [jp_label, jp_z_label, jp_nz_label, jr_label, jr_z, jr_nz, jr_c, jr_nc, call_label, ret, ret_z, ld_hl_nn, ld_de_nn, ld_bc_nn, ld_hl_label, ld_a_n, ld_b_n, ld_c_n, ld_d_n, ld_e_n, ld_h_n, ld_l_n, ld_a_hl, ld_hl_a, ld_a_de, ld_de_a, ld_a_b, ld_a_c, ld_a_d, ld_a_e, ld_a_l, ld_a_h, ld_l_a, ld_h_a, ld_e_a, ld_d_a, ld_b_a, ld_c_a, ld_e_hl, ld_d_hl, ld_l_e, ld_h_d, ld_h_hl, ld_a_mem, ld_mem_a, inc_hl, inc_de, inc_bc, inc_a, inc_b, inc_hl_ind, dec_a, dec_b, dec_c, dec_d, dec_e, dec_hl, dec_bc, add_hl_de, add_hl_hl, add_a_n, add_a_hl, sbc_hl_de, sub_n, sub_hl, and_n, and_a_b, and_a_c, and_a_d, and_a_e, and_hl, or_a, or_c, or_hl, xor_a, xor_h, xor_hl, cp_n, cp_hl, push_af, push_hl, push_de, pop_af, pop_hl, pop_de, ex_de_hl, out_n_a, in_a_n, label, emit_label_ref, emit16, emit, List.append_assoc, List.cons_append, List.singleton_append, List.nil_append, Except.map]
                                                                      · rw [if_neg h35, if_neg h35]
                                                                        simp only [Except.map]

/-- C9: compilation is a pure function of the input bytes: runs from a fresh
compiler on equal byte slices return identical results; and the template
expander is invariant under replacing the address map by any
lookup-equivalent representation (the only state a hash-map order could
influence), so no iteration-order or representation detail can reach the
output. -/
theorem c9_deterministic :
    (∀ rom₁ rom₂ : List Nat, rom₁ = rom₂ →
      compile compilerNew rom₁ = compile compilerNew rom₂) ∧
    (∀ (c : Compiler) (m : List (Nat × String)) (inst : Instruction),
      (∀ a, List.lookup a c.chip8_labels = List.lookup a m) →
      compile_instruction { c with chip8_labels := m } inst =
        Except.map (fun c' => { c' with chip8_labels := m })
          (compile_instruction c inst)) := by
  constructor
  · intro rom₁ rom₂ h
    rw [h]
  · intro c m inst hm
    exact compile_instruction_nibbles_mapEq c m hm inst _ _ _ _

end Kz80
